import Mathlib

/-!
# All-Press: protocol layer, job queue, configuration, discovery

A shallow embedding of parts of All-Press together with the properties checked
against them: the plotter protocol layer (`src/protocols/*.cpp`,
`src/core/printer_manager_plotter.cpp`, `src/core/job_queue_plotter.cpp`), the
job queue (`src/core/job_queue.cpp`), the configuration store
(`src/utils/config.cpp`), file type detection
(`src/conversion/file_processor.cpp`, `src/utils/file_utils.cpp`), the online
decision of the CUPS discovery (`src/core/printer_manager.cpp`) and the subnet
sweep (`src/network/ipp_client.cpp`, `src/network/network_scanner.cpp`).

Conventions.
* `std::string` is `String`; `std::vector<T>` is `List T`. A `std::string` is a
  byte string and the model reads it as the text it encodes: an ASCII letter is
  one byte that occurs nowhere inside a multi-byte character, so lower-casing
  and searching for an ASCII keyword are the same on both readings.
* `std::map<K, V>` is an association list holding the keys in ascending
  order, which is also the order in which a range-for visits it.
* `int` is `Int`; where a value can leave the range of `int` (the job id
  counter, a JSON integer) it is wrapped explicitly.
* A function that can throw returns `Except String _` or `Option _`, with
  `none` for the exception.
* What comes from outside the process (the clock, the file system, the
  spooler, the network) is a parameter of the function that reads it.
-/

namespace AllPress

/-! ## `plotter_protocol_base.h` -/

inductive PlotterVendor where
  | HP
  | CANON
  | EPSON
  | GENERIC
  deriving DecidableEq, Repr

inductive MediaSize where
  | A0 | A1 | A2 | A3 | A4 | A5
  | B0 | B1 | B2 | B3 | B4 | B5
  | LETTER | LEGAL | TABLOID
  | CUSTOM
  deriving DecidableEq, Repr

inductive ColorMode where
  | MONOCHROME
  | COLOR
  | RGB
  | CMYK
  deriving DecidableEq, Repr

/-! ## `compatibility_matrix.h` / `compatibility_matrix.cpp` -/

structure CompatibilityInfo where
  vendor : PlotterVendor
  model : String
  supported_protocols : List String
  primary_protocol : String
  fallback_protocols : List String
  requires_preprocessing : Bool
  quirks : List (String × String)
  deriving DecidableEq, Repr

/-- `std::map::find` on an association list: the value stored under `key`,
or `none` for `end()`. -/
def map_find {β : Type} (m : List (String × β)) (key : String) : Option β :=
  match m.find? (fun kv => kv.1 == key) with
  | some kv => some kv.2
  | none => none

/-- `CompatibilityMatrix::get_key`: the vendor tag followed by the model,
unchanged. `GENERIC` has no tag. -/
def get_key (vendor : PlotterVendor) (model : String) : String :=
  let pfx : String :=
    if vendor = PlotterVendor.HP then "HP_"
    else if vendor = PlotterVendor.CANON then "CANON_"
    else if vendor = PlotterVendor.EPSON then "EPSON_"
    else ""
  pfx ++ model

def HP_DesignJet_T1200 : CompatibilityInfo :=
  { vendor := PlotterVendor.HP
    model := "DesignJet T1200"
    supported_protocols := ["HPGL2", "PostScript", "PDF"]
    primary_protocol := "HPGL2"
    fallback_protocols := ["PostScript", "PDF"]
    requires_preprocessing := true
    quirks := [("paper_feed_delay", "500ms"), ("pen_warmup", "true")] }

def HP_DesignJet_T2300 : CompatibilityInfo :=
  { vendor := PlotterVendor.HP
    model := "DesignJet T2300"
    supported_protocols := ["HPGL2", "PostScript", "PDF"]
    primary_protocol := "HPGL2"
    fallback_protocols := ["PostScript", "PDF"]
    requires_preprocessing := true
    quirks := [("color_calibration", "required"), ("paper_feed_delay", "300ms")] }

def HP_DesignJet_T3500 : CompatibilityInfo :=
  { vendor := PlotterVendor.HP
    model := "DesignJet T3500"
    supported_protocols := ["HPGL2", "PostScript", "PDF"]
    primary_protocol := "HPGL2"
    fallback_protocols := ["PostScript", "PDF"]
    requires_preprocessing := true
    quirks := [("high_speed_mode", "true"), ("paper_feed_delay", "200ms")] }

def CANON_imagePROGRAF_TX_3000 : CompatibilityInfo :=
  { vendor := PlotterVendor.CANON
    model := "imagePROGRAF TX-3000"
    supported_protocols := ["PostScript", "PDF", "HPGL2"]
    primary_protocol := "PostScript"
    fallback_protocols := ["PDF", "HPGL2"]
    requires_preprocessing := false
    quirks := [("icc_profile_required", "true"), ("ultrachrome_ink_support", "true")] }

def CANON_imagePROGRAF_TX_4000 : CompatibilityInfo :=
  { vendor := PlotterVendor.CANON
    model := "imagePROGRAF TX-4000"
    supported_protocols := ["PostScript", "PDF", "HPGL2"]
    primary_protocol := "PostScript"
    fallback_protocols := ["PDF", "HPGL2"]
    requires_preprocessing := false
    quirks := [("icc_profile_required", "true"), ("lucia_pro_ink", "true")] }

def CANON_imagePROGRAF_PRO_6000 : CompatibilityInfo :=
  { vendor := PlotterVendor.CANON
    model := "imagePROGRAF PRO-6000"
    supported_protocols := ["PostScript", "PDF"]
    primary_protocol := "PostScript"
    fallback_protocols := ["PDF"]
    requires_preprocessing := false
    quirks := [("12_color_ink", "true"), ("professional_grade", "true")] }

def EPSON_SureColor_T5200 : CompatibilityInfo :=
  { vendor := PlotterVendor.EPSON
    model := "SureColor T5200"
    supported_protocols := ["PostScript", "ESC/P", "PDF"]
    primary_protocol := "PostScript"
    fallback_protocols := ["ESC/P", "PDF"]
    requires_preprocessing := false
    quirks := [("max_roll_width", "1118mm"), ("surecolor_mode", "true")] }

def EPSON_SureColor_T7200 : CompatibilityInfo :=
  { vendor := PlotterVendor.EPSON
    model := "SureColor T7200"
    supported_protocols := ["PostScript", "ESC/P", "PDF"]
    primary_protocol := "PostScript"
    fallback_protocols := ["ESC/P", "PDF"]
    requires_preprocessing := false
    quirks := [("max_roll_width", "1118mm"), ("ultrachrome_xd2", "true")] }

def EPSON_SureColor_T7700 : CompatibilityInfo :=
  { vendor := PlotterVendor.EPSON
    model := "SureColor T7700"
    supported_protocols := ["PostScript", "ESC/P", "PDF"]
    primary_protocol := "PostScript"
    fallback_protocols := ["ESC/P", "PDF"]
    requires_preprocessing := false
    quirks := [("dual_roll_support", "true"), ("max_roll_width", "1118mm")] }

/-- `CompatibilityMatrix::COMPATIBILITY_DB`, the nine seeded entries under
the string keys of the initialiser, in ascending key order. -/
def COMPATIBILITY_DB : List (String × CompatibilityInfo) :=
  [ ("CANON_imagePROGRAF_PRO_6000", CANON_imagePROGRAF_PRO_6000),
    ("CANON_imagePROGRAF_TX_3000", CANON_imagePROGRAF_TX_3000),
    ("CANON_imagePROGRAF_TX_4000", CANON_imagePROGRAF_TX_4000),
    ("EPSON_SureColor_T5200", EPSON_SureColor_T5200),
    ("EPSON_SureColor_T7200", EPSON_SureColor_T7200),
    ("EPSON_SureColor_T7700", EPSON_SureColor_T7700),
    ("HP_DesignJet_T1200", HP_DesignJet_T1200),
    ("HP_DesignJet_T2300", HP_DesignJet_T2300),
    ("HP_DesignJet_T3500", HP_DesignJet_T3500) ]

/-- `CompatibilityMatrix::is_compatible`. -/
def is_compatible (vendor : PlotterVendor) (model : String) (protocol : String) : Bool :=
  let key := get_key vendor model
  match map_find COMPATIBILITY_DB key with
  | none => false
  | some info => decide (protocol ∈ info.supported_protocols)

/-- `CompatibilityMatrix::get_recommended_protocol`. -/
def get_recommended_protocol (vendor : PlotterVendor) (model : String) : String :=
  let key := get_key vendor model
  match map_find COMPATIBILITY_DB key with
  | none => if vendor = PlotterVendor.HP then "HPGL2" else "PostScript"
  | some info => info.primary_protocol

/-- `CompatibilityMatrix::get_fallback_protocols`. -/
def get_fallback_protocols (vendor : PlotterVendor) (model : String) : List String :=
  let key := get_key vendor model
  match map_find COMPATIBILITY_DB key with
  | none => ["PostScript", "HPGL2", "ESC/P"]
  | some info => info.fallback_protocols

/-- `CompatibilityMatrix::get_quirks`. -/
def get_quirks (vendor : PlotterVendor) (model : String) : List (String × String) :=
  let key := get_key vendor model
  match map_find COMPATIBILITY_DB key with
  | none => []
  | some info => info.quirks

/-- `CompatibilityMatrix::get_all_plotters`: the values of the map, in key
order. -/
def get_all_plotters : List CompatibilityInfo :=
  COMPATIBILITY_DB.map (fun kv => kv.2)

/-- The registry entry for the vendor `v` and the model `m`: the seeded entry
whose `vendor` and `model` fields are `v` and `m`, if there is one. This is
how the specification identifies an entry; the code looks an entry up under
the string `get_key v m`. -/
def registry_entry (v : PlotterVendor) (m : String) : Option CompatibilityInfo :=
  get_all_plotters.find? (fun e => e.vendor = v ∧ e.model = m)

/-! ## `hpgl_generator.h` / `postscript_generator.h`: capabilities and validators -/

structure PlotterCapabilities where
  vendor : PlotterVendor
  model : String
  supported_sizes : List MediaSize
  supported_resolutions : List Int
  supported_colors : List ColorMode
  supports_duplex : Bool
  supports_booklet : Bool
  /-- In millimetres (a `float` holding a whole number in the source). -/
  max_paper_width_mm : Nat
  max_paper_height_mm : Nat
  custom_attributes : List (String × String)
  deriving DecidableEq, Repr

/-- A default-constructed `PlotterCapabilities` with `vendor` and `model`
assigned afterwards. -/
def PlotterCapabilities.with_vendor_model (vendor : PlotterVendor) (model : String) :
    PlotterCapabilities :=
  { vendor := vendor
    model := model
    supported_sizes := []
    supported_resolutions := []
    supported_colors := []
    supports_duplex := false
    supports_booklet := false
    max_paper_width_mm := 0
    max_paper_height_mm := 0
    custom_attributes := [] }

/-- `std::map::count`: the number of entries stored under `key`. -/
def map_count {α β : Type} [DecidableEq α] (m : List (α × β)) (key : α) : Nat :=
  (m.filter (fun kv => decide (kv.1 = key))).length

/-- The validation and metadata members of the virtual interface
`PlotterProtocolBase`; an implementation is a record of its methods. -/
structure PlotterProtocolBase where
  validate_media_size : MediaSize → Bool
  validate_resolution : Int → Bool
  validate_color_mode : ColorMode → Bool
  get_protocol_name : String
  get_capabilities : PlotterCapabilities
  needs_preprocessing : Bool

/-- `HPGLGenerator::media_size_map_`. -/
def HPGLGenerator.media_size_map_ : List (MediaSize × String) :=
  [ (MediaSize.A0, "ROL"),
    (MediaSize.A1, "A1P"),
    (MediaSize.A2, "A2P"),
    (MediaSize.A3, "A3P"),
    (MediaSize.A4, "A4P"),
    (MediaSize.LETTER, "LETTERP"),
    (MediaSize.LEGAL, "LEGALP"),
    (MediaSize.TABLOID, "11x17P") ]

/-- `HPGLGenerator::resolution_map_`. -/
def HPGLGenerator.resolution_map_ : List (Int × Int) :=
  [(300, 300), (600, 600), (1200, 1200)]

/-- `capabilities_` as filled in by the constructor `HPGLGenerator::HPGLGenerator`. -/
def HPGLGenerator.capabilities_ : PlotterCapabilities :=
  { vendor := PlotterVendor.HP
    model := ""
    supported_sizes :=
      [MediaSize.A0, MediaSize.A1, MediaSize.A2, MediaSize.A3, MediaSize.A4, MediaSize.LETTER]
    supported_resolutions := [300, 600, 1200]
    supported_colors := [ColorMode.MONOCHROME, ColorMode.COLOR]
    supports_duplex := false
    supports_booklet := false
    max_paper_width_mm := 1118
    max_paper_height_mm := 1600
    custom_attributes := [] }

/-- `HPGLGenerator::validate_media_size`. -/
def HPGLGenerator.validate_media_size (size : MediaSize) : Bool :=
  decide (map_count HPGLGenerator.media_size_map_ size > 0)

/-- `HPGLGenerator::validate_resolution`. -/
def HPGLGenerator.validate_resolution (dpi : Int) : Bool :=
  decide (map_count HPGLGenerator.resolution_map_ dpi > 0)

/-- `HPGLGenerator::validate_color_mode`. -/
def HPGLGenerator.validate_color_mode (use_hpgl2_ : Bool) (mode : ColorMode) : Bool :=
  decide (mode = ColorMode.MONOCHROME) || (use_hpgl2_ && decide (mode = ColorMode.COLOR))

/-- The class `HPGLGenerator`, constructed with `use_hpgl2`. -/
def HPGLGenerator (use_hpgl2 : Bool) : PlotterProtocolBase :=
  { validate_media_size := HPGLGenerator.validate_media_size
    validate_resolution := HPGLGenerator.validate_resolution
    validate_color_mode := HPGLGenerator.validate_color_mode use_hpgl2
    get_protocol_name := if use_hpgl2 then "HPGL2" else "HPGL"
    get_capabilities := HPGLGenerator.capabilities_
    needs_preprocessing := true }

/-- `PostScriptGenerator::media_dimensions_`, in points. -/
def PostScriptGenerator.media_dimensions_ : List (MediaSize × (Nat × Nat)) :=
  [ (MediaSize.A0, (2384, 3370)),
    (MediaSize.A1, (1684, 2384)),
    (MediaSize.A2, (1191, 1684)),
    (MediaSize.A3, (842, 1191)),
    (MediaSize.A4, (595, 842)),
    (MediaSize.LETTER, (612, 792)),
    (MediaSize.LEGAL, (612, 1008)),
    (MediaSize.TABLOID, (792, 1224)) ]

/-- `capabilities_` as filled in by `PostScriptGenerator::PostScriptGenerator`. -/
def PostScriptGenerator.capabilities_ (vendor : PlotterVendor) : PlotterCapabilities :=
  { vendor := vendor
    model := if vendor = PlotterVendor.CANON then "imagePROGRAF" else "SureColor"
    supported_sizes :=
      [MediaSize.A0, MediaSize.A1, MediaSize.A2, MediaSize.A3, MediaSize.A4, MediaSize.LETTER,
       MediaSize.LEGAL, MediaSize.TABLOID]
    supported_resolutions := [300, 600, 720, 1200]
    supported_colors := [ColorMode.MONOCHROME, ColorMode.COLOR]
    supports_duplex := false
    supports_booklet := false
    max_paper_width_mm := 1118
    max_paper_height_mm := 1600
    custom_attributes := [] }

/-- `PostScriptGenerator::validate_media_size`. -/
def PostScriptGenerator.validate_media_size (size : MediaSize) : Bool :=
  decide (map_count PostScriptGenerator.media_dimensions_ size > 0)

/-- `PostScriptGenerator::validate_resolution`. -/
def PostScriptGenerator.validate_resolution (dpi : Int) : Bool :=
  decide (dpi = 300) || decide (dpi = 600) || decide (dpi = 720) || decide (dpi = 1200)

/-- `PostScriptGenerator::validate_color_mode`. -/
def PostScriptGenerator.validate_color_mode (mode : ColorMode) : Bool :=
  decide (mode = ColorMode.MONOCHROME) || decide (mode = ColorMode.COLOR)

/-- The class `PostScriptGenerator`, constructed for `vendor`. -/
def PostScriptGenerator (vendor : PlotterVendor) : PlotterProtocolBase :=
  { validate_media_size := PostScriptGenerator.validate_media_size
    validate_resolution := PostScriptGenerator.validate_resolution
    validate_color_mode := PostScriptGenerator.validate_color_mode
    get_protocol_name := "PostScript"
    get_capabilities := PostScriptGenerator.capabilities_ vendor
    needs_preprocessing := false }

/-! ## `protocol_factory.cpp` -/

/-- `PlotterProtocolFactory::create_protocol`; the error is the message of
the exception thrown. -/
def create_protocol (protocol_name : String) (vendor : PlotterVendor) :
    Except String PlotterProtocolBase :=
  if protocol_name = "HPGL" ∨ protocol_name = "HPGL2" then
    Except.ok (HPGLGenerator (decide (protocol_name = "HPGL2")))
  else if protocol_name = "PostScript" then
    Except.ok (PostScriptGenerator vendor)
  else if protocol_name = "ESC/P" then
    Except.error "ESC/P not yet implemented"
  else
    Except.error ("Unknown protocol: " ++ protocol_name)

/-- `PlotterProtocolFactory::create_for_printer`. -/
def create_for_printer (vendor : PlotterVendor) (model : String) :
    Except String PlotterProtocolBase :=
  let protocol := get_recommended_protocol vendor model
  create_protocol protocol vendor

/-- `PlotterProtocolFactory::get_available_protocols`: the fallbacks with
every occurrence of the primary erased, and the primary put in front. -/
def get_available_protocols (vendor : PlotterVendor) (model : String) : List String :=
  let protocols := get_fallback_protocols vendor model
  let primary := get_recommended_protocol vendor model
  let protocols := protocols.filter (fun p => !(p == primary))
  primary :: protocols

/-! ## `printer_manager.h` -/

structure PrinterInfo where
  name : String := ""
  uri : String := ""
  make_model : String := ""
  location : String := ""
  description : String := ""
  status : Int := 0
  jobs_count : Int := 0
  is_online : Bool := false
  deriving DecidableEq, Repr

structure PrintOptions where
  media_size : String := "A4"
  color_mode : String := "color"
  duplex : String := "none"
  copies : Int := 1
  quality : Int := 3
  orientation : String := "portrait"
  collate : Bool := true
  deriving DecidableEq, Repr

/-- `PrinterManager::PrinterAdvancedInfo`. -/
structure PrinterAdvancedInfo where
  base_info : PrinterInfo := {}
  vendor : PlotterVendor := PlotterVendor.GENERIC
  supported_protocols : List String := []
  recommended_protocol : String := ""
  capabilities : PlotterCapabilities :=
    PlotterCapabilities.with_vendor_model PlotterVendor.GENERIC ""
  manufacturer_specs : List (String × String) := []
  deriving DecidableEq, Repr

/-- The members of `PrinterManager` that the plotter layer reads and writes.
Only `find` and `operator[]` are used on `plotter_cache_`, so the order of its
entries is not observable. -/
structure PrinterManager where
  printers_ : List PrinterInfo := []
  plotter_cache_ : List (String × PrinterAdvancedInfo) := []
  deriving DecidableEq, Repr

/-- `PrinterManager::get_printer_info`: the first printer called `name`, or a
default-constructed record. -/
def get_printer_info (pm : PrinterManager) (name : String) : PrinterInfo :=
  match pm.printers_.find? (fun p => p.name == name) with
  | some p => p
  | none => {}

/-! ## `printer_manager_plotter.cpp` -/

/-- `std::transform(..., std::tolower)` over the whole string ("C" locale: only
the letters `A`..`Z` change). -/
def to_lower (s : String) : List Char :=
  s.data.map Char.toLower

/-- Whether `needle` starts at the front of the first list. -/
def starts_with : List Char → List Char → Bool
  | _, [] => true
  | [], _ :: _ => false
  | c :: cs, n :: ns => (c == n) && starts_with cs ns

/-- `std::string::find(needle)`: the index of the first occurrence of
`needle`, or `none` for `npos`. -/
def string_find : List Char → List Char → Option Nat
  | [], needle => if needle.isEmpty then some 0 else none
  | c :: cs, needle =>
    if starts_with (c :: cs) needle then some 0
    else (string_find cs needle).map (fun i => i + 1)

/-- `model_lower.find(keyword) != std::string::npos`. -/
def found (model_lower : List Char) (keyword : String) : Bool :=
  (string_find model_lower keyword.data).isSome

/-- The lower-cased make_model `model_lower` contains `keyword`: it is
`before ++ keyword ++ after` for some `before` and `after`. -/
def contains_substring (model_lower : List Char) (keyword : String) : Prop :=
  ∃ before after : List Char, model_lower = before ++ keyword.data ++ after

/-- `PrinterManager::is_plotter`. -/
def is_plotter (pm : PrinterManager) (printer_uri : String) : Bool :=
  let info := get_printer_info pm printer_uri
  let model_lower := to_lower info.make_model
  let plotter_keywords : List String :=
    ["designjet", "imageprograf", "surecolor", "plotter", "wide format", "large format"]
  plotter_keywords.any (fun keyword => found model_lower keyword)

/-- `PrinterManager::detect_plotter_vendor`. -/
def detect_plotter_vendor (make_model : String) : PlotterVendor :=
  let model_lower := to_lower make_model
  if found model_lower "hp" || found model_lower "hewlett" ||
      found model_lower "designjet" then
    PlotterVendor.HP
  else if found model_lower "canon" || found model_lower "imageprograf" then
    PlotterVendor.CANON
  else if found model_lower "epson" || found model_lower "surecolor" then
    PlotterVendor.EPSON
  else
    PlotterVendor.GENERIC

/-- The body of the loop of `discover_plotters_advanced_async` for one printer
that passed `is_plotter`: the record that is cached and returned. -/
def resolve_advanced_info (printer : PrinterInfo) : PrinterAdvancedInfo :=
  let vendor := detect_plotter_vendor printer.make_model
  let model := printer.make_model
  let recommended_protocol := get_recommended_protocol vendor model
  let supported_protocols := get_fallback_protocols vendor model
  let supported_protocols :=
    if recommended_protocol ∈ supported_protocols then supported_protocols
    else recommended_protocol :: supported_protocols
  let capabilities :=
    match create_for_printer vendor model with
    | Except.ok protocol => protocol.get_capabilities
    | Except.error _ => PlotterCapabilities.with_vendor_model vendor model
  { base_info := printer
    vendor := vendor
    supported_protocols := supported_protocols
    recommended_protocol := recommended_protocol
    capabilities := capabilities
    manufacturer_specs := get_quirks vendor model }

/-- `plotter_cache_[key] = value`. -/
def cache_assign (cache : List (String × PrinterAdvancedInfo)) (key : String)
    (value : PrinterAdvancedInfo) : List (String × PrinterAdvancedInfo) :=
  (key, value) :: cache.filter (fun kv => !(kv.1 == key))

/-- `PrinterManager::discover_plotters_advanced_async`, run to completion.
`cups` is what `discover_cups_printers` enumerates; it also becomes
`printers_`. -/
def discover_plotters_advanced (pm : PrinterManager) (cups : List PrinterInfo) :
    PrinterManager × List PrinterAdvancedInfo :=
  let pm : PrinterManager := { pm with printers_ := cups }
  cups.foldl
    (fun (acc : PrinterManager × List PrinterAdvancedInfo) printer =>
      if is_plotter acc.1 printer.uri then
        let adv_info := resolve_advanced_info printer
        ({ acc.1 with plotter_cache_ := cache_assign acc.1.plotter_cache_ printer.uri adv_info },
         acc.2 ++ [adv_info])
      else acc)
    (pm, [])

/-- `PrinterManager::get_plotter_info`. -/
def get_plotter_info (pm : PrinterManager) (cups : List PrinterInfo) (printer_uri : String) :
    PrinterManager × PrinterAdvancedInfo :=
  match map_find pm.plotter_cache_ printer_uri with
  | some info => (pm, info)
  | none =>
    let r := discover_plotters_advanced pm cups
    match r.2.find? (fun plotter => plotter.base_info.uri == printer_uri) with
    | some plotter => (r.1, plotter)
    | none =>
      (r.1, { base_info := get_printer_info r.1 printer_uri, vendor := PlotterVendor.GENERIC })

inductive LogLevel where
  | INFO
  | WARNING
  | ERROR
  deriving DecidableEq, Repr

/-- The `MediaSize` that `validate_document_for_plotter` derives from
`options.media_size` (lines 207-214). -/
def validate_document_for_plotter_media_size (media_size : String) : MediaSize :=
  if media_size = "A0" then MediaSize.A0
  else if media_size = "A1" then MediaSize.A1
  else if media_size = "A2" then MediaSize.A2
  else if media_size = "A3" then MediaSize.A3
  else if media_size = "A4" then MediaSize.A4
  else if media_size = "Letter" then MediaSize.LETTER
  else if media_size = "Legal" then MediaSize.LEGAL
  else MediaSize.A4

/-- The `ColorMode` that `validate_document_for_plotter` derives from
`options.color_mode` (lines 225-228). -/
def validate_document_for_plotter_color_mode (color_mode : String) : ColorMode :=
  if color_mode = "color" then ColorMode.COLOR else ColorMode.MONOCHROME

/-- The DPI that `validate_document_for_plotter` derives from
`options.quality` (lines 239-244). -/
def validate_document_for_plotter_dpi (quality : Int) : Int :=
  if quality = 5 then 1200
  else if quality = 4 then 600
  else if quality = 3 then 600
  else if quality = 2 then 300
  else if quality = 1 then 300
  else 300

/-- The part of the `try` block of `validate_document_for_plotter` that follows
the creation of the protocol handler, for any implementation of the interface:
the verdict and the lines logged. -/
def validate_with_protocol (protocol : PlotterProtocolBase) (printer_uri : String)
    (options : PrintOptions) : Bool × List (LogLevel × String) :=
  let media_size := validate_document_for_plotter_media_size options.media_size
  if !protocol.validate_media_size media_size then
    (false, [(LogLevel.ERROR,
      "Media size " ++ options.media_size ++ " not supported by plotter " ++ printer_uri)])
  else
    let color_mode := validate_document_for_plotter_color_mode options.color_mode
    if !protocol.validate_color_mode color_mode then
      (false, [(LogLevel.ERROR,
        "Color mode " ++ options.color_mode ++ " not supported by plotter " ++ printer_uri)])
    else
      let dpi := validate_document_for_plotter_dpi options.quality
      let warning : List (LogLevel × String) :=
        if !protocol.validate_resolution dpi then
          [(LogLevel.WARNING,
            "Resolution " ++ toString dpi ++ " DPI not optimal for plotter " ++ printer_uri ++
              ", will use closest")]
        else []
      (true, warning ++
        [(LogLevel.INFO, "Document validation passed for plotter: " ++ printer_uri)])

/-- The `try`/`catch` of `validate_document_for_plotter`, given the record
that `get_plotter_info` returned. -/
def validate_document_for_info (plotter_info : PrinterAdvancedInfo) (printer_uri : String)
    (options : PrintOptions) : Bool × List (LogLevel × String) :=
  match create_for_printer plotter_info.vendor plotter_info.base_info.make_model with
  | Except.ok protocol => validate_with_protocol protocol printer_uri options
  | Except.error what => (false, [(LogLevel.ERROR, "Failed to validate document: " ++ what)])

/-- `PrinterManager::validate_document_for_plotter`. -/
def validate_document_for_plotter (pm : PrinterManager) (cups : List PrinterInfo)
    (printer_uri : String) (file_path : String) (options : PrintOptions) : Bool :=
  let _ := file_path
  let plotter_info := (get_plotter_info pm cups printer_uri).2
  (validate_document_for_info plotter_info printer_uri options).1

/-! ## `job_queue.h` / `job_queue_plotter.cpp` -/

inductive JobStatus where
  | Pending
  | Processing
  | Printing
  | Completed
  | Failed
  | Cancelled
  | Paused
  deriving DecidableEq, Repr

/-- `PrintJob`. Time points are ticks of the system clock, with 0 for the
default time point; `progress` is kept in hundredths (a `float` in `[0, 1]` in
the source), and so is `estimated_cost`. -/
structure PrintJob where
  job_id : Int := 0
  printer_name : String := ""
  file_path : String := ""
  original_filename : String := ""
  options : PrintOptions := {}
  status : JobStatus := JobStatus.Pending
  created_at : Nat := 0
  started_at : Nat := 0
  completed_at : Nat := 0
  cups_job_id : Int := 0
  error_message : String := ""
  progress : Nat := 0
  file_size : Nat := 0
  estimated_pages : Int := 0
  estimated_cost : Nat := 0
  deriving DecidableEq, Repr

/-- `JobQueue::validate_job_compatibility`; `printer_manager_` is `none` for a
null pointer. -/
def validate_job_compatibility (printer_manager_ : Option PrinterManager)
    (cups : List PrinterInfo) (job : PrintJob) : Bool :=
  match printer_manager_ with
  | none => false
  | some pm =>
    if !is_plotter pm job.printer_name then true
    else validate_document_for_plotter pm cups job.printer_name job.file_path job.options

/-- The DPI that `process_job_with_protocol` derives from
`context.job.options.quality` (lines 80-83). -/
def process_job_with_protocol_dpi (quality : Int) : Int :=
  if quality = 5 then 1200
  else if quality = 4 then 600
  else if quality ≥ 3 then 600
  else 300

/-! ## `job_queue.cpp`

The queue owns its jobs through `std::shared_ptr<PrintJob>`: the FIFO and the
id map point to the same objects. The model keeps the objects in a heap indexed
by address; an address stands for a pointer. Operations of different threads
are interleaved as whole steps, except that calls of other threads may fall
between the progress ticks of a worker, where the worker sleeps without holding
the mutex: `progress_ticks_calls` admits every public operation there, and
`progress_ticks` is the case in which all these calls are `cancel_job` calls
(`cancelled_before`). The callbacks and the spooler are observed through the
list of events they receive. -/

/-- The value of a 32-bit `int` after an arithmetic step on `std::atomic<int>`:
wrapped to two's complement. -/
def wrap_int (x : Int) : Int :=
  (x + 2147483648) % 4294967296 - 2147483648

/-- What the outside sees of a queue: a call of `status_callback_` with the
job as it is at that moment, a call of `progress_callback_`, a call of
`printer_manager_->submit_print_job`. -/
inductive Event where
  | status (job : PrintJob)
  | progress (job_id : Int) (progress : Nat)
  | submit (printer : String) (file_path : String) (options : PrintOptions)
  deriving DecidableEq, Repr

/-- The members of `JobQueue`. `heap` holds the `PrintJob` objects by address
and `heap_size` is the next free address; `status_callback_` and
`progress_callback_` say whether a callback is registered; `events` is the
record of the calls made so far, oldest first. -/
structure JobQueue where
  heap : Nat → PrintJob
  heap_size : Nat
  job_queue_ : List Nat
  jobs_map_ : List (Int × Nat)
  next_job_id_ : Int
  active_jobs_ : Nat
  status_callback_ : Bool
  progress_callback_ : Bool
  printer_manager_ : Option PrinterManager
  events : List Event

/-- The queue after `JobQueue::JobQueue`. -/
def JobQueue.fresh : JobQueue :=
  { heap := fun _ => {}
    heap_size := 0
    job_queue_ := []
    jobs_map_ := []
    next_job_id_ := 1
    active_jobs_ := 0
    status_callback_ := false
    progress_callback_ := false
    printer_manager_ := none
    events := [] }

/-- `jobs_map_.find(job_id)`: the pointer stored under `job_id`, or `none` for
`end()`. -/
def umap_find (m : List (Int × Nat)) (job_id : Int) : Option Nat :=
  match m.find? (fun kv => decide (kv.1 = job_id)) with
  | some kv => some kv.2
  | none => none

/-- `jobs_map_[job_id] = ptr`. The order of an `unordered_map` is unspecified. -/
def umap_assign (m : List (Int × Nat)) (job_id : Int) (ptr : Nat) : List (Int × Nat) :=
  (job_id, ptr) :: m.filter (fun kv => !decide (kv.1 = job_id))

/-- A write through a pointer: the object at `addr` becomes `f` of itself. -/
def JobQueue.modify (q : JobQueue) (addr : Nat) (f : PrintJob → PrintJob) : JobQueue :=
  { q with heap := Function.update q.heap addr (f (q.heap addr)) }

/-- `if (status_callback_) status_callback_(*ptr)`. -/
def JobQueue.notify_status (q : JobQueue) (addr : Nat) : JobQueue :=
  if q.status_callback_ then { q with events := q.events ++ [Event.status (q.heap addr)] }
  else q

/-- `JobQueue::add_job`; `now` is the reading of the system clock. -/
def add_job (q : JobQueue) (job : PrintJob) (now : Nat) : JobQueue × Int :=
  let job_id := q.next_job_id_
  let new_job : PrintJob :=
    { job with job_id := job_id, created_at := now, status := JobStatus.Pending }
  let job_ptr := q.heap_size
  ({ q with
      next_job_id_ := wrap_int (q.next_job_id_ + 1)
      heap := Function.update q.heap job_ptr new_job
      heap_size := q.heap_size + 1
      jobs_map_ := umap_assign q.jobs_map_ job_id job_ptr
      job_queue_ := q.job_queue_ ++ [job_ptr] },
    job_id)

/-- `JobQueue::cancel_job`. -/
def cancel_job (q : JobQueue) (job_id : Int) : JobQueue × Bool :=
  match umap_find q.jobs_map_ job_id with
  | some ptr =>
    let q := q.modify ptr (fun job => { job with status := JobStatus.Cancelled })
    (q.notify_status ptr, true)
  | none => (q, false)

/-- `JobQueue::pause_job`. -/
def pause_job (q : JobQueue) (job_id : Int) : JobQueue × Bool :=
  match umap_find q.jobs_map_ job_id with
  | some ptr => (q.modify ptr (fun job => { job with status := JobStatus.Paused }), true)
  | none => (q, false)

/-- `JobQueue::resume_job`. -/
def resume_job (q : JobQueue) (job_id : Int) : JobQueue × Bool :=
  match umap_find q.jobs_map_ job_id with
  | some ptr =>
    if (q.heap ptr).status = JobStatus.Paused then
      (q.modify ptr (fun job => { job with status := JobStatus.Pending }), true)
    else (q, false)
  | none => (q, false)

/-- `JobQueue::retry_job`. -/
def retry_job (q : JobQueue) (job_id : Int) : JobQueue × Bool :=
  match umap_find q.jobs_map_ job_id with
  | some ptr =>
    if (q.heap ptr).status = JobStatus.Failed ∨ (q.heap ptr).status = JobStatus.Cancelled then
      let q := q.modify ptr (fun job =>
        { job with
          status := JobStatus.Pending
          error_message := ""
          progress := 0
          started_at := 0
          completed_at := 0 })
      let q := { q with job_queue_ := q.job_queue_ ++ [ptr] }
      (q.notify_status ptr, true)
    else (q, false)
  | none => (q, false)

/-- `JobQueue::move_job`. -/
def move_job (q : JobQueue) (job_id : Int) (new_printer : String) : JobQueue × Bool :=
  match umap_find q.jobs_map_ job_id with
  | some ptr => (q.modify ptr (fun job => { job with printer_name := new_printer }), true)
  | none => (q, false)

/-- `JobQueue::get_job`: a copy of the job stored under `job_id`. -/
def get_job (q : JobQueue) (job_id : Int) : Option PrintJob :=
  match umap_find q.jobs_map_ job_id with
  | some ptr => some (q.heap ptr)
  | none => none

/-- `JobQueue::get_queue_size`. -/
def get_queue_size (q : JobQueue) : Nat :=
  q.job_queue_.length

/-- `JobQueue::update_job_status`. -/
def update_job_status (q : JobQueue) (job_id : Int) (status : JobStatus) (error : String) :
    JobQueue :=
  match umap_find q.jobs_map_ job_id with
  | some ptr =>
    let q := q.modify ptr (fun job => { job with status := status })
    let q := if error = "" then q else q.modify ptr (fun job => { job with error_message := error })
    q.notify_status ptr
  | none => q

/-- What a worker gets from outside the queue: `Utils::FileUtils::file_exists`
and the answer of `PrinterManager::submit_print_job`. -/
structure Environment where
  file_exists : String → Bool
  submit_print_job : String → String → PrintOptions → Int

/-- The progress loop of `execute_print_job` from the tick with index `k` on,
for the schedules in which the only calls of other threads between the ticks
are `cancel_job` calls; `ticks` are the remaining values of `i`. Before the
status check of tick `k` the calls `cancel_job(id)` for the ids in
`cancelled_before k` take place on other threads. The result is false when the
loop returned early. `progress_ticks_calls` is the loop for all schedules. -/
def progress_ticks (cancelled_before : Nat → List Int) (addr : Nat) :
    List Nat → Nat → JobQueue → JobQueue × Bool
  | [], _, q => (q, true)
  | i :: ticks, k, q =>
    let q := (cancelled_before k).foldl (fun q id => (cancel_job q id).1) q
    if (q.heap addr).status = JobStatus.Cancelled then (q, false)
    else
      let q := q.modify addr (fun job => { job with progress := i })
      let q :=
        if q.progress_callback_ then
          { q with events := q.events ++ [Event.progress (q.heap addr).job_id (q.heap addr).progress] }
        else q
      progress_ticks cancelled_before addr ticks (k + 1) q

/-- `JobQueue::execute_print_job` on the job at `addr`. -/
def execute_print_job (env : Environment) (cancelled_before : Nat → List Int)
    (q : JobQueue) (addr : Nat) : JobQueue × Bool :=
  match q.printer_manager_ with
  | none =>
    (q.modify addr (fun job => { job with error_message := "Printer manager not available" }),
      false)
  | some _ =>
    if !env.file_exists (q.heap addr).file_path then
      (q.modify addr (fun job =>
          { job with error_message := "File not found: " ++ job.file_path }),
        false)
    else
      let r := progress_ticks cancelled_before addr [0, 20, 40, 60, 80, 100] 0 q
      if !r.2 then (r.1, false)
      else
        let q := r.1.modify addr (fun job => { job with status := JobStatus.Printing })
        let job := q.heap addr
        let cups_job_id := env.submit_print_job job.printer_name job.file_path job.options
        let q :=
          { q with
            events := q.events ++ [Event.submit job.printer_name job.file_path job.options] }
        if cups_job_id > 0 then
          (q.modify addr (fun job => { job with cups_job_id := cups_job_id }), true)
        else
          (q.modify addr (fun job =>
              { job with
                error_message :=
                  "Failed to submit print job. Check printer connection and file format." }),
            false)

/-- `JobQueue::process_job` on the job at `addr`; `started` and `completed` are
the two readings of the system clock. -/
def process_job (env : Environment) (started completed : Nat)
    (cancelled_before : Nat → List Int) (q : JobQueue) (addr : Nat) : JobQueue :=
  if (q.heap addr).status = JobStatus.Cancelled ∨ (q.heap addr).status = JobStatus.Paused then q
  else
    let q := { q with active_jobs_ := q.active_jobs_ + 1 }
    let q := q.modify addr (fun job =>
      { job with status := JobStatus.Processing, started_at := started })
    let q := q.notify_status addr
    let r := execute_print_job env cancelled_before q addr
    let q := r.1
    let q :=
      if r.2 then
        q.modify addr (fun job =>
          { job with status := JobStatus.Completed, completed_at := completed })
      else
        q.modify addr (fun job =>
          { job with status := JobStatus.Failed, error_message := "Print job failed" })
    let q := q.notify_status addr
    { q with active_jobs_ := q.active_jobs_ - 1 }

/-- The body of one progress tick after the status check (lines 296-299): the
progress is stored and the progress callback is called. -/
def ticked (q : JobQueue) (addr : Nat) (i : Nat) : JobQueue :=
  let q := q.modify addr (fun job => { job with progress := i })
  if q.progress_callback_ then
    { q with events := q.events ++ [Event.progress (q.heap addr).job_id (q.heap addr).progress] }
  else q

/-- The last part of `execute_print_job` (lines 304-318), entered when the
progress loop ran to its end: the job becomes `Printing` and is handed to the
spooler. -/
def submit_to_spooler (env : Environment) (q : JobQueue) (addr : Nat) : JobQueue × Bool :=
  let q := q.modify addr (fun job => { job with status := JobStatus.Printing })
  let job := q.heap addr
  let cups_job_id := env.submit_print_job job.printer_name job.file_path job.options
  let q :=
    { q with events := q.events ++ [Event.submit job.printer_name job.file_path job.options] }
  if cups_job_id > 0 then
    (q.modify addr (fun job => { job with cups_job_id := cups_job_id }), true)
  else
    (q.modify addr (fun job =>
        { job with
          error_message :=
            "Failed to submit print job. Check printer connection and file format." }),
      false)

/-- The first part of `process_job` for a job that is not skipped (lines
247-255): the state in which `execute_print_job` is called. -/
def processing_started (q : JobQueue) (addr : Nat) (started : Nat) : JobQueue :=
  (({ q with active_jobs_ := q.active_jobs_ + 1 } : JobQueue).modify addr (fun job =>
    { job with status := JobStatus.Processing, started_at := started })).notify_status addr

/-- The last part of `process_job` (lines 259-273), given the state and the
result that `execute_print_job` left. -/
def processing_finished (q : JobQueue) (addr : Nat) (success : Bool) (completed : Nat) :
    JobQueue :=
  let q :=
    if success then
      q.modify addr (fun job =>
        { job with status := JobStatus.Completed, completed_at := completed })
    else
      q.modify addr (fun job =>
        { job with status := JobStatus.Failed, error_message := "Print job failed" })
  let q := q.notify_status addr
  { q with active_jobs_ := q.active_jobs_ - 1 }

/-- One round of `JobQueue::worker_thread`: take the job at the front of the
FIFO and process it. With an empty FIFO the worker waits and nothing changes. -/
def worker_round (env : Environment) (started completed : Nat)
    (cancelled_before : Nat → List Int) (q : JobQueue) : JobQueue :=
  match q.job_queue_ with
  | [] => q
  | job :: rest =>
    process_job env started completed cancelled_before { q with job_queue_ := rest } job

/-- A call on the queue, or a round of a worker. -/
inductive Op where
  | add_job (job : PrintJob) (now : Nat)
  | cancel_job (job_id : Int)
  | pause_job (job_id : Int)
  | resume_job (job_id : Int)
  | retry_job (job_id : Int)
  | move_job (job_id : Int) (new_printer : String)
  | set_job_status_callback
  | set_progress_callback
  | set_printer_manager (manager : PrinterManager)
  | worker (env : Environment) (started completed : Nat) (cancelled_before : Nat → List Int)

/-- The queue after one operation. -/
def step (q : JobQueue) : Op → JobQueue
  | Op.add_job job now => (add_job q job now).1
  | Op.cancel_job job_id => (cancel_job q job_id).1
  | Op.pause_job job_id => (pause_job q job_id).1
  | Op.resume_job job_id => (resume_job q job_id).1
  | Op.retry_job job_id => (retry_job q job_id).1
  | Op.move_job job_id new_printer => (move_job q job_id new_printer).1
  | Op.set_job_status_callback => { q with status_callback_ := true }
  | Op.set_progress_callback => { q with progress_callback_ := true }
  | Op.set_printer_manager manager => { q with printer_manager_ := some manager }
  | Op.worker env started completed cancelled_before =>
    worker_round env started completed cancelled_before q

/-- The queue after a sequence of operations. -/
def run (q : JobQueue) (ops : List Op) : JobQueue :=
  ops.foldl step q

/-- The ids that the `add_job` calls of `ops` return, in order. -/
def returned_ids : JobQueue → List Op → List Int
  | _, [] => []
  | q, Op.add_job job now :: ops => (add_job q job now).2 :: returned_ids (add_job q job now).1 ops
  | q, op :: ops => returned_ids (step q op) ops

/-- The number of `add_job` calls in `ops`. -/
def count_add_job : List Op → Nat
  | [] => 0
  | Op.add_job _ _ :: ops => count_add_job ops + 1
  | _ :: ops => count_add_job ops

/-- Whether an operation is a call of `add_job`. -/
def Op.is_add_job : Op → Bool
  | Op.add_job _ _ => true
  | _ => false

/-- The statuses that the status callback has seen, in order. -/
def observed_statuses (events : List Event) : List JobStatus :=
  events.filterMap (fun e =>
    match e with
    | Event.status job => some job.status
    | _ => none)

/-- The progress values that the progress callback has seen, in order. -/
def observed_progress (events : List Event) : List Nat :=
  events.filterMap (fun e =>
    match e with
    | Event.progress _ p => some p
    | _ => none)

/-- The calls of `submit_print_job` among the events. -/
def submissions (events : List Event) : List Event :=
  events.filter (fun e =>
    match e with
    | Event.submit _ _ _ => true
    | _ => false)

/-- The ids and the id map of `q2` are those of `q1`: same counter, same id
map, same number of objects, and every object has kept its `job_id`. -/
def same_ids (q1 q2 : JobQueue) : Prop :=
  q2.next_job_id_ = q1.next_job_id_ ∧ q2.jobs_map_ = q1.jobs_map_ ∧
    q2.heap_size = q1.heap_size ∧ ∀ addr, (q2.heap addr).job_id = (q1.heap addr).job_id

/-! ## `hpgl_generator.cpp` / `postscript_generator.cpp`: headers

A header is built as text and returned as its bytes (`std::vector<uint8_t>`);
the model keeps the text. Every character written is ASCII. -/

/-- `std::map::operator[]` on an existing key: the value stored under `key`
(a default-constructed value when there is none). -/
def map_at {α β : Type} [DecidableEq α] [Inhabited β] (m : List (α × β)) (key : α) : β :=
  match m.find? (fun kv => decide (kv.1 = key)) with
  | some kv => kv.2
  | none => default

/-- `HPGLGenerator::generate_header`. No path of the function throws. -/
def HPGLGenerator.generate_header (use_hpgl2_ : Bool) (caps : PlotterCapabilities)
    (media_size : MediaSize) (color_mode : ColorMode) (dpi : Int) : String :=
  let _ := caps
  let header := ""
  let header := header ++ "\x1b.@"
  let header := header ++ "ES"
  let header := if use_hpgl2_ then header ++ "\x1b%0B" else header
  let header := header ++ "PU0,0;"
  let header := header ++ "PA0,0;"
  let header :=
    if map_count HPGLGenerator.media_size_map_ media_size > 0 then
      let media_cmd := "PM" ++ map_at HPGLGenerator.media_size_map_ media_size ++ ";"
      header ++ media_cmd
    else header
  let header := header ++ ("PS" ++ toString dpi ++ ";")
  let header :=
    if use_hpgl2_ && decide (color_mode = ColorMode.COLOR) then header ++ "MC3;" else header
  let header := header ++ "SP1;"
  header

/-- `PostScriptGenerator::generate_header`; `now` is the value of
`std::time(nullptr)`. The page dimensions are `float`s holding whole numbers
below one million, which the stream prints as their digits. No path of the
function throws. -/
def PostScriptGenerator.generate_header (target_vendor_ : PlotterVendor) (now : Int)
    (caps : PlotterCapabilities) (media_size : MediaSize) (color_mode : ColorMode)
    (dpi : Int) : String :=
  let _ := caps
  let ps := ""
  let ps := ps ++ "%!PS-Adobe-3.0\n"
  let ps := ps ++ "%%Creator: All Press C++\n"
  let ps := ps ++ "%%CreationDate: " ++ toString now ++ "\n"
  let ps :=
    if map_count PostScriptGenerator.media_dimensions_ media_size > 0 then
      let dims := map_at PostScriptGenerator.media_dimensions_ media_size
      let ps := ps ++ "<<\n"
      let ps := ps ++ "  /PageSize [" ++ toString dims.1 ++ " " ++ toString dims.2 ++ "]\n"
      let ps := ps ++ "  /MediaClass (plain)\n"
      let ps :=
        if color_mode = ColorMode.COLOR then ps ++ "  /ColorModel /DeviceRGB\n"
        else ps ++ "  /ColorModel /DeviceGray\n"
      ps ++ ">> setpagedevice\n\n"
    else ps
  let ps := ps ++ "currentdevice /HWResolution\n"
  let ps := ps ++ "[" ++ toString dpi ++ " " ++ toString dpi ++ "] def\n\n"
  let ps :=
    if target_vendor_ = PlotterVendor.CANON then
      ps ++ "% Canon imagePROGRAF settings\n" ++ "<< /ColorRenderingType 1 >> setuserparams\n"
    else if target_vendor_ = PlotterVendor.EPSON then
      ps ++ "% Epson SureColor settings\n" ++ "<< /Optimize true >> setuserparams\n"
    else ps
  ps ++ "%%EndProlog\n\n"

/-- The header as the specification lists its parts: reset escape,
enter-HP-GL/2 escape for dialect 2, pen-up at origin, plot-absolute at origin,
media select with the code of the size, page scale with the DPI, multi-colour
pen selection for HP-GL/2 in colour, select pen 1. -/
def hpgl_header_as_listed (use_hpgl2 : Bool) (code : String) (color_mode : ColorMode)
    (dpi : Int) : String :=
  "\x1b.@" ++ (if use_hpgl2 then "\x1b%0B" else "") ++ "PU0,0;" ++ "PA0,0;" ++
    ("PM" ++ code ++ ";") ++ ("PS" ++ toString dpi ++ ";") ++
    (if use_hpgl2 && decide (color_mode = ColorMode.COLOR) then "MC3;" else "") ++ "SP1;"

/-- The page dimensions in points as the specification tabulates them. -/
def page_size_points : MediaSize → Option (Nat × Nat)
  | MediaSize.A0 => some (2384, 3370)
  | MediaSize.A1 => some (1684, 2384)
  | MediaSize.A2 => some (1191, 1684)
  | MediaSize.A3 => some (842, 1191)
  | MediaSize.A4 => some (595, 842)
  | MediaSize.LETTER => some (612, 792)
  | MediaSize.LEGAL => some (612, 1008)
  | MediaSize.TABLOID => some (792, 1224)
  | _ => none

/-! ## `plotter_endpoints.cpp` -/

/-- The quality level that `handle_validate_document` derives from the
`resolution` member of the request (lines 203-206). -/
def handle_validate_document_quality (dpi : Int) : Int :=
  if dpi ≥ 1200 then 5
  else if dpi ≥ 600 then 4
  else 3

/-! ## `file_utils.cpp` / `file_processor.cpp` -/

/-- `std::string::find_last_of(c)`: the index of the last occurrence of `c`,
or `none` for `npos`. -/
def find_last_of : List Char → Char → Option Nat
  | [], _ => none
  | x :: xs, c =>
    match find_last_of xs c with
    | some i => some (i + 1)
    | none => if x = c then some 0 else none

/-- `FileUtils::get_file_extension`: the text from the last dot on. -/
def get_file_extension (path : String) : String :=
  match find_last_of path.data '.' with
  | some pos => String.mk (path.data.drop pos)
  | none => ""

inductive FileType where
  | Unknown
  | PDF
  | Image
  | Office
  | CAD
  | Archive
  | SVG
  | Design
  | Text
  deriving DecidableEq, Repr

/-- `FileProcessor::detect_file_type`. -/
def detect_file_type (file_path : String) : FileType :=
  let ext := get_file_extension file_path
  if ext = ".pdf" then FileType.PDF
  else if ext = ".jpg" ∨ ext = ".jpeg" ∨ ext = ".png" ∨ ext = ".gif" ∨
      ext = ".bmp" ∨ ext = ".tiff" ∨ ext = ".tif" then FileType.Image
  else if ext = ".doc" ∨ ext = ".docx" ∨ ext = ".odt" ∨
      ext = ".xls" ∨ ext = ".xlsx" ∨ ext = ".ppt" ∨ ext = ".pptx" then FileType.Office
  else if ext = ".dwg" ∨ ext = ".dxf" ∨ ext = ".dwf" ∨ ext = ".dgn" ∨
      ext = ".plt" ∨ ext = ".hpgl" then FileType.CAD
  else if ext = ".svg" then FileType.SVG
  else if ext = ".ai" ∨ ext = ".psd" ∨ ext = ".cdr" ∨ ext = ".eps" ∨
      ext = ".afdesign" ∨ ext = ".sketch" then FileType.Design
  else if ext = ".zip" ∨ ext = ".rar" ∨ ext = ".tar" ∨ ext = ".gz" then FileType.Archive
  else if ext = ".txt" ∨ ext = ".rtf" ∨ ext = ".md" then FileType.Text
  else FileType.Unknown

/-- The path `p` with its extension (the text from the last dot on) in lower
case, as the claim about case-insensitive classification puts it. -/
def with_extension_lowercased (p : String) : String :=
  match find_last_of p.data '.' with
  | some pos => String.mk (p.data.take pos ++ (p.data.drop pos).map Char.toLower)
  | none => p

/-- The edges of the state machine as the claim about status changes lists
them: Pending->Processing->Printing->Completed, Processing->Failed,
Processing->Cancelled, Failed/Cancelled->Pending, Pending->Paused->Pending. -/
def specified_edge : JobStatus → JobStatus → Bool
  | JobStatus.Pending, JobStatus.Processing => true
  | JobStatus.Processing, JobStatus.Printing => true
  | JobStatus.Printing, JobStatus.Completed => true
  | JobStatus.Processing, JobStatus.Failed => true
  | JobStatus.Processing, JobStatus.Cancelled => true
  | JobStatus.Failed, JobStatus.Pending => true
  | JobStatus.Cancelled, JobStatus.Pending => true
  | JobStatus.Pending, JobStatus.Paused => true
  | JobStatus.Paused, JobStatus.Pending => true
  | _, _ => false

/-! ## `ipp_client.cpp` / `network_scanner.cpp`: the subnet sweep -/

/-- The host ranges `[start, end]` that `IPPClient::scan_ip_range_parallel`
hands to its threads, one per thread `t = 0, ..., num_threads - 1`;
`NetworkScanner::scan_subnet_async` computes the same ranges from
`thread_count_`. The result is `none` when `254 / num_threads` divides by
zero. -/
def scan_chunks (num_threads : Nat) : Option (List (Nat × Nat)) :=
  if num_threads = 0 then none
  else
    let ips_per_thread := 254 / num_threads
    some ((List.range num_threads).map (fun t =>
      (t * ips_per_thread + 1,
        if t = num_threads - 1 then 254 else (t + 1) * ips_per_thread)))

/-- The hosts that the thread with the range `chunk` probes:
`for (int i = start; i <= end; ++i)`. -/
def probed_hosts (chunk : Nat × Nat) : List Nat :=
  List.range' chunk.1 (chunk.2 + 1 - chunk.1)

/-! ## `hpgl_generator.cpp` / `postscript_generator.cpp`: pages and footers -/

/-- The bytes of a text, `std::vector<uint8_t>(s.begin(), s.end())`; the texts
written by the generators are ASCII. -/
def to_bytes (s : String) : List Nat :=
  s.data.map Char.toNat

/-- `HPGLGenerator::generate_page`: the raster data as they are. -/
def HPGLGenerator.generate_page (raster_data : List Nat) (width height dpi : Int) : List Nat :=
  let _ := (width, height, dpi)
  let result : List Nat := []
  result ++ raster_data

/-- `HPGLGenerator::generate_footer`. -/
def HPGLGenerator.generate_footer (use_hpgl2_ : Bool) : String :=
  let footer := ""
  let footer := footer ++ "PU;"
  let footer := footer ++ "\x1bE"
  let footer := if use_hpgl2_ then footer ++ "\x1b%0A" else footer
  footer ++ "\x1b.@"

/-- `PostScriptGenerator::generate_page`. -/
def PostScriptGenerator.generate_page (raster_data : List Nat) (width height dpi : Int) :
    List Nat :=
  let _ := dpi
  let ps := ""
  let ps := ps ++ "gsave\n"
  let ps := ps ++ toString width ++ " " ++ toString height ++ " scale\n"
  let ps := ps ++ "currentfile /DCTDecode filter\n"
  let ps := ps ++ "image\n"
  to_bytes ps ++ raster_data

/-- `PostScriptGenerator::generate_footer`. -/
def PostScriptGenerator.generate_footer : String :=
  "grestore\nshowpage\n%%EOF\n"

/-- A call of one of the three generation methods, with its arguments. -/
inductive GeneratorCall where
  | generate_header (caps : PlotterCapabilities) (media_size : MediaSize)
      (color_mode : ColorMode) (dpi : Int)
  | generate_page (raster_data : List Nat) (width height dpi : Int)
  | generate_footer

/-- Whether a call is a call of `generate_header`. -/
def GeneratorCall.is_generate_header : GeneratorCall → Bool
  | GeneratorCall.generate_header _ _ _ _ => true
  | _ => false

/-- The bytes that a call on an `HPGLGenerator` constructed with `use_hpgl2`
returns when `std::time(nullptr)` would read `now`. -/
def HPGLGenerator.call (use_hpgl2_ : Bool) (now : Int) : GeneratorCall → List Nat
  | GeneratorCall.generate_header caps media_size color_mode dpi =>
    let _ := now
    to_bytes (HPGLGenerator.generate_header use_hpgl2_ caps media_size color_mode dpi)
  | GeneratorCall.generate_page raster_data width height dpi =>
    HPGLGenerator.generate_page raster_data width height dpi
  | GeneratorCall.generate_footer => to_bytes (HPGLGenerator.generate_footer use_hpgl2_)

/-- The bytes that a call on a `PostScriptGenerator` constructed for
`target_vendor_` returns when `std::time(nullptr)` reads `now`. -/
def PostScriptGenerator.call (target_vendor_ : PlotterVendor) (now : Int) :
    GeneratorCall → List Nat
  | GeneratorCall.generate_header caps media_size color_mode dpi =>
    to_bytes (PostScriptGenerator.generate_header target_vendor_ now caps media_size
      color_mode dpi)
  | GeneratorCall.generate_page raster_data width height dpi =>
    PostScriptGenerator.generate_page raster_data width height dpi
  | GeneratorCall.generate_footer => to_bytes PostScriptGenerator.generate_footer

/-! ## `config.cpp`

`config_map_` is a `std::unordered_map<std::string, std::string>`; the model
keeps it as a list of pairs with distinct keys, in the order in which the map
is iterated. -/

/-- `config_map_[key] = value`. -/
def config_assign (m : List (String × String)) (key value : String) : List (String × String) :=
  if (m.find? (fun kv => kv.1 == key)).isSome then
    m.map (fun kv => if kv.1 == key then (key, value) else kv)
  else m ++ [(key, value)]

/-- `Config::get_string`. -/
def get_string (config_map_ : List (String × String)) (key : String)
    (default_value : String) : String :=
  match map_find config_map_ key with
  | some value => value
  | none => default_value

/-- `Config::has_key`. -/
def has_key (config_map_ : List (String × String)) (key : String) : Bool :=
  (map_find config_map_ key).isSome

/-- `std::isspace` in the "C" locale. -/
def isspace (c : Char) : Bool :=
  c = ' ' ∨ c = '\t' ∨ c = '\n' ∨ c = '\x0b' ∨ c = '\x0c' ∨ c = '\r'

/-- The value of a run of decimal digits read from the left, with what
follows the digits. -/
def read_digits : List Char → Nat → Nat × List Char
  | [], acc => (acc, [])
  | c :: cs, acc =>
    if c.isDigit then read_digits cs (acc * 10 + (c.toNat - '0'.toNat)) else (acc, c :: cs)

/-- `std::stoi(value)` in base 10: leading white space is skipped, a sign may
follow, then at least one digit; what follows the digits is ignored. The result
is `none` when `std::stoi` throws (`std::invalid_argument` without a digit,
`std::out_of_range` outside of `int`). -/
def stoi (value : String) : Option Int :=
  let s := value.data.dropWhile isspace
  let (negative, s) :=
    match s with
    | '-' :: rest => (true, rest)
    | '+' :: rest => (false, rest)
    | _ => (false, s)
  match s with
  | [] => none
  | c :: _ =>
    if c.isDigit then
      let n : Int := (read_digits s 0).1
      let v : Int := if negative then -n else n
      if -2147483648 ≤ v ∧ v ≤ 2147483647 then some v else none
    else none

/-- `Config::get_int`. -/
def get_int (config_map_ : List (String × String)) (key : String) (default_value : Int) : Int :=
  let value := get_string config_map_ key ""
  if value = "" then default_value
  else
    match stoi value with
    | some v => v
    | none => default_value

/-- `Config::get_bool`. -/
def get_bool (config_map_ : List (String × String)) (key : String) (default_value : Bool) :
    Bool :=
  let value := get_string config_map_ key ""
  if value = "" then default_value
  else value = "true" ∨ value = "1" ∨ value = "yes" ∨ value = "on"

/-- `Config::set_string`. -/
def set_string (config_map_ : List (String × String)) (key value : String) :
    List (String × String) :=
  config_assign config_map_ key value

/-- `Config::set_int`; `std::to_string` of an `int` is its decimal text. -/
def set_int (config_map_ : List (String × String)) (key : String) (value : Int) :
    List (String × String) :=
  set_string config_map_ key (toString value)

/-- A parsed JSON document (`nlohmann::json`). The members of an object come
in the order of their keys; a floating-point number is kept as the text that
`std::to_string` gives for it. -/
inductive Json where
  | null
  | boolean (b : Bool)
  | number_integer (v : Int)
  | number_float (text : String)
  | string (s : String)
  | array (elements : List Json)
  | object (members : List (String × Json))

/-- The body of the loop of `Config::from_json` for one member of an object
(lines 204-212). -/
def from_json_member (config_map_ : List (String × String)) (key : String) :
    Json → List (String × String)
  | Json.string s => config_assign config_map_ key s
  | Json.number_integer v => config_assign config_map_ key (toString (wrap_int v))
  | Json.boolean b => config_assign config_map_ key (if b then "true" else "false")
  | Json.number_float text => config_assign config_map_ key text
  | _ => config_map_

/-- Whether the loop body reaches `it.key()` for this value. -/
def Json.is_stored_scalar : Json → Bool
  | Json.string _ => true
  | Json.number_integer _ => true
  | Json.boolean _ => true
  | Json.number_float _ => true
  | _ => false

/-- `Config::from_json`, given what `json::parse(json_str)` yields: `none`
when it throws. The loop runs over the members of an object; for an array or a
single value `it.key()` throws as soon as an element is a scalar, and the
function returns false. -/
def from_json (config_map_ : List (String × String)) (parsed : Option Json) :
    List (String × String) × Bool :=
  match parsed with
  | none => (config_map_, false)
  | some (Json.object members) =>
    (members.foldl (fun m kv => from_json_member m kv.1 kv.2) config_map_, true)
  | some (Json.array elements) => (config_map_, !elements.any Json.is_stored_scalar)
  | some Json.null => (config_map_, true)
  | some _ => (config_map_, false)

/-- `operator<` of `std::string`: lexicographic by character code. -/
def string_lt : List Char → List Char → Bool
  | _, [] => false
  | [], _ :: _ => true
  | a :: as, b :: bs =>
    if a.toNat < b.toNat then true
    else if b.toNat < a.toNat then false
    else string_lt as bs

/-- `m[key] = value` on a `std::map` with `std::string` keys, which is kept
in the order of its keys. -/
def smap_assign {β : Type} : List (String × β) → String → β → List (String × β)
  | [], key, value => [(key, value)]
  | (k, v) :: rest, key, value =>
    if key = k then (key, value) :: rest
    else if string_lt key.data k.data then (key, value) :: (k, v) :: rest
    else (k, v) :: smap_assign rest key value

/-- `sections[section][key] = value` on the map of maps of `save_to_file`. -/
def sections_assign (sections : List (String × List (String × String)))
    (section_name key value : String) : List (String × List (String × String)) :=
  match map_find sections section_name with
  | some entries => smap_assign sections section_name (smap_assign entries key value)
  | none => smap_assign sections section_name [(key, value)]

/-- The first loop of `Config::save_to_file` (lines 87-96): the pairs of
`config_map_`, in the order of iteration, are put into `sections` when the key
has a dot and appended to `top_level` otherwise. -/
def group_by_section :
    List (String × String) → List (String × List (String × String)) × List (String × String) →
      List (String × List (String × String)) × List (String × String)
  | [], acc => acc
  | (key, value) :: rest, (sections, top_level) =>
    match string_find key.data ['.'] with
    | some dot_pos =>
      group_by_section rest
        (sections_assign sections (String.mk (key.data.take dot_pos))
          (String.mk (key.data.drop (dot_pos + 1))) value, top_level)
    | none => group_by_section rest (sections, top_level ++ [(key, value)])

/-- The lines `key=value` that `save_to_file` writes for a list of pairs. -/
def write_pairs (pairs : List (String × String)) : String :=
  pairs.foldl (fun file kv => file ++ kv.1 ++ "=" ++ kv.2 ++ "\n") ""

/-- The text that `Config::save_to_file` writes when the file could be
opened: the sections in the order of their names, each with its header, its
pairs and an empty line, and after them the top-level pairs. -/
def save_to_file_text (config_map_ : List (String × String)) : String :=
  let grouped := group_by_section config_map_ ([], [])
  let file :=
    grouped.1.foldl
      (fun file section_entries =>
        file ++ "[" ++ section_entries.1 ++ "]" ++ "\n" ++ write_pairs section_entries.2 ++ "\n")
      ""
  file ++ write_pairs grouped.2

/-- `Config::save_to_file`: the text written, or `none` when the file could
not be opened and the function returns false. -/
def save_to_file (config_map_ : List (String × String)) (file_is_open : Bool) :
    Option String :=
  if !file_is_open then none else some (save_to_file_text config_map_)

/-- The lines that repeated `std::getline` reads from a text; `line` holds the
characters of the line being read. -/
def getlines : List Char → List Char → List (List Char)
  | [], line => if line.isEmpty then [] else [line]
  | c :: rest, line => if c = '\n' then line :: getlines rest [] else getlines rest (line ++ [c])

/-- Whether a character is a blank or a tab. -/
def is_blank (c : Char) : Bool :=
  c = ' ' ∨ c = '\t'

/-- The trimming of `load_from_file` (lines 56-59): blanks and tabs are
erased at both ends. -/
def trim_blanks (s : List Char) : List Char :=
  ((s.dropWhile is_blank).reverse.dropWhile is_blank).reverse

/-- The body of the loop of `Config::load_from_file` for one line (lines
38-67); the state is `current_section` and `config_map_`. -/
def load_line (state : List Char × List (String × String)) (line : List Char) :
    List Char × List (String × String) :=
  match line with
  | [] => state
  | first :: _ =>
    if first = '#' ∨ first = ';' then state
    else if first = '[' ∧ line.getLast? = some ']' then
      ((line.drop 1).take (line.length - 2), state.2)
    else
      match string_find line ['='] with
      | some pos =>
        let key := trim_blanks (line.take pos)
        let value := trim_blanks (line.drop (pos + 1))
        let key := if state.1.isEmpty then key else state.1 ++ ['.'] ++ key
        (state.1, config_assign state.2 (String.mk key) (String.mk value))
      | none => state

/-- `Config::load_from_file`, given the text of the file, `none` when the
file cannot be opened: the new `config_map_` and the value returned. -/
def load_from_file (config_map_ : List (String × String)) (file : Option String) :
    List (String × String) × Bool :=
  match file with
  | none => (config_map_, false)
  | some text => (((getlines text.data []).foldl load_line ([], [])).2, true)

/-! ## `printer_manager.cpp`: the online decision of `discover_cups_printers` -/

/-- The attributes of the answer to `IPP_GET_PRINTER_ATTRIBUTES` that the
discovery reads; `none` stands for an attribute that is not in the answer. -/
structure IppResponse where
  printer_state : Option Int := none
  printer_state_reasons : Option (List String) := none

/-- The value of `cups_says_ready` after the answer of the spooler has been
read (lines 93-120); `response` is `none` when `cupsDoRequest` returns null. -/
def cups_says_ready (response : Option IppResponse) : Bool :=
  match response with
  | none => false
  | some r =>
    let ready :=
      match r.printer_state with
      | some state => state = 3 ∨ state = 4
      | none => false
    match r.printer_state_reasons with
    | some reasons =>
      reasons.foldl
        (fun ready reason_str =>
          if found reason_str.data "offline" ∨ found reason_str.data "shutdown" ∨
              found reason_str.data "paused" then false
          else ready)
        ready
    | none => ready

/-- The value of `info.status` after the answer of the spooler has been
read: 5 (stopped) unless the answer has a `printer-state`. -/
def cups_status (response : Option IppResponse) : Int :=
  match response with
  | some r =>
    match r.printer_state with
    | some state => state
    | none => 5
  | none => 5

/-- `s.find(needle, start)` for a `start` within the string. -/
def string_find_from (s needle : List Char) (start : Nat) : Option Nat :=
  (string_find (s.drop start) needle).map (fun i => i + start)

/-- The test for a network scheme (lines 128-129). -/
def is_network_uri (real_uri : List Char) : Bool :=
  string_find real_uri "ipp://".data = some 0 ∨ string_find real_uri "http://".data = some 0 ∨
    string_find real_uri "socket://".data = some 0 ∨ string_find real_uri "lpd://".data = some 0

/-- The host and the port that the discovery extracts from a device URI
(lines 131-148); the port is 631 unless the URI names one. The result is
`none` when `std::stoi` throws on the text of the port. -/
def parse_host_port (real_uri : List Char) : Option (List Char × Int) :=
  let port : Int := 631
  match string_find real_uri "://".data with
  | some proto_end =>
    let host_start := proto_end + 3
    let host_end := string_find_from real_uri ['/'] host_start
    let port_pos := string_find_from real_uri [':'] host_start
    match port_pos, host_end with
    | some pp, some he =>
      if pp < he then
        match stoi (String.mk ((real_uri.drop (pp + 1)).take (he - pp - 1))) with
        | some p => some ((real_uri.drop host_start).take (pp - host_start), p)
        | none => none
      else some ((real_uri.drop host_start).take (he - host_start), port)
    | some pp, none =>
      match stoi (String.mk (real_uri.drop (pp + 1))) with
      | some p => some ((real_uri.drop host_start).take (pp - host_start), p)
      | none => none
    | none, some he => some ((real_uri.drop host_start).take (he - host_start), port)
    | none, none => some (real_uri.drop host_start, port)
  | none => some ([], port)

/-- Whether the host is one that the discovery does not dial (line 151). -/
def is_local_host (host : List Char) : Bool :=
  host.isEmpty ∨ host = "localhost".data ∨ host = "127.0.0.1".data

/-- The part of the loop body of `PrinterManager::discover_cups_printers`
that decides `info.is_online` and `info.status` for one destination (lines
74-163). `device_uri` is the `device-uri` option of the destination, `none`
when it has none; `dial host port` tells whether `httpConnect2` connects. The
result is `none` when the exception of `std::stoi` leaves the function. -/
def discover_cups_printers_online (name : String) (device_uri : Option String)
    (response : Option IppResponse) (dial : List Char → Int → Bool) : Option (Bool × Int) :=
  let real_uri : List Char :=
    match device_uri with
    | some uri => uri.data
    | none => "cups://".data ++ name.data
  let is_online := false
  let status := cups_status response
  let ready := cups_says_ready response
  if ready ∧ !real_uri.isEmpty then
    if is_network_uri real_uri then
      match parse_host_port real_uri with
      | none => none
      | some (host, port) =>
        if !is_local_host host then
          if dial host port then some (true, status) else some (false, 5)
        else some (ready, status)
    else some (ready, status)
  else some (is_online, status)

/-! ## `job_queue.cpp`: calls of other threads between the progress ticks

The progress loop of `execute_print_job` sleeps without holding the mutex, so
every public operation of the queue can be called by another thread between
two ticks. -/

/-- A call of a public operation of the queue. -/
inductive QueueCall where
  | add_job (job : PrintJob) (now : Nat)
  | cancel_job (job_id : Int)
  | pause_job (job_id : Int)
  | resume_job (job_id : Int)
  | retry_job (job_id : Int)
  | move_job (job_id : Int) (new_printer : String)

/-- The queue after a call. -/
def apply_call (q : JobQueue) : QueueCall → JobQueue
  | QueueCall.add_job job now => (add_job q job now).1
  | QueueCall.cancel_job job_id => (cancel_job q job_id).1
  | QueueCall.pause_job job_id => (pause_job q job_id).1
  | QueueCall.resume_job job_id => (resume_job q job_id).1
  | QueueCall.retry_job job_id => (retry_job q job_id).1
  | QueueCall.move_job job_id new_printer => (move_job q job_id new_printer).1

/-- The progress loop of `execute_print_job` (lines 291-302) from the tick
with index `k` on; `ticks` are the remaining values of `i`. Before the status
check of tick `k` the calls `calls_before k` of other threads take place, in
this order. The result is false when the loop returned early. -/
def progress_ticks_calls (calls_before : Nat → List QueueCall) (addr : Nat) :
    List Nat → Nat → JobQueue → JobQueue × Bool
  | [], _, q => (q, true)
  | i :: ticks, k, q =>
    let q := (calls_before k).foldl apply_call q
    if (q.heap addr).status = JobStatus.Cancelled then (q, false)
    else progress_ticks_calls calls_before addr ticks (k + 1) (ticked q addr i)

/-- `JobQueue::execute_print_job` on the job at `addr`, with the calls of
other threads between the ticks. -/
def execute_print_job_calls (env : Environment) (calls_before : Nat → List QueueCall)
    (q : JobQueue) (addr : Nat) : JobQueue × Bool :=
  match q.printer_manager_ with
  | none =>
    (q.modify addr (fun job => { job with error_message := "Printer manager not available" }),
      false)
  | some _ =>
    if !env.file_exists (q.heap addr).file_path then
      (q.modify addr (fun job =>
          { job with error_message := "File not found: " ++ job.file_path }),
        false)
    else
      let r := progress_ticks_calls calls_before addr [0, 20, 40, 60, 80, 100] 0 q
      if !r.2 then (r.1, false)
      else submit_to_spooler env r.1 addr

/-- `JobQueue::process_job` on the job at `addr`, with the calls of other
threads between the ticks; `started` and `completed` are the two readings of
the system clock. -/
def process_job_calls (env : Environment) (started completed : Nat)
    (calls_before : Nat → List QueueCall) (q : JobQueue) (addr : Nat) : JobQueue :=
  if (q.heap addr).status = JobStatus.Cancelled ∨ (q.heap addr).status = JobStatus.Paused then q
  else
    let r := execute_print_job_calls env calls_before (processing_started q addr started) addr
    processing_finished r.1 addr r.2 completed

/-- One round of `JobQueue::worker_thread`, with the calls of other threads
between the ticks: take the job at the front of the FIFO and process it. -/
def worker_round_calls (env : Environment) (started completed : Nat)
    (calls_before : Nat → List QueueCall) (q : JobQueue) : JobQueue :=
  match q.job_queue_ with
  | [] => q
  | job :: rest =>
    process_job_calls env started completed calls_before { q with job_queue_ := rest } job

/-! ## Sample inputs -/

/-- A CUPS destination for an HP plotter whose model has no registry key. -/
def unknown_hp_plotter : PrinterInfo :=
  { name := "dj", uri := "dj", make_model := "HP DesignJet UnknownX" }

/-- A CUPS destination for an HP DesignJet T1200. -/
def designjet_t1200_plotter : PrinterInfo :=
  { name := "plotter1", uri := "plotter1", make_model := "HP DesignJet T1200" }

/-- A printer manager that has enumerated `designjet_t1200_plotter`. -/
def designjet_manager : PrinterManager :=
  { printers_ := [designjet_t1200_plotter] }

/-- A job for `designjet_t1200_plotter` asking for media size "B2". -/
def b2_job : PrintJob :=
  { job_id := 1, printer_name := "plotter1", file_path := "/tmp/a.pdf",
    options := { media_size := "B2" } }

/-- The job of scenario S1: an A4 document for printer "office1". -/
def sample_job : PrintJob :=
  { printer_name := "office1", file_path := "/tmp/a.pdf", original_filename := "a.pdf" }

/-- The file is there and the spooler answers with id 17. -/
def spooler_accepts : Environment :=
  { file_exists := fun _ => true, submit_print_job := fun _ _ _ => 17 }

/-- The file is there and the spooler answers with 0. -/
def spooler_rejects : Environment :=
  { file_exists := fun _ => true, submit_print_job := fun _ _ _ => 0 }

/-- The file is not there. -/
def file_missing : Environment :=
  { file_exists := fun _ => false, submit_print_job := fun _ _ _ => 17 }

/-- No `cancel_job` call falls between the progress ticks. -/
def no_cancel : Nat → List Int :=
  fun _ => []

/-- `cancel_job(job_id)` is called right before the status check of tick `k`. -/
def cancel_at (k : Nat) (job_id : Int) : Nat → List Int :=
  fun i => if i = k then [job_id] else []

/-- Both callbacks and the printer manager are registered, then `sample_job`
is submitted at time 5. -/
def submit_sample : List Op :=
  [Op.set_job_status_callback, Op.set_progress_callback, Op.set_printer_manager {},
    Op.add_job sample_job 5]

/-- The queue after `submit_sample` and one worker round in environment `env`
with the given cancellations. -/
def sample_run (env : Environment) (cancelled_before : Nat → List Int) : JobQueue :=
  run JobQueue.fresh (submit_sample ++ [Op.worker env 6 7 cancelled_before])

/-- A job is submitted, cancelled and retried while no worker runs. -/
def add_cancel_retry_ops : List Op :=
  [Op.set_job_status_callback, Op.set_progress_callback, Op.set_printer_manager {},
    Op.add_job sample_job 5, Op.cancel_job 1, Op.retry_job 1]

/-- After `add_cancel_retry_ops`, a worker takes a job from the FIFO twice;
the spooler accepts every submission. -/
def add_cancel_retry_run : JobQueue :=
  run JobQueue.fresh (add_cancel_retry_ops ++
    [Op.worker spooler_accepts 6 7 no_cancel, Op.worker spooler_accepts 8 9 no_cancel])

/-- The queue after `sample_job` was submitted and printed. -/
def completed_run : JobQueue :=
  sample_run spooler_accepts no_cancel

/-- The call `generate_header(caps, A4, COLOR, 600)` on the Canon generator. -/
def canon_a4_header : GeneratorCall :=
  GeneratorCall.generate_header (PostScriptGenerator.capabilities_ PlotterVendor.CANON)
    MediaSize.A4 ColorMode.COLOR 600

/-- The document of the test `ConfigFromJSON`:
`{"queue": {"max_workers": 8}, "server": {"port": 9000, "ws_port": 9001}}`. -/
def sections_json : Json :=
  Json.object
    [("queue", Json.object [("max_workers", Json.number_integer 8)]),
      ("server", Json.object [("port", Json.number_integer 9000),
        ("ws_port", Json.number_integer 9001)])]

/-- The document of the test `ConfigNestedObjects`. -/
def nested_strings_json : Json :=
  Json.object
    [("logging", Json.object [("file", Json.string "/tmp/test.log"),
        ("level", Json.string "DEBUG")]),
      ("server", Json.object [("host", Json.string "0.0.0.0"),
        ("port", Json.number_integer 7000)])]

/-- A document with scalar members at the top: `{"debug": true, "port": 9000}`. -/
def flat_json : Json :=
  Json.object [("debug", Json.boolean true), ("port", Json.number_integer 9000)]

/-- A configuration with one key in a section and one key at the top. -/
def mixed_config : List (String × String) :=
  [("server.port", "8080"), ("debug", "true")]

/-- The configuration of the test `ConfigSaveToFile`, started empty. -/
def port_config : List (String × String) :=
  set_int [] "server.port" 8080

/-- The answer of the spooler with the given `printer-state` and
`printer-state-reasons`. -/
def ipp_response (state : Int) (reasons : List String) : Option IppResponse :=
  some { printer_state := some state, printer_state_reasons := some reasons }

/-- No host can be reached. -/
def unroutable : List Char → Int → Bool :=
  fun _ _ => false

/-- Another thread calls `cancel_job(job_id)` and then `retry_job(job_id)`
before the status check of tick `k`. -/
def cancel_retry_at (k : Nat) (job_id : Int) : Nat → List QueueCall :=
  fun i => if i = k then [QueueCall.cancel_job job_id, QueueCall.retry_job job_id] else []

/-- No other thread calls the queue between the ticks. -/
def no_calls : Nat → List QueueCall :=
  fun _ => []

/-- The queue after `submit_sample` and one worker round, started at 6 and
finished at 7, during which `sample_job` is cancelled and retried between the
second and the third tick; the spooler accepts the job. -/
def retried_while_processing : JobQueue :=
  worker_round_calls spooler_accepts 6 7 (cancel_retry_at 2 1) (run JobQueue.fresh submit_sample)

end AllPress

/-! # Properties -/

namespace AllPress

/-! ## Compatibility registry -/

/-- The keys of the registry are pairwise distinct, as in a `std::map`. -/
theorem registry_keys_nodup : (COMPATIBILITY_DB.map (fun kv => kv.1)).Nodup := by
  decide

/-- None of the nine seeded entries is stored under the key that `get_key`
builds from the entry's own vendor and model. -/
theorem seeded_key_not_found :
    ∀ e ∈ get_all_plotters, map_find COMPATIBILITY_DB (get_key e.vendor e.model) = none := by
  decide

/-- Whatever `find` returns is the value of one of the pairs of the map. -/
theorem map_find_mem {β : Type} (m : List (String × β)) (key : String) (v : β)
    (h : map_find m key = some v) : ∃ kv ∈ m, kv.1 = key ∧ kv.2 = v := by
  unfold map_find at h
  cases hf : m.find? (fun kv => kv.1 == key) with
  | none => simp [hf] at h
  | some kv =>
    simp only [hf, Option.some.injEq] at h
    refine ⟨kv, List.mem_of_find?_eq_some hf, ?_, h⟩
    have := List.find?_some hf
    simpa using this

/-- An entry found in the registry is one of `get_all_plotters`. -/
theorem registry_find_mem (key : String) (e : CompatibilityInfo)
    (h : map_find COMPATIBILITY_DB key = some e) : e ∈ get_all_plotters := by
  obtain ⟨kv, hkv, _, rfl⟩ := map_find_mem _ _ _ h
  exact List.mem_map_of_mem _ hkv

/-- C1, at the failing input: `is_compatible(HP, "DesignJet T1200", "HPGL2")`
is false, because `get_key` yields `"HP_DesignJet T1200"` while the entry is
stored under `"HP_DesignJet_T1200"`; the same holds for all nine seeded
entries, none of which is compatible with any protocol under its own vendor
and model. -/
theorem is_compatible_seeded_false :
    is_compatible PlotterVendor.HP "DesignJet T1200" "HPGL2" = false ∧
    get_key PlotterVendor.HP "DesignJet T1200" = "HP_DesignJet T1200" ∧
    "HPGL2" ∈ HP_DesignJet_T1200.supported_protocols ∧
    HP_DesignJet_T1200 ∈ get_all_plotters ∧
    (∀ e ∈ get_all_plotters, ∀ p : String, is_compatible e.vendor e.model p = false) := by
  refine ⟨by decide, by decide, by decide, by decide, ?_⟩
  intro e he p
  have h := seeded_key_not_found e he
  simp only [is_compatible, h]

/-- The key built for a vendor with a key prefix starts with the first letter
of the prefix. -/
theorem get_key_head (v : PlotterVendor) (m : String) (hv : v ≠ PlotterVendor.GENERIC) :
    (get_key v m).data.head? = (get_key v "").data.head? := by
  cases v
  · simp [get_key, String.data_append]
  · simp [get_key, String.data_append]
  · simp [get_key, String.data_append]
  · exact absurd rfl hv

/-- An entry that is found under the key of a vendor with a key prefix has
that vendor. -/
theorem registry_hit_vendor (v : PlotterVendor) (m : String) (e : CompatibilityInfo)
    (hv : v ≠ PlotterVendor.GENERIC) (h : map_find COMPATIBILITY_DB (get_key v m) = some e) :
    e.vendor = v := by
  obtain ⟨kv, hkv, hk, rfl⟩ := map_find_mem _ _ _ h
  have h1 : ∀ kv ∈ COMPATIBILITY_DB, kv.1.data.head? = (get_key kv.2.vendor "").data.head? ∧
      kv.2.vendor ≠ PlotterVendor.GENERIC := by decide
  have h2 := (h1 kv hkv).1
  have h3 := (h1 kv hkv).2
  rw [hk, get_key_head v m hv] at h2
  revert h2 h3
  generalize kv.2.vendor = w
  cases v <;> cases w <;> simp [get_key]

/-- For `HP`, `CANON` and `EPSON` the recommended protocol is the default of
the vendor for every model, whether or not the lookup hits. -/
theorem get_recommended_protocol_vendor_default (v : PlotterVendor) (m : String)
    (hv : v ≠ PlotterVendor.GENERIC) :
    get_recommended_protocol v m = if v = PlotterVendor.HP then "HPGL2" else "PostScript" := by
  unfold get_recommended_protocol
  simp only []
  cases h : map_find COMPATIBILITY_DB (get_key v m) with
  | none => rfl
  | some e =>
    have hvend := registry_hit_vendor v m e hv h
    have hp : ∀ e ∈ get_all_plotters,
        e.primary_protocol = if e.vendor = PlotterVendor.HP then "HPGL2" else "PostScript" := by
      decide
    rw [← hvend]
    exact hp e (registry_find_mem _ _ h)

/-- A key that is not in the map is not found. -/
theorem map_find_none {β : Type} (m : List (String × β)) (key : String)
    (h : key ∉ m.map (fun kv => kv.1)) : map_find m key = none := by
  unfold map_find
  rw [List.find?_eq_none.mpr]
  intro kv hkv hk
  apply h
  rw [List.mem_map]
  exact ⟨kv, hkv, by simpa using hk⟩

/-- For `GENERIC` the model itself is the key: the recommended protocol is
"HPGL2" when the model is the key of one of the three HP entries, and
"PostScript" otherwise. -/
theorem get_recommended_protocol_generic (m : String) :
    get_recommended_protocol PlotterVendor.GENERIC m =
      if m = "HP_DesignJet_T1200" ∨ m = "HP_DesignJet_T2300" ∨ m = "HP_DesignJet_T3500"
      then "HPGL2" else "PostScript" := by
  by_cases hm : m ∈ COMPATIBILITY_DB.map (fun kv => kv.1)
  · simp only [COMPATIBILITY_DB, List.map_cons, List.map_nil, List.mem_cons,
      List.mem_singleton, List.not_mem_nil, or_false] at hm
    rcases hm with h | h | h | h | h | h | h | h | h <;> subst h <;> decide
  · have hk : get_key PlotterVendor.GENERIC m = m := by
      simp [get_key]
    have hn := map_find_none COMPATIBILITY_DB m hm
    unfold get_recommended_protocol
    simp only [hk, hn]
    have h3 : ¬ (m = "HP_DesignJet_T1200" ∨ m = "HP_DesignJet_T2300" ∨
        m = "HP_DesignJet_T3500") := by
      intro h
      apply hm
      rcases h with h | h | h <;> subst h <;> decide
    rw [if_neg h3]
    rfl

/-- C2, at the failing input:
`get_recommended_protocol(GENERIC, "HP_DesignJet_T1200")` is "HPGL2". `get_key`
puts no prefix before the model of a `GENERIC` plotter, so the model is looked
up as a key and hits the entry of the HP DesignJet T1200, although the registry
has no entry with vendor `GENERIC`; without an entry the result should be
"PostScript". For `GENERIC` the result is "HPGL2" exactly for the three models
that are keys of HP entries. Otherwise the function does what is specified:
where the registry has an entry for the vendor and the model, the result is
its primary protocol (so for each of the nine seeded entries), and for `HP`,
`CANON` and `EPSON` the result is "HPGL2" for `HP` and "PostScript" for the
others whatever the model; `(HP, "DesignJet UnknownX")` gives "HPGL2" and
`(GENERIC, "anything")` gives "PostScript". -/
theorem get_recommended_protocol_generic_key :
    get_recommended_protocol PlotterVendor.GENERIC "HP_DesignJet_T1200" = "HPGL2" ∧
    get_key PlotterVendor.GENERIC "HP_DesignJet_T1200" = "HP_DesignJet_T1200" ∧
    (∀ m : String, registry_entry PlotterVendor.GENERIC m = none) ∧
    (∀ m : String,
      get_recommended_protocol PlotterVendor.GENERIC m =
        if m = "HP_DesignJet_T1200" ∨ m = "HP_DesignJet_T2300" ∨ m = "HP_DesignJet_T3500"
        then "HPGL2" else "PostScript") ∧
    (∀ (v : PlotterVendor) (m : String) (e : CompatibilityInfo),
      registry_entry v m = some e → get_recommended_protocol v m = e.primary_protocol) ∧
    (∀ (v : PlotterVendor) (m : String), v ≠ PlotterVendor.GENERIC →
      get_recommended_protocol v m =
        if v = PlotterVendor.HP then "HPGL2" else "PostScript") ∧
    (∀ e ∈ get_all_plotters,
      registry_entry e.vendor e.model = some e ∧
      get_recommended_protocol e.vendor e.model = e.primary_protocol) ∧
    get_recommended_protocol PlotterVendor.HP "DesignJet UnknownX" = "HPGL2" ∧
    get_recommended_protocol PlotterVendor.GENERIC "anything" = "PostScript" := by
  have hall : ∀ e ∈ get_all_plotters,
      registry_entry e.vendor e.model = some e ∧
      get_recommended_protocol e.vendor e.model = e.primary_protocol := by decide
  refine ⟨by decide, by decide, ?_, get_recommended_protocol_generic, ?_,
    get_recommended_protocol_vendor_default, hall, by decide, by decide⟩
  · intro m
    unfold registry_entry
    rw [List.find?_eq_none]
    intro e he
    have hg : ∀ e ∈ get_all_plotters, e.vendor ≠ PlotterVendor.GENERIC := by decide
    simp [hg e he]
  · intro v m e h
    unfold registry_entry at h
    have hmem := List.mem_of_find?_eq_some h
    have hp := List.find?_some h
    simp only [decide_eq_true_eq] at hp
    rw [← hp.1, ← hp.2]
    exact (hall e hmem).2

/-- C3, at the failing input: for `(HP, "DesignJet T1200")` the lookup misses
and `get_fallback_protocols` returns the default list
`["PostScript", "HPGL2", "ESC/P"]` instead of the entry's `["PostScript", "PDF"]`;
likewise for `(CANON, "imagePROGRAF PRO-6000")`, and for every seeded entry. -/
theorem get_fallback_protocols_seeded_default :
    get_fallback_protocols PlotterVendor.HP "DesignJet T1200" = ["PostScript", "HPGL2", "ESC/P"] ∧
    HP_DesignJet_T1200.fallback_protocols = ["PostScript", "PDF"] ∧
    get_fallback_protocols PlotterVendor.CANON "imagePROGRAF PRO-6000" =
      ["PostScript", "HPGL2", "ESC/P"] ∧
    CANON_imagePROGRAF_PRO_6000.fallback_protocols = ["PDF"] ∧
    (∀ e ∈ get_all_plotters,
      get_fallback_protocols e.vendor e.model = ["PostScript", "HPGL2", "ESC/P"] ∧
      get_fallback_protocols e.vendor e.model ≠ e.fallback_protocols) := by
  decide

/-- C4: in every entry returned by `get_all_plotters` the primary protocol is
one of the supported protocols and so is every fallback protocol. -/
theorem registry_primary_and_fallbacks_supported :
    ∀ e ∈ get_all_plotters,
      e.primary_protocol ∈ e.supported_protocols ∧
      ∀ p ∈ e.fallback_protocols, p ∈ e.supported_protocols := by
  decide

/-- C4 at the entry for the HP DesignJet T1200. -/
theorem registry_primary_and_fallbacks_supported_witness :
    HP_DesignJet_T1200 ∈ get_all_plotters ∧
    (HP_DesignJet_T1200.primary_protocol ∈ HP_DesignJet_T1200.supported_protocols ∧
      ∀ p ∈ HP_DesignJet_T1200.fallback_protocols,
        p ∈ HP_DesignJet_T1200.supported_protocols) :=
  ⟨by decide, registry_primary_and_fallbacks_supported HP_DesignJet_T1200 (by decide)⟩

/-! ## Vendor detection -/

theorem starts_with_iff (hay needle : List Char) :
    starts_with hay needle = true ↔ ∃ after, hay = needle ++ after := by
  induction hay generalizing needle with
  | nil =>
    cases needle with
    | nil => simp [starts_with]
    | cons n ns => simp [starts_with]
  | cons c cs ih =>
    cases needle with
    | nil => simp [starts_with]
    | cons n ns =>
      simp only [starts_with, Bool.and_eq_true, beq_iff_eq, ih, List.cons_append,
        List.cons.injEq]
      constructor
      · rintro ⟨rfl, after, rfl⟩
        exact ⟨after, rfl, rfl⟩
      · rintro ⟨after, rfl, rfl⟩
        exact ⟨rfl, after, rfl⟩

theorem string_find_isSome_iff (hay needle : List Char) :
    (string_find hay needle).isSome = true ↔
      ∃ before after : List Char, hay = before ++ needle ++ after := by
  induction hay with
  | nil =>
    cases needle with
    | nil => simp [string_find]
    | cons n ns => simp [string_find]
  | cons c cs ih =>
    unfold string_find
    by_cases hs : starts_with (c :: cs) needle = true
    · rw [if_pos hs]
      obtain ⟨after, h⟩ := (starts_with_iff _ _).1 hs
      simp only [Option.isSome_some, true_iff]
      exact ⟨[], after, by simpa using h⟩
    · have hm : (Option.map (fun i => i + 1) (string_find cs needle)).isSome =
          (string_find cs needle).isSome := by
        cases string_find cs needle <;> rfl
      rw [if_neg hs, hm, ih]
      constructor
      · rintro ⟨before, after, h⟩
        exact ⟨c :: before, after, by simp [h]⟩
      · rintro ⟨before, after, h⟩
        cases before with
        | nil =>
          exact absurd ((starts_with_iff _ _).2 ⟨after, by simpa using h⟩) hs
        | cons b bs =>
          simp only [List.cons_append, List.cons.injEq] at h
          exact ⟨bs, after, h.2⟩

theorem found_iff (model_lower : List Char) (keyword : String) :
    found model_lower keyword = true ↔ contains_substring model_lower keyword :=
  string_find_isSome_iff _ _

theorem toNat_ofNat_of_lt (k : Nat) (h : k < 55296) : (Char.ofNat k).toNat = k := by
  have hv : k.isValidChar := Or.inl h
  simp [Char.ofNat, hv, Char.ofNatAux, Char.toNat, UInt32.toNat]

theorem toLower_toUpper (c : Char) : Char.toLower (Char.toUpper c) = Char.toLower c := by
  unfold Char.toUpper Char.toLower
  simp only []
  by_cases h : c.toNat ≥ 97 ∧ c.toNat ≤ 122
  · rw [if_pos h]
    have h1 : (Char.ofNat (c.toNat - 32)).toNat = c.toNat - 32 :=
      toNat_ofNat_of_lt _ (by omega)
    rw [h1, if_pos (by omega), if_neg (by omega)]
    have h2 : c.toNat - 32 + 32 = c.toNat := by omega
    rw [h2, Char.ofNat_toNat]
  · rw [if_neg h]

theorem toLower_toLower (c : Char) : Char.toLower (Char.toLower c) = Char.toLower c := by
  unfold Char.toLower
  simp only []
  by_cases h : c.toNat ≥ 65 ∧ c.toNat ≤ 90
  · rw [if_pos h]
    have h1 : (Char.ofNat (c.toNat + 32)).toNat = c.toNat + 32 :=
      toNat_ofNat_of_lt _ (by omega)
    rw [h1, if_neg (by omega)]
  · rw [if_neg h, if_neg h]

/-- C5: with `L` the lower-cased make_model, `detect_plotter_vendor` is `HP`
iff `L` contains "hp", "hewlett" or "designjet"; otherwise `CANON` iff `L`
contains "canon" or "imageprograf"; otherwise `EPSON` iff `L` contains "epson"
or "surecolor"; otherwise `GENERIC`. Two strings with the same lower-cased form
get the same vendor, so upper-casing or lower-casing every letter of the
make_model does not change the result. -/
theorem detect_plotter_vendor_spec (s : String) :
    (detect_plotter_vendor s = PlotterVendor.HP ↔
      (contains_substring (to_lower s) "hp" ∨ contains_substring (to_lower s) "hewlett" ∨
        contains_substring (to_lower s) "designjet")) ∧
    (detect_plotter_vendor s = PlotterVendor.CANON ↔
      ¬ (contains_substring (to_lower s) "hp" ∨ contains_substring (to_lower s) "hewlett" ∨
        contains_substring (to_lower s) "designjet") ∧
      (contains_substring (to_lower s) "canon" ∨
        contains_substring (to_lower s) "imageprograf")) ∧
    (detect_plotter_vendor s = PlotterVendor.EPSON ↔
      ¬ (contains_substring (to_lower s) "hp" ∨ contains_substring (to_lower s) "hewlett" ∨
        contains_substring (to_lower s) "designjet") ∧
      ¬ (contains_substring (to_lower s) "canon" ∨
        contains_substring (to_lower s) "imageprograf") ∧
      (contains_substring (to_lower s) "epson" ∨
        contains_substring (to_lower s) "surecolor")) ∧
    (detect_plotter_vendor s = PlotterVendor.GENERIC ↔
      ¬ (contains_substring (to_lower s) "hp" ∨ contains_substring (to_lower s) "hewlett" ∨
        contains_substring (to_lower s) "designjet") ∧
      ¬ (contains_substring (to_lower s) "canon" ∨
        contains_substring (to_lower s) "imageprograf") ∧
      ¬ (contains_substring (to_lower s) "epson" ∨
        contains_substring (to_lower s) "surecolor")) ∧
    (∀ t : String, to_lower t = to_lower s →
      detect_plotter_vendor t = detect_plotter_vendor s) ∧
    detect_plotter_vendor (String.mk (s.data.map Char.toUpper)) = detect_plotter_vendor s ∧
    detect_plotter_vendor (String.mk (s.data.map Char.toLower)) = detect_plotter_vendor s := by
  have inv : ∀ t : String, to_lower t = to_lower s →
      detect_plotter_vendor t = detect_plotter_vendor s := by
    intro t ht
    simp only [detect_plotter_vendor, ht]
  simp only [← found_iff]
  refine ⟨?_, ?_, ?_, ?_, inv, inv _ ?_, inv _ ?_⟩
  · unfold detect_plotter_vendor
    simp only []
    generalize found (to_lower s) "hp" = a
    generalize found (to_lower s) "hewlett" = b
    generalize found (to_lower s) "designjet" = c
    generalize found (to_lower s) "canon" = d
    generalize found (to_lower s) "imageprograf" = e
    generalize found (to_lower s) "epson" = f
    generalize found (to_lower s) "surecolor" = g
    cases a <;> cases b <;> cases c <;> cases d <;> cases e <;> cases f <;> cases g <;> simp
  · unfold detect_plotter_vendor
    simp only []
    generalize found (to_lower s) "hp" = a
    generalize found (to_lower s) "hewlett" = b
    generalize found (to_lower s) "designjet" = c
    generalize found (to_lower s) "canon" = d
    generalize found (to_lower s) "imageprograf" = e
    generalize found (to_lower s) "epson" = f
    generalize found (to_lower s) "surecolor" = g
    cases a <;> cases b <;> cases c <;> cases d <;> cases e <;> cases f <;> cases g <;> simp
  · unfold detect_plotter_vendor
    simp only []
    generalize found (to_lower s) "hp" = a
    generalize found (to_lower s) "hewlett" = b
    generalize found (to_lower s) "designjet" = c
    generalize found (to_lower s) "canon" = d
    generalize found (to_lower s) "imageprograf" = e
    generalize found (to_lower s) "epson" = f
    generalize found (to_lower s) "surecolor" = g
    cases a <;> cases b <;> cases c <;> cases d <;> cases e <;> cases f <;> cases g <;> simp
  · unfold detect_plotter_vendor
    simp only []
    generalize found (to_lower s) "hp" = a
    generalize found (to_lower s) "hewlett" = b
    generalize found (to_lower s) "designjet" = c
    generalize found (to_lower s) "canon" = d
    generalize found (to_lower s) "imageprograf" = e
    generalize found (to_lower s) "epson" = f
    generalize found (to_lower s) "surecolor" = g
    cases a <;> cases b <;> cases c <;> cases d <;> cases e <;> cases f <;> cases g <;> simp
  · simp [to_lower, toLower_toUpper]
  · simp [to_lower, toLower_toLower]

/-! ## Advanced-info resolution -/

/-- No seeded entry lists its primary protocol among its fallbacks. -/
theorem primary_not_in_fallbacks :
    ∀ e ∈ get_all_plotters, e.primary_protocol ∉ e.fallback_protocols := by
  decide

/-- Every primary protocol of the registry is "HPGL2" or "PostScript". -/
theorem primary_is_hpgl2_or_postscript :
    ∀ e ∈ get_all_plotters, e.primary_protocol = "HPGL2" ∨ e.primary_protocol = "PostScript" := by
  decide

/-- C6, at the failing input: for a plotter whose make_model is
"HP DesignJet UnknownX" the record produced by discovery (and returned by
`get_plotter_info` on a cache miss) has `recommended_protocol = "HPGL2"` and
`supported_protocols = ["PostScript", "HPGL2", "ESC/P"]`, so position 0 holds
"PostScript". In general position 0 holds the recommended protocol exactly when
the vendor is not `HP` or the registry lookup hits, whereas
`get_available_protocols` always puts it first. -/
theorem advanced_info_recommended_not_hoisted :
    (discover_plotters_advanced {} [unknown_hp_plotter]).2.map
        (fun info => (info.vendor, info.recommended_protocol, info.supported_protocols)) =
      [(PlotterVendor.HP, "HPGL2", ["PostScript", "HPGL2", "ESC/P"])] ∧
    (get_plotter_info {} [unknown_hp_plotter] "dj").2.recommended_protocol = "HPGL2" ∧
    (get_plotter_info {} [unknown_hp_plotter] "dj").2.supported_protocols =
      ["PostScript", "HPGL2", "ESC/P"] ∧
    (∀ printer : PrinterInfo,
      ((resolve_advanced_info printer).supported_protocols.head? =
          some (resolve_advanced_info printer).recommended_protocol ↔
        ¬ ((resolve_advanced_info printer).vendor = PlotterVendor.HP ∧
          map_find COMPATIBILITY_DB
            (get_key (resolve_advanced_info printer).vendor printer.make_model) = none))) ∧
    (∀ (vendor : PlotterVendor) (model : String),
      (get_available_protocols vendor model).head? =
        some (get_recommended_protocol vendor model)) ∧
    get_available_protocols PlotterVendor.HP "HP DesignJet UnknownX" =
      ["HPGL2", "PostScript", "ESC/P"] := by
  refine ⟨by decide, by decide, by decide, ?_, ?_, by decide⟩
  · intro printer
    simp only [resolve_advanced_info, get_recommended_protocol, get_fallback_protocols]
    cases h : map_find COMPATIBILITY_DB
        (get_key (detect_plotter_vendor printer.make_model) printer.make_model) with
    | none =>
      by_cases hv : detect_plotter_vendor printer.make_model = PlotterVendor.HP
      · simp [hv]
      · simp [hv]
    | some e =>
      have hm := registry_find_mem _ _ h
      have hn := primary_not_in_fallbacks e hm
      simp [hn]
  · intro vendor model
    simp [get_available_protocols]

/-! ## Document validation -/

/-- The verdict of the validation body is the conjunction of the media-size
check and the colour-mode check of the protocol handler. -/
theorem validate_with_protocol_fst (protocol : PlotterProtocolBase) (printer_uri : String)
    (options : PrintOptions) :
    (validate_with_protocol protocol printer_uri options).1 =
      (protocol.validate_media_size
          (validate_document_for_plotter_media_size options.media_size) &&
        protocol.validate_color_mode
          (validate_document_for_plotter_color_mode options.color_mode)) := by
  unfold validate_with_protocol
  simp only []
  cases protocol.validate_media_size
      (validate_document_for_plotter_media_size options.media_size) <;>
    cases protocol.validate_color_mode
      (validate_document_for_plotter_color_mode options.color_mode) <;> simp

/-- The recommended protocol is always "HPGL2" or "PostScript". -/
theorem get_recommended_protocol_cases (vendor : PlotterVendor) (model : String) :
    get_recommended_protocol vendor model = "HPGL2" ∨
      get_recommended_protocol vendor model = "PostScript" := by
  unfold get_recommended_protocol
  simp only []
  cases h : map_find COMPATIBILITY_DB (get_key vendor model) with
  | none =>
    by_cases hv : vendor = PlotterVendor.HP
    · simp [hv]
    · simp [hv]
  | some e => exact primary_is_hpgl2_or_postscript e (registry_find_mem _ _ h)

/-- The handler created for a printer is the HP-GL/2 generator or the
PostScript generator; creation never throws. -/
theorem create_for_printer_cases (vendor : PlotterVendor) (model : String) :
    create_for_printer vendor model = Except.ok (HPGLGenerator true) ∨
      create_for_printer vendor model = Except.ok (PostScriptGenerator vendor) := by
  unfold create_for_printer
  simp only []
  rcases get_recommended_protocol_cases vendor model with h | h
  · left
    rw [h]
    rfl
  · right
    rw [h]
    rfl

/-- Every media size that the string mapping can produce is accepted by both
generators. -/
theorem mapped_media_size_accepted (media_size : String) :
    HPGLGenerator.validate_media_size (validate_document_for_plotter_media_size media_size) = true ∧
    PostScriptGenerator.validate_media_size
      (validate_document_for_plotter_media_size media_size) = true := by
  unfold validate_document_for_plotter_media_size
  split_ifs <;> decide

/-- Every colour mode that the string mapping can produce is accepted by the
HP-GL/2 generator and by the PostScript generator. -/
theorem mapped_color_mode_accepted (color_mode : String) :
    HPGLGenerator.validate_color_mode true
      (validate_document_for_plotter_color_mode color_mode) = true ∧
    PostScriptGenerator.validate_color_mode
      (validate_document_for_plotter_color_mode color_mode) = true := by
  unfold validate_document_for_plotter_color_mode
  split_ifs <;> decide

/-- C8, at the failing input: a job with media size "B2" for an HP DesignJet
plotter passes `validate_job_compatibility` and
`validate_document_for_plotter`, because "B2" is mapped to the default `A4`
(although the HP-GL generator does reject `MediaSize.B2`). In fact
`validate_document_for_plotter` returns true for every manager state, printer
and options, and so does `validate_job_compatibility` whenever a printer
manager is set. -/
theorem validate_document_for_plotter_accepts_B2 :
    is_plotter designjet_manager b2_job.printer_name = true ∧
    (get_plotter_info designjet_manager [designjet_t1200_plotter]
      b2_job.printer_name).2.vendor = PlotterVendor.HP ∧
    validate_document_for_plotter designjet_manager [designjet_t1200_plotter]
      b2_job.printer_name b2_job.file_path b2_job.options = true ∧
    validate_job_compatibility (some designjet_manager) [designjet_t1200_plotter] b2_job = true ∧
    validate_document_for_plotter_media_size "B2" = MediaSize.A4 ∧
    HPGLGenerator.validate_media_size MediaSize.B2 = false ∧
    (∀ (pm : PrinterManager) (cups : List PrinterInfo) (printer_uri file_path : String)
        (options : PrintOptions),
      validate_document_for_plotter pm cups printer_uri file_path options = true) ∧
    (∀ (pm : PrinterManager) (cups : List PrinterInfo) (job : PrintJob),
      validate_job_compatibility (some pm) cups job = true) := by
  have all : ∀ (pm : PrinterManager) (cups : List PrinterInfo) (printer_uri file_path : String)
      (options : PrintOptions),
      validate_document_for_plotter pm cups printer_uri file_path options = true := by
    intro pm cups printer_uri file_path options
    unfold validate_document_for_plotter validate_document_for_info
    simp only []
    rcases create_for_printer_cases (get_plotter_info pm cups printer_uri).2.vendor
        (get_plotter_info pm cups printer_uri).2.base_info.make_model with h | h
    · rw [h]
      simp only [validate_with_protocol_fst, HPGLGenerator,
        (mapped_media_size_accepted options.media_size).1,
        (mapped_color_mode_accepted options.color_mode).1, Bool.and_self]
    · rw [h]
      simp only [validate_with_protocol_fst, PostScriptGenerator,
        (mapped_media_size_accepted options.media_size).2,
        (mapped_color_mode_accepted options.color_mode).2, Bool.and_self]
  refine ⟨by decide, by decide, by decide, by decide, by decide, by decide, all, ?_⟩
  intro pm cups job
  unfold validate_job_compatibility
  simp only [all]
  split_ifs <;> rfl

/-! ## Quality to DPI -/

/-- C9: for a quality level `q` in 1..5 the DPI is 300 for 1 and 2, 600 for 3
and 4, and 1200 for 5, both in `validate_document_for_plotter` and in
`process_job_with_protocol`. -/
theorem quality_dpi_table (q : Int) (h1 : 1 ≤ q) (h5 : q ≤ 5) :
    validate_document_for_plotter_dpi q =
      (if q ≤ 2 then 300 else if q ≤ 4 then 600 else 1200) ∧
    process_job_with_protocol_dpi q = validate_document_for_plotter_dpi q := by
  have hq : q = 1 ∨ q = 2 ∨ q = 3 ∨ q = 4 ∨ q = 5 := by omega
  rcases hq with rfl | rfl | rfl | rfl | rfl <;> decide

/-- C9 at quality 5: both computations give 1200. -/
theorem quality_dpi_table_witness :
    (1 : Int) ≤ 5 ∧ (5 : Int) ≤ 5 ∧
    (validate_document_for_plotter_dpi 5 =
        (if (5 : Int) ≤ 2 then 300 else if (5 : Int) ≤ 4 then 600 else 1200) ∧
      process_job_with_protocol_dpi 5 = validate_document_for_plotter_dpi 5) :=
  ⟨by decide, by decide, quality_dpi_table 5 (by decide) (by decide)⟩

/-! ## HP-GL validators -/

/-- C10, at the failing input: `HPGLGenerator::validate_media_size` accepts
`LEGAL` and `TABLOID`, which are keys of `media_size_map_` but not members of
the generator's own `supported_sizes`; it accepts exactly the eight keys of the
map. `validate_resolution` accepts exactly 300, 600 and 1200, and
`validate_color_mode` accepts exactly `MONOCHROME`, and `COLOR` for HP-GL/2. -/
theorem hpgl_validate_media_size_accepts_legal :
    HPGLGenerator.validate_media_size MediaSize.LEGAL = true ∧
    HPGLGenerator.validate_media_size MediaSize.TABLOID = true ∧
    MediaSize.LEGAL ∉ HPGLGenerator.capabilities_.supported_sizes ∧
    MediaSize.TABLOID ∉ HPGLGenerator.capabilities_.supported_sizes ∧
    (∀ s : MediaSize, HPGLGenerator.validate_media_size s = true ↔
      s ∈ [MediaSize.A0, MediaSize.A1, MediaSize.A2, MediaSize.A3, MediaSize.A4,
        MediaSize.LETTER, MediaSize.LEGAL, MediaSize.TABLOID]) ∧
    (∀ d : Int, HPGLGenerator.validate_resolution d = true ↔ d = 300 ∨ d = 600 ∨ d = 1200) ∧
    (∀ (use_hpgl2 : Bool) (m : ColorMode),
      HPGLGenerator.validate_color_mode use_hpgl2 m = true ↔
        m = ColorMode.MONOCHROME ∨ (m = ColorMode.COLOR ∧ use_hpgl2 = true)) := by
  refine ⟨by decide, by decide, by decide, by decide, ?_, ?_, ?_⟩
  · intro s
    cases s <;> decide
  · intro d
    simp only [HPGLGenerator.validate_resolution, HPGLGenerator.resolution_map_, map_count,
      List.filter, decide_eq_true_eq]
    by_cases h3 : d = 300
    · subst h3; decide
    by_cases h6 : d = 600
    · subst h6; decide
    by_cases h12 : d = 1200
    · subst h12; decide
    have e3 : ¬ (300 : Int) = d := fun h => h3 h.symm
    have e6 : ¬ (600 : Int) = d := fun h => h6 h.symm
    have e12 : ¬ (1200 : Int) = d := fun h => h12 h.symm
    simp [h3, h6, h12, e3, e6, e12]
  · intro use_hpgl2 m
    cases use_hpgl2 <;> cases m <;> decide

/-! ## Header generation -/

/-- The text of `HPGLGenerator::generate_header` for any arguments: the media
select command is present exactly when the size is a key of the table. -/
theorem hpgl_generate_header_eq (use_hpgl2 : Bool) (caps : PlotterCapabilities)
    (s : MediaSize) (m : ColorMode) (d : Int) :
    HPGLGenerator.generate_header use_hpgl2 caps s m d =
      "\x1b.@" ++ "ES" ++ (if use_hpgl2 then "\x1b%0B" else "") ++ "PU0,0;" ++ "PA0,0;" ++
        (if HPGLGenerator.validate_media_size s then
          "PM" ++ map_at HPGLGenerator.media_size_map_ s ++ ";" else "") ++
        ("PS" ++ toString d ++ ";") ++
        (if use_hpgl2 && decide (m = ColorMode.COLOR) then "MC3;" else "") ++ "SP1;" := by
  unfold HPGLGenerator.generate_header HPGLGenerator.validate_media_size
  simp only []
  cases use_hpgl2 <;>
    by_cases hm : m = ColorMode.COLOR <;>
    by_cases hc : map_count HPGLGenerator.media_size_map_ s > 0 <;>
    simp [hm, hc, String.append_assoc]

/-- The text of `PostScriptGenerator::generate_header` for any arguments: the
page-device dictionary is present exactly when the size is a key of the
table. -/
theorem postscript_generate_header_eq (vendor : PlotterVendor) (now : Int)
    (caps : PlotterCapabilities) (s : MediaSize) (m : ColorMode) (d : Int) :
    PostScriptGenerator.generate_header vendor now caps s m d =
      "%!PS-Adobe-3.0\n" ++ "%%Creator: All Press C++\n" ++
        ("%%CreationDate: " ++ toString now ++ "\n") ++
        (if PostScriptGenerator.validate_media_size s then
          "<<\n" ++
            ("  /PageSize [" ++ toString (map_at PostScriptGenerator.media_dimensions_ s).1 ++
              " " ++ toString (map_at PostScriptGenerator.media_dimensions_ s).2 ++ "]\n") ++
            "  /MediaClass (plain)\n" ++
            (if m = ColorMode.COLOR then "  /ColorModel /DeviceRGB\n"
              else "  /ColorModel /DeviceGray\n") ++
            ">> setpagedevice\n\n"
          else "") ++
        "currentdevice /HWResolution\n" ++
        ("[" ++ toString d ++ " " ++ toString d ++ "] def\n\n") ++
        (if vendor = PlotterVendor.CANON then
          "% Canon imagePROGRAF settings\n" ++ "<< /ColorRenderingType 1 >> setuserparams\n"
          else if vendor = PlotterVendor.EPSON then
            "% Epson SureColor settings\n" ++ "<< /Optimize true >> setuserparams\n"
          else "") ++
        "%%EndProlog\n\n" := by
  unfold PostScriptGenerator.generate_header PostScriptGenerator.validate_media_size
  simp only []
  by_cases hm : m = ColorMode.COLOR <;>
    by_cases hc : map_count PostScriptGenerator.media_dimensions_ s > 0 <;>
    cases vendor <;>
    simp only [hm, hc, if_true, if_false, reduceIte, reduceCtorEq, decide_True, decide_False,
      String.append_assoc, String.empty_append, String.append_empty]

/-- C11, as listed: for HP-GL/2, A1, colour and 1200 dpi the header is not the
listed concatenation, because "ES" follows the reset escape. -/
theorem hpgl_header_not_as_listed :
    HPGLGenerator.generate_header true HPGLGenerator.capabilities_ MediaSize.A1
        ColorMode.COLOR 1200 ≠
      hpgl_header_as_listed true (map_at HPGLGenerator.media_size_map_ MediaSize.A1)
        ColorMode.COLOR 1200 := by
  decide

/-- C11, amended: for every media size `s` that `validate_media_size` accepts,
every colour mode and every dpi, the header is the reset escape, "ES", the
enter-HP-GL/2 escape iff the dialect is HP-GL/2, "PU0,0;", "PA0,0;", "PM" with
the code of `s` and ";", "PS" with the decimal dpi and ";", "MC3;" iff the
dialect is HP-GL/2 and the mode is `COLOR`, and "SP1;", in this order. That is
the listed header with "ES" inserted after the reset escape. For HP-GL/2, A1,
colour, 1200 dpi it starts with the reset escape and contains "PMA1P;" and
"PS1200;". -/
theorem hpgl_generate_header_spec (use_hpgl2 : Bool) (caps : PlotterCapabilities)
    (s : MediaSize) (m : ColorMode) (d : Int)
    (hs : HPGLGenerator.validate_media_size s = true) :
    HPGLGenerator.generate_header use_hpgl2 caps s m d =
      "\x1b.@" ++ "ES" ++ (if use_hpgl2 then "\x1b%0B" else "") ++ "PU0,0;" ++ "PA0,0;" ++
        ("PM" ++ map_at HPGLGenerator.media_size_map_ s ++ ";") ++
        ("PS" ++ toString d ++ ";") ++
        (if use_hpgl2 && decide (m = ColorMode.COLOR) then "MC3;" else "") ++ "SP1;" ∧
    HPGLGenerator.generate_header true caps MediaSize.A1 ColorMode.COLOR 1200 =
      "\x1b.@ES\x1b%0BPU0,0;PA0,0;PMA1P;PS1200;MC3;SP1;" ∧
    starts_with
      (HPGLGenerator.generate_header true caps MediaSize.A1 ColorMode.COLOR 1200).data
      "\x1b.@".data = true ∧
    found (HPGLGenerator.generate_header true caps MediaSize.A1 ColorMode.COLOR 1200).data
      "PMA1P;" = true ∧
    found (HPGLGenerator.generate_header true caps MediaSize.A1 ColorMode.COLOR 1200).data
      "PS1200;" = true := by
  have h1 := hpgl_generate_header_eq use_hpgl2 caps s m d
  rw [hs] at h1
  simp only [if_true] at h1
  have hA1 : HPGLGenerator.generate_header true caps MediaSize.A1 ColorMode.COLOR 1200 =
      "\x1b.@ES\x1b%0BPU0,0;PA0,0;PMA1P;PS1200;MC3;SP1;" := by
    rw [hpgl_generate_header_eq]
    decide
  refine ⟨h1, hA1, ?_, ?_, ?_⟩
  · rw [hA1]; decide
  · rw [hA1]; decide
  · rw [hA1]; decide

/-- C11 for HP-GL/2, A0, monochrome, 300 dpi. -/
theorem hpgl_generate_header_spec_witness :
    HPGLGenerator.validate_media_size MediaSize.A0 = true ∧
    HPGLGenerator.generate_header true HPGLGenerator.capabilities_ MediaSize.A0
        ColorMode.MONOCHROME 300 =
      "\x1b.@ES\x1b%0BPU0,0;PA0,0;PMROL;PS300;SP1;" :=
  ⟨by decide,
    (hpgl_generate_header_spec true HPGLGenerator.capabilities_ MediaSize.A0
      ColorMode.MONOCHROME 300 (by decide)).1.trans (by decide)⟩

/-- C12, as stated: `HPGLGenerator::generate_header` asked for `MediaSize::B2`,
which `validate_media_size` rejects, returns a header (without media select),
and asked for 720 dpi, which `validate_resolution` rejects, returns a header
with "PS720;"; `PostScriptGenerator::generate_header` asked for `B2` returns a
header without page-device dictionary. -/
theorem generate_header_returns_for_rejected :
    HPGLGenerator.validate_media_size MediaSize.B2 = false ∧
    HPGLGenerator.generate_header true HPGLGenerator.capabilities_ MediaSize.B2
        ColorMode.MONOCHROME 300 =
      "\x1b.@ES\x1b%0BPU0,0;PA0,0;PS300;SP1;" ∧
    HPGLGenerator.validate_resolution 720 = false ∧
    HPGLGenerator.generate_header true HPGLGenerator.capabilities_ MediaSize.A4
        ColorMode.MONOCHROME 720 =
      "\x1b.@ES\x1b%0BPU0,0;PA0,0;PMA4P;PS720;SP1;" ∧
    PostScriptGenerator.validate_media_size MediaSize.B2 = false ∧
    PostScriptGenerator.generate_header PlotterVendor.EPSON 0
        (PostScriptGenerator.capabilities_ PlotterVendor.EPSON) MediaSize.B2
        ColorMode.MONOCHROME 600 =
      "%!PS-Adobe-3.0\n%%Creator: All Press C++\n%%CreationDate: 0\n" ++
        "currentdevice /HWResolution\n[600 600] def\n\n" ++
        "% Epson SureColor settings\n<< /Optimize true >> setuserparams\n%%EndProlog\n\n" := by
  refine ⟨by decide, by decide, by decide, by decide, by decide, ?_⟩
  rfl

/-- C12, amended: `generate_header` of both generators returns for all
arguments and never fails. Asked for a media size that `validate_media_size`
rejects, the HP-GL generator leaves the media select command out and the
PostScript generator leaves the page-device dictionary out; the dpi is
inscribed as given whether or not `validate_resolution` accepts it, and a
colour mode other than `COLOR` is treated as not colour. -/
theorem generate_header_total :
    (∀ (use_hpgl2 : Bool) (caps : PlotterCapabilities) (s : MediaSize) (m : ColorMode) (d : Int),
      HPGLGenerator.validate_media_size s = false →
      HPGLGenerator.generate_header use_hpgl2 caps s m d =
        "\x1b.@" ++ "ES" ++ (if use_hpgl2 then "\x1b%0B" else "") ++ "PU0,0;" ++ "PA0,0;" ++
          ("PS" ++ toString d ++ ";") ++
          (if use_hpgl2 && decide (m = ColorMode.COLOR) then "MC3;" else "") ++ "SP1;") ∧
    (∀ (vendor : PlotterVendor) (now : Int) (caps : PlotterCapabilities) (s : MediaSize)
        (m : ColorMode) (d : Int),
      PostScriptGenerator.validate_media_size s = false →
      PostScriptGenerator.generate_header vendor now caps s m d =
        "%!PS-Adobe-3.0\n" ++ "%%Creator: All Press C++\n" ++
          ("%%CreationDate: " ++ toString now ++ "\n") ++
          "currentdevice /HWResolution\n" ++
          ("[" ++ toString d ++ " " ++ toString d ++ "] def\n\n") ++
          (if vendor = PlotterVendor.CANON then
            "% Canon imagePROGRAF settings\n" ++ "<< /ColorRenderingType 1 >> setuserparams\n"
            else if vendor = PlotterVendor.EPSON then
              "% Epson SureColor settings\n" ++ "<< /Optimize true >> setuserparams\n"
            else "") ++
          "%%EndProlog\n\n") ∧
    (∀ (caps : PlotterCapabilities) (d : Int),
      HPGLGenerator.generate_header true caps MediaSize.A4 ColorMode.CMYK d =
        "\x1b.@" ++ "ES" ++ "\x1b%0B" ++ "PU0,0;" ++ "PA0,0;" ++ "PMA4P;" ++
          ("PS" ++ toString d ++ ";") ++ "SP1;") ∧
    (∀ (caps : PlotterCapabilities) (d : Int),
      HPGLGenerator.generate_header false caps MediaSize.A4 ColorMode.COLOR d =
        "\x1b.@" ++ "ES" ++ "PU0,0;" ++ "PA0,0;" ++ "PMA4P;" ++
          ("PS" ++ toString d ++ ";") ++ "SP1;") := by
  refine ⟨?_, ?_, ?_, ?_⟩
  · intro use_hpgl2 caps s m d hs
    rw [hpgl_generate_header_eq, hs]
    simp only [Bool.false_eq_true, if_false, String.append_empty]
  · intro vendor now caps s m d hs
    rw [postscript_generate_header_eq, hs]
    simp only [Bool.false_eq_true, if_false, String.append_empty]
  · intro caps d
    rw [hpgl_generate_header_eq]
    have h1 : HPGLGenerator.validate_media_size MediaSize.A4 = true := by decide
    have h2 : map_at HPGLGenerator.media_size_map_ MediaSize.A4 = "A4P" := by decide
    have h3 : "PM" ++ "A4P" ++ ";" = "PMA4P;" := by decide
    simp only [h1, h2, h3, if_true, Bool.true_and, reduceCtorEq, decide_False,
      Bool.false_eq_true, if_false, String.append_empty]
  · intro caps d
    rw [hpgl_generate_header_eq]
    have h1 : HPGLGenerator.validate_media_size MediaSize.A4 = true := by decide
    have h2 : map_at HPGLGenerator.media_size_map_ MediaSize.A4 = "A4P" := by decide
    have h3 : "PM" ++ "A4P" ++ ";" = "PMA4P;" := by decide
    simp only [h1, h2, h3, if_true, Bool.false_and, Bool.false_eq_true, if_false,
      String.append_empty]

/-- C13: for a media size `s` of the size table, with `(w, h)` its dimensions
in points, the PostScript header starts with "%!PS-Adobe-3.0" and holds the
page-device dictionary with `/PageSize [w h]` and `/ColorModel /DeviceRGB` for
`COLOR`, `/DeviceGray` otherwise, followed by the `HWResolution` line
`[d d]`. -/
theorem postscript_generate_header_spec (vendor : PlotterVendor) (now : Int)
    (caps : PlotterCapabilities) (s : MediaSize) (m : ColorMode) (d : Int) (w h : Nat)
    (hs : page_size_points s = some (w, h)) :
    PostScriptGenerator.generate_header vendor now caps s m d =
      "%!PS-Adobe-3.0\n" ++ "%%Creator: All Press C++\n" ++
        ("%%CreationDate: " ++ toString now ++ "\n") ++
        ("<<\n" ++
          ("  /PageSize [" ++ toString w ++ " " ++ toString h ++ "]\n") ++
          "  /MediaClass (plain)\n" ++
          (if m = ColorMode.COLOR then "  /ColorModel /DeviceRGB\n"
            else "  /ColorModel /DeviceGray\n") ++
          ">> setpagedevice\n\n") ++
        "currentdevice /HWResolution\n" ++
        ("[" ++ toString d ++ " " ++ toString d ++ "] def\n\n") ++
        (if vendor = PlotterVendor.CANON then
          "% Canon imagePROGRAF settings\n" ++ "<< /ColorRenderingType 1 >> setuserparams\n"
          else if vendor = PlotterVendor.EPSON then
            "% Epson SureColor settings\n" ++ "<< /Optimize true >> setuserparams\n"
          else "") ++
        "%%EndProlog\n\n" ∧
    PostScriptGenerator.validate_media_size s = true ∧
    map_at PostScriptGenerator.media_dimensions_ s = (w, h) := by
  have hv : PostScriptGenerator.validate_media_size s = true ∧
      map_at PostScriptGenerator.media_dimensions_ s = (w, h) := by
    cases s <;> simp only [page_size_points, Option.some.injEq, Prod.mk.injEq, reduceCtorEq] at hs <;>
      obtain ⟨rfl, rfl⟩ := hs <;> decide
  refine ⟨?_, hv.1, hv.2⟩
  rw [postscript_generate_header_eq, hv.1, hv.2]
  simp only [if_true]

/-- C13 for A4 in colour at 600 dpi on a Canon plotter. -/
theorem postscript_generate_header_spec_witness :
    page_size_points MediaSize.A4 = some (595, 842) ∧
    PostScriptGenerator.generate_header PlotterVendor.CANON 1700000000
        (PostScriptGenerator.capabilities_ PlotterVendor.CANON) MediaSize.A4
        ColorMode.COLOR 600 =
      "%!PS-Adobe-3.0\n%%Creator: All Press C++\n%%CreationDate: 1700000000\n" ++
        "<<\n  /PageSize [595 842]\n  /MediaClass (plain)\n  /ColorModel /DeviceRGB\n" ++
        ">> setpagedevice\n\ncurrentdevice /HWResolution\n[600 600] def\n\n" ++
        "% Canon imagePROGRAF settings\n<< /ColorRenderingType 1 >> setuserparams\n" ++
        "%%EndProlog\n\n" :=
  ⟨by decide,
    (postscript_generate_header_spec PlotterVendor.CANON 1700000000
      (PostScriptGenerator.capabilities_ PlotterVendor.CANON) MediaSize.A4
      ColorMode.COLOR 600 595 842 (by decide)).1.trans rfl⟩

/-! ## Job queue: ids and the id map -/

theorem wrap_int_of_bounds (x : Int) (h1 : -2147483648 ≤ x) (h2 : x ≤ 2147483647) :
    wrap_int x = x := by
  unfold wrap_int
  omega

theorem umap_find_assign_same (m : List (Int × Nat)) (id : Int) (ptr : Nat) :
    umap_find (umap_assign m id ptr) id = some ptr := by
  simp [umap_find, umap_assign]

theorem umap_find_assign_other (m : List (Int × Nat)) (id id2 : Int) (ptr : Nat)
    (h : id2 ≠ id) : umap_find (umap_assign m id ptr) id2 = umap_find m id2 := by
  have h2 : ¬ id = id2 := fun e => h e.symm
  unfold umap_find umap_assign
  rw [List.find?_cons_of_neg _ (by simpa using h2)]
  congr 1
  induction m with
  | nil => rfl
  | cons kv m ih =>
    by_cases hk : kv.1 = id
    · have hk2 : ¬ kv.1 = id2 := fun e => h (e.symm.trans hk)
      rw [List.filter_cons_of_neg (by simpa using hk), ih,
        List.find?_cons_of_neg _ (by simpa using hk2)]
    · rw [List.filter_cons_of_pos (by simpa using hk)]
      by_cases hk2 : kv.1 = id2
      · rw [List.find?_cons_of_pos _ (by simpa using hk2),
          List.find?_cons_of_pos _ (by simpa using hk2)]
      · rw [List.find?_cons_of_neg _ (by simpa using hk2),
          List.find?_cons_of_neg _ (by simpa using hk2), ih]

theorem same_ids_refl (q : JobQueue) : same_ids q q :=
  ⟨rfl, rfl, rfl, fun _ => rfl⟩

theorem same_ids_trans {q1 q2 q3 : JobQueue} (h12 : same_ids q1 q2) (h23 : same_ids q2 q3) :
    same_ids q1 q3 :=
  ⟨h23.1.trans h12.1, h23.2.1.trans h12.2.1, h23.2.2.1.trans h12.2.2.1,
    fun addr => (h23.2.2.2 addr).trans (h12.2.2.2 addr)⟩

theorem same_ids_modify (q : JobQueue) (addr : Nat) (f : PrintJob → PrintJob)
    (hf : ∀ job, (f job).job_id = job.job_id) : same_ids q (q.modify addr f) := by
  refine ⟨rfl, rfl, rfl, fun a => ?_⟩
  by_cases ha : a = addr
  · subst ha
    simp [JobQueue.modify, hf]
  · simp [JobQueue.modify, Function.update, ha]

theorem same_ids_notify_status (q : JobQueue) (addr : Nat) :
    same_ids q (q.notify_status addr) := by
  unfold JobQueue.notify_status
  split_ifs
  · exact ⟨rfl, rfl, rfl, fun _ => rfl⟩
  · exact same_ids_refl q

theorem same_ids_set_queue (q : JobQueue) (fifo : List Nat) :
    same_ids q { q with job_queue_ := fifo } :=
  ⟨rfl, rfl, rfl, fun _ => rfl⟩

theorem same_ids_set_events (q : JobQueue) (events : List Event) :
    same_ids q { q with events := events } :=
  ⟨rfl, rfl, rfl, fun _ => rfl⟩

theorem same_ids_set_active (q : JobQueue) (n : Nat) :
    same_ids q { q with active_jobs_ := n } :=
  ⟨rfl, rfl, rfl, fun _ => rfl⟩

theorem same_ids_cancel_job (q : JobQueue) (id : Int) : same_ids q (cancel_job q id).1 := by
  unfold cancel_job
  cases umap_find q.jobs_map_ id with
  | none => exact same_ids_refl q
  | some ptr =>
    have h1 := same_ids_modify q ptr (fun job => { job with status := JobStatus.Cancelled })
      (fun _ => rfl)
    exact same_ids_trans h1 (same_ids_notify_status _ ptr)

theorem same_ids_pause_job (q : JobQueue) (id : Int) : same_ids q (pause_job q id).1 := by
  unfold pause_job
  cases umap_find q.jobs_map_ id with
  | none => exact same_ids_refl q
  | some ptr =>
    exact same_ids_modify q ptr (fun job => { job with status := JobStatus.Paused })
      (fun _ => rfl)

theorem same_ids_resume_job (q : JobQueue) (id : Int) : same_ids q (resume_job q id).1 := by
  unfold resume_job
  cases umap_find q.jobs_map_ id with
  | none => exact same_ids_refl q
  | some ptr =>
    dsimp only
    split_ifs
    · exact same_ids_modify q ptr (fun job => { job with status := JobStatus.Pending })
        (fun _ => rfl)
    · exact same_ids_refl q

theorem same_ids_retry_job (q : JobQueue) (id : Int) : same_ids q (retry_job q id).1 := by
  unfold retry_job
  cases umap_find q.jobs_map_ id with
  | none => exact same_ids_refl q
  | some ptr =>
    dsimp only
    split_ifs
    · have h1 := same_ids_modify q ptr (fun job =>
        { job with
          status := JobStatus.Pending
          error_message := ""
          progress := 0
          started_at := 0
          completed_at := 0 }) (fun _ => rfl)
      have h2 := same_ids_set_queue (q.modify ptr (fun job =>
        { job with
          status := JobStatus.Pending
          error_message := ""
          progress := 0
          started_at := 0
          completed_at := 0 })) (q.job_queue_ ++ [ptr])
      exact same_ids_trans h1 (same_ids_trans h2 (same_ids_notify_status _ ptr))
    · exact same_ids_refl q

theorem same_ids_move_job (q : JobQueue) (id : Int) (new_printer : String) :
    same_ids q (move_job q id new_printer).1 := by
  unfold move_job
  cases umap_find q.jobs_map_ id with
  | none => exact same_ids_refl q
  | some ptr =>
    exact same_ids_modify q ptr (fun job => { job with printer_name := new_printer })
      (fun _ => rfl)

theorem same_ids_cancel_all (ids : List Int) (q : JobQueue) :
    same_ids q (ids.foldl (fun q id => (cancel_job q id).1) q) := by
  induction ids generalizing q with
  | nil => exact same_ids_refl q
  | cons id ids ih => exact same_ids_trans (same_ids_cancel_job q id) (ih _)

theorem same_ids_progress_ticks (cancelled_before : Nat → List Int) (addr : Nat)
    (ticks : List Nat) (k : Nat) (q : JobQueue) :
    same_ids q (progress_ticks cancelled_before addr ticks k q).1 := by
  induction ticks generalizing k q with
  | nil => exact same_ids_refl q
  | cons i ticks ih =>
    unfold progress_ticks
    dsimp only
    have h1 := same_ids_cancel_all (cancelled_before k) q
    split_ifs
    · exact h1
    · refine same_ids_trans h1 (same_ids_trans ?_ (ih _ _))
      exact same_ids_trans
        (same_ids_modify _ addr (fun job => { job with progress := i }) (fun _ => rfl))
        (same_ids_set_events _ _)
    · refine same_ids_trans h1 (same_ids_trans ?_ (ih _ _))
      exact same_ids_modify _ addr (fun job => { job with progress := i }) (fun _ => rfl)

theorem same_ids_execute_print_job (env : Environment) (cancelled_before : Nat → List Int)
    (q : JobQueue) (addr : Nat) :
    same_ids q (execute_print_job env cancelled_before q addr).1 := by
  unfold execute_print_job
  cases q.printer_manager_ with
  | none =>
    exact same_ids_modify q addr
      (fun job => { job with error_message := "Printer manager not available" }) (fun _ => rfl)
  | some pm =>
    dsimp only
    have hp := same_ids_progress_ticks cancelled_before addr [0, 20, 40, 60, 80, 100] 0 q
    split_ifs
    · exact same_ids_modify q addr
        (fun job => { job with error_message := "File not found: " ++ job.file_path })
        (fun _ => rfl)
    · exact hp
    · refine same_ids_trans ?_ (same_ids_modify _ addr _ (by intro _; rfl))
      refine same_ids_trans ?_ (same_ids_set_events _ _)
      refine same_ids_trans ?_ (same_ids_modify _ addr _ (by intro _; rfl))
      exact hp
    · refine same_ids_trans ?_ (same_ids_modify _ addr _ (by intro _; rfl))
      refine same_ids_trans ?_ (same_ids_set_events _ _)
      refine same_ids_trans ?_ (same_ids_modify _ addr _ (by intro _; rfl))
      exact hp

theorem same_ids_process_job (env : Environment) (started completed : Nat)
    (cancelled_before : Nat → List Int) (q : JobQueue) (addr : Nat) :
    same_ids q (process_job env started completed cancelled_before q addr) := by
  unfold process_job
  split_ifs with h
  · exact same_ids_refl q
  · dsimp only
    refine same_ids_trans ?_ (same_ids_set_active _ _)
    refine same_ids_trans ?_ (same_ids_notify_status _ addr)
    have h3 : same_ids q
        (execute_print_job env cancelled_before
          (({ q with active_jobs_ := q.active_jobs_ + 1 } : JobQueue).modify addr
            (fun job => { job with status := JobStatus.Processing, started_at := started })
            |>.notify_status addr) addr).1 := by
      refine same_ids_trans ?_ (same_ids_execute_print_job env cancelled_before _ addr)
      refine same_ids_trans ?_ (same_ids_notify_status _ addr)
      refine same_ids_trans ?_ (same_ids_modify _ addr _ (by intro _; rfl))
      exact same_ids_set_active q _
    split_ifs
    · exact same_ids_trans h3 (same_ids_modify _ addr _ (by intro _; rfl))
    · exact same_ids_trans h3 (same_ids_modify _ addr _ (by intro _; rfl))

theorem same_ids_worker_round (env : Environment) (started completed : Nat)
    (cancelled_before : Nat → List Int) (q : JobQueue) :
    same_ids q (worker_round env started completed cancelled_before q) := by
  unfold worker_round
  cases q.job_queue_ with
  | nil => exact same_ids_refl q
  | cons job rest =>
    exact same_ids_trans (same_ids_set_queue q rest)
      (same_ids_process_job env started completed cancelled_before _ job)

/-- Every operation other than `add_job` leaves the ids and the id map alone. -/
theorem same_ids_step (q : JobQueue) (op : Op) (h : op.is_add_job = false) :
    same_ids q (step q op) := by
  cases op with
  | add_job job now => simp [Op.is_add_job] at h
  | cancel_job id => exact same_ids_cancel_job q id
  | pause_job id => exact same_ids_pause_job q id
  | resume_job id => exact same_ids_resume_job q id
  | retry_job id => exact same_ids_retry_job q id
  | move_job id new_printer => exact same_ids_move_job q id new_printer
  | set_job_status_callback => exact ⟨rfl, rfl, rfl, fun _ => rfl⟩
  | set_progress_callback => exact ⟨rfl, rfl, rfl, fun _ => rfl⟩
  | set_printer_manager manager => exact ⟨rfl, rfl, rfl, fun _ => rfl⟩
  | worker env started completed cancelled_before =>
    exact same_ids_worker_round env started completed cancelled_before q

theorem count_add_job_cons (op : Op) (ops : List Op) :
    count_add_job (op :: ops) = count_add_job ops + (if op.is_add_job then 1 else 0) := by
  cases op <;> simp [count_add_job, Op.is_add_job]

theorem returned_ids_cons_other (q : JobQueue) (op : Op) (ops : List Op)
    (h : op.is_add_job = false) :
    returned_ids q (op :: ops) = returned_ids (step q op) ops := by
  cases op <;> first | rfl | simp [Op.is_add_job] at h

theorem run_cons (q : JobQueue) (op : Op) (ops : List Op) :
    run q (op :: ops) = run (step q op) ops := rfl

/-- As long as the counter stays below `INT_MAX`, it is its start value plus
the number of `add_job` calls. -/
theorem run_next_job_id (ops : List Op) (q : JobQueue) (h1 : 1 ≤ q.next_job_id_)
    (h2 : q.next_job_id_ + count_add_job ops ≤ 2147483647) :
    (run q ops).next_job_id_ = q.next_job_id_ + count_add_job ops := by
  induction ops generalizing q with
  | nil => simp [run, count_add_job]
  | cons op ops ih =>
    rw [run_cons]
    rw [count_add_job_cons] at h2 ⊢
    by_cases hop : op.is_add_job = true
    · simp only [hop, if_true] at h2 ⊢
      have hs : (step q op).next_job_id_ = q.next_job_id_ + 1 := by
        cases op with
        | add_job job now =>
          show wrap_int (q.next_job_id_ + 1) = q.next_job_id_ + 1
          exact wrap_int_of_bounds _ (by omega) (by omega)
        | _ => simp [Op.is_add_job] at hop
      rw [ih (step q op) (by omega) (by rw [hs]; push_cast at h2 ⊢; omega), hs]
      push_cast
      omega
    · have hop2 : op.is_add_job = false := by simpa using hop
      simp only [hop2, Bool.false_eq_true, if_false, Nat.add_zero] at h2 ⊢
      have hs := (same_ids_step q op hop2).1
      rw [ih (step q op) (by omega) (by omega), hs]

theorem count_add_job_replicate (n : Nat) (job : PrintJob) (now : Nat) :
    count_add_job (List.replicate n (Op.add_job job now)) = n := by
  induction n with
  | zero => rfl
  | succ n ih => rw [List.replicate_succ, count_add_job_cons, ih]; rfl

/-- The counter of a fresh queue after `n` calls of `add_job`, below `INT_MAX`. -/
theorem next_job_id_after_replicate (n : Nat) (job : PrintJob) (now : Nat)
    (h : (n : Int) + 1 ≤ 2147483647) :
    (run JobQueue.fresh (List.replicate n (Op.add_job job now))).next_job_id_ = n + 1 := by
  have h0 : JobQueue.fresh.next_job_id_ = 1 := rfl
  rw [run_next_job_id _ _ (by rw [h0]) (by rw [h0, count_add_job_replicate]; omega), h0,
    count_add_job_replicate]
  omega

theorem add_job_snd (q : JobQueue) (job : PrintJob) (now : Nat) :
    (add_job q job now).2 = q.next_job_id_ := rfl

theorem add_job_next (q : JobQueue) (job : PrintJob) (now : Nat) :
    (add_job q job now).1.next_job_id_ = wrap_int (q.next_job_id_ + 1) := rfl

theorem int_max_not_lt_int_min (a b : Int) (ha : a = 2147483647) (hb : b = -2147483648) :
    ¬ a < b := by
  subst ha hb
  norm_num

/-- C14, as stated: on a queue that has handed out 2147483646 ids, `add_job`
returns 2147483647 and the following `add_job` returns -2147483648, which is
neither larger nor positive: `next_job_id_` is a 32-bit `int` and wraps. -/
theorem add_job_id_wraps :
    (add_job (run JobQueue.fresh (List.replicate 2147483646 (Op.add_job sample_job 0)))
      sample_job 0).2 = 2147483647 ∧
    (add_job
      (add_job (run JobQueue.fresh (List.replicate 2147483646 (Op.add_job sample_job 0)))
        sample_job 0).1 sample_job 0).2 = -2147483648 ∧
    ¬ ((add_job (run JobQueue.fresh (List.replicate 2147483646 (Op.add_job sample_job 0)))
        sample_job 0).2 <
      (add_job
        (add_job (run JobQueue.fresh (List.replicate 2147483646 (Op.add_job sample_job 0)))
          sample_job 0).1 sample_job 0).2) := by
  have h1 : (add_job (run JobQueue.fresh (List.replicate 2147483646 (Op.add_job sample_job 0)))
      sample_job 0).2 = 2147483647 := by
    rw [add_job_snd, next_job_id_after_replicate _ _ _ (by norm_num)]
    norm_num
  have h2 : (add_job
      (add_job (run JobQueue.fresh (List.replicate 2147483646 (Op.add_job sample_job 0)))
        sample_job 0).1 sample_job 0).2 = -2147483648 := by
    rw [add_job_snd, add_job_next, next_job_id_after_replicate _ _ _ (by norm_num)]
    unfold wrap_int
    norm_num
  exact ⟨h1, h2, int_max_not_lt_int_min _ _ h1 h2⟩

/-- C14, amended: as long as fewer than 2147483647 ids have been handed out,
the ids returned by `add_job` are positive and strictly increasing (hence
unique): an id returned after any operations on a fresh queue is positive and
smaller than the id returned by any later `add_job`; the first id of a fresh
queue is 1. No operation other than `add_job` changes the `job_id` of a job,
and `add_job` changes none of the jobs that exist already. -/
theorem add_job_ids_increasing (ops1 ops2 : List Op) (job1 job2 : PrintJob) (now1 now2 : Nat)
    (h : count_add_job ops1 + count_add_job ops2 + 2 ≤ 2147483647) :
    0 < (add_job (run JobQueue.fresh ops1) job1 now1).2 ∧
    (add_job (run JobQueue.fresh ops1) job1 now1).2 <
      (add_job (run (add_job (run JobQueue.fresh ops1) job1 now1).1 ops2) job2 now2).2 ∧
    (add_job JobQueue.fresh job1 now1).2 = 1 ∧
    (∀ (q : JobQueue) (op : Op) (addr : Nat), op.is_add_job = false →
      ((step q op).heap addr).job_id = (q.heap addr).job_id) ∧
    (∀ (q : JobQueue) (job : PrintJob) (now addr : Nat), addr ≠ q.heap_size →
      ((add_job q job now).1.heap addr).job_id = (q.heap addr).job_id) := by
  have h0 : JobQueue.fresh.next_job_id_ = 1 := rfl
  have e1 : (add_job (run JobQueue.fresh ops1) job1 now1).2 = 1 + count_add_job ops1 := by
    show (run JobQueue.fresh ops1).next_job_id_ = 1 + count_add_job ops1
    rw [run_next_job_id _ _ (by rw [h0]) (by rw [h0]; omega), h0]
  have e2 : (add_job (run JobQueue.fresh ops1) job1 now1).1.next_job_id_ =
      2 + count_add_job ops1 := by
    show wrap_int ((run JobQueue.fresh ops1).next_job_id_ + 1) = 2 + count_add_job ops1
    rw [run_next_job_id _ _ (by rw [h0]) (by rw [h0]; omega), h0,
      wrap_int_of_bounds _ (by omega) (by omega)]
    omega
  have e3 : (add_job (run (add_job (run JobQueue.fresh ops1) job1 now1).1 ops2) job2 now2).2 =
      2 + count_add_job ops1 + count_add_job ops2 := by
    show (run (add_job (run JobQueue.fresh ops1) job1 now1).1 ops2).next_job_id_ = _
    rw [run_next_job_id _ _ (by rw [e2]; omega) (by rw [e2]; omega), e2]
  refine ⟨by rw [e1]; omega, by rw [e1, e3]; omega, rfl, ?_, ?_⟩
  · intro q op addr hop
    exact (same_ids_step q op hop).2.2.2 addr
  · intro q job now addr ha
    simp [add_job, Function.update, ha]

/-- C14 for two submissions with a cancellation in between. -/
theorem add_job_ids_increasing_witness :
    count_add_job [] + count_add_job [Op.cancel_job 1] + 2 ≤ 2147483647 ∧
    0 < (add_job (run JobQueue.fresh []) sample_job 5).2 ∧
    (add_job (run JobQueue.fresh []) sample_job 5).2 <
      (add_job (run (add_job (run JobQueue.fresh []) sample_job 5).1 [Op.cancel_job 1])
        sample_job 6).2 :=
  ⟨by decide,
    (add_job_ids_increasing [] [Op.cancel_job 1] sample_job sample_job 5 6 (by decide)).1,
    (add_job_ids_increasing [] [Op.cancel_job 1] sample_job sample_job 5 6 (by decide)).2.1⟩

/-- The ids under which the id map holds a job are those it held at the start
and those returned by `add_job` since. -/
theorem run_jobs_map_keys (ops : List Op) (q : JobQueue) (id : Int) :
    (umap_find (run q ops).jobs_map_ id).isSome = true ↔
      (umap_find q.jobs_map_ id).isSome = true ∨ id ∈ returned_ids q ops := by
  induction ops generalizing q with
  | nil => simp [run, returned_ids]
  | cons op ops ih =>
    rw [run_cons, ih]
    by_cases hop : op.is_add_job = true
    · cases op with
      | add_job job now =>
        have hm : (step q (Op.add_job job now)).jobs_map_ =
            umap_assign q.jobs_map_ q.next_job_id_ q.heap_size := rfl
        have hr : returned_ids q (Op.add_job job now :: ops) =
            q.next_job_id_ :: returned_ids (step q (Op.add_job job now)) ops := rfl
        rw [hm, hr, List.mem_cons]
        by_cases hid : id = q.next_job_id_
        · subst hid
          simp [umap_find_assign_same]
        · rw [umap_find_assign_other _ _ _ _ hid]
          simp [hid]
      | _ => simp [Op.is_add_job] at hop
    · have hop2 : op.is_add_job = false := by simpa using hop
      rw [returned_ids_cons_other q op ops hop2, (same_ids_step q op hop2).2.1]

/-- C15: after any operations on a fresh queue, `cancel_job(id)` for an id that
`add_job` has returned gives true and `get_job(id)` then has status
`Cancelled`; for an id that `add_job` has not returned it gives false and
leaves the queue (id map, FIFO, jobs) as it was. -/
theorem cancel_job_spec (ops : List Op) (id : Int) :
    (id ∈ returned_ids JobQueue.fresh ops →
      (cancel_job (run JobQueue.fresh ops) id).2 = true ∧
      (get_job (cancel_job (run JobQueue.fresh ops) id).1 id).map (fun job => job.status) =
        some JobStatus.Cancelled) ∧
    (id ∉ returned_ids JobQueue.fresh ops →
      cancel_job (run JobQueue.fresh ops) id = (run JobQueue.fresh ops, false)) := by
  have hk := run_jobs_map_keys ops JobQueue.fresh id
  have h0 : umap_find JobQueue.fresh.jobs_map_ id = none := rfl
  rw [h0] at hk
  simp only [Option.isSome_none, Bool.false_eq_true, false_or] at hk
  constructor
  · intro hid
    have hs := hk.2 hid
    cases hf : umap_find (run JobQueue.fresh ops).jobs_map_ id with
    | none => rw [hf] at hs; simp at hs
    | some ptr =>
      have hm := (same_ids_cancel_job (run JobQueue.fresh ops) id).2.1
      constructor
      · simp only [cancel_job, hf]
      · unfold get_job
        rw [hm, hf]
        simp only [cancel_job, hf, Option.map_some']
        simp [JobQueue.notify_status, JobQueue.modify]
        split_ifs <;> simp
  · intro hid
    have hn : umap_find (run JobQueue.fresh ops).jobs_map_ id = none := by
      cases hf : umap_find (run JobQueue.fresh ops).jobs_map_ id with
      | none => rfl
      | some ptr => exact absurd (hk.1 (by rw [hf]; rfl)) hid
    simp only [cancel_job, hn]

/-- C15 for the id of a job that was submitted and then paused, and for an id
that was never handed out. -/
theorem cancel_job_spec_witness :
    (1 : Int) ∈ returned_ids JobQueue.fresh [Op.add_job sample_job 5, Op.pause_job 1] ∧
    (cancel_job (run JobQueue.fresh [Op.add_job sample_job 5, Op.pause_job 1]) 1).2 = true ∧
    (7 : Int) ∉ returned_ids JobQueue.fresh [Op.add_job sample_job 5, Op.pause_job 1] ∧
    (cancel_job (run JobQueue.fresh [Op.add_job sample_job 5, Op.pause_job 1]) 7).2 = false :=
  ⟨by decide,
    ((cancel_job_spec [Op.add_job sample_job 5, Op.pause_job 1] 1).1 (by decide)).1,
    by decide,
    congrArg Prod.snd
      ((cancel_job_spec [Op.add_job sample_job 5, Op.pause_job 1] 7).2 (by decide))⟩

/-- C16: `retry_job(id)` returns false and changes nothing (no job, not the
FIFO, no callback) when `id` is unknown or the job's status is neither `Failed`
nor `Cancelled`. -/
theorem retry_job_rejected (q : JobQueue) (id : Int)
    (h : ∀ ptr, umap_find q.jobs_map_ id = some ptr →
      (q.heap ptr).status ≠ JobStatus.Failed ∧ (q.heap ptr).status ≠ JobStatus.Cancelled) :
    retry_job q id = (q, false) ∧
    get_job (retry_job q id).1 id = get_job q id ∧
    (retry_job q id).1.job_queue_ = q.job_queue_ ∧
    (retry_job q id).1.events = q.events := by
  have h1 : retry_job q id = (q, false) := by
    unfold retry_job
    cases hf : umap_find q.jobs_map_ id with
    | none => rfl
    | some ptr =>
      have hp := h ptr hf
      simp [hp.1, hp.2]
  rw [h1]
  exact ⟨rfl, rfl, rfl, rfl⟩

/-- C16 for a job that is still `Pending`. -/
theorem retry_job_rejected_witness :
    (∀ ptr, umap_find (run JobQueue.fresh submit_sample).jobs_map_ 1 = some ptr →
      ((run JobQueue.fresh submit_sample).heap ptr).status ≠ JobStatus.Failed ∧
      ((run JobQueue.fresh submit_sample).heap ptr).status ≠ JobStatus.Cancelled) ∧
    (retry_job (run JobQueue.fresh submit_sample) 1).2 = false ∧
    (get_job (run JobQueue.fresh submit_sample) 1).map (fun job => job.status) =
      some JobStatus.Pending :=
  have h : ∀ ptr, umap_find (run JobQueue.fresh submit_sample).jobs_map_ 1 = some ptr →
      ((run JobQueue.fresh submit_sample).heap ptr).status ≠ JobStatus.Failed ∧
      ((run JobQueue.fresh submit_sample).heap ptr).status ≠ JobStatus.Cancelled := by
    intro ptr hp
    have h0 : umap_find (run JobQueue.fresh submit_sample).jobs_map_ 1 = some 0 := by decide
    rw [h0] at hp
    cases hp
    decide
  ⟨h, congrArg Prod.snd (retry_job_rejected (run JobQueue.fresh submit_sample) 1 h).1,
    by decide⟩

/-- C17: for every queue and every job, `add_job`, then `cancel_job` of the
returned id, then `retry_job` of it: `cancel_job` and `retry_job` return true
and the job is left `Pending` with empty error message, progress 0 and
`started_at` and `completed_at` at the default time point. -/
theorem add_cancel_retry (q : JobQueue) (job : PrintJob) (now : Nat) :
    (cancel_job (add_job q job now).1 (add_job q job now).2).2 = true ∧
    (retry_job (cancel_job (add_job q job now).1 (add_job q job now).2).1
      (add_job q job now).2).2 = true ∧
    ∃ j : PrintJob,
      get_job
        (retry_job (cancel_job (add_job q job now).1 (add_job q job now).2).1
          (add_job q job now).2).1 (add_job q job now).2 = some j ∧
      j.status = JobStatus.Pending ∧ j.error_message = "" ∧ j.progress = 0 ∧
      j.started_at = 0 ∧ j.completed_at = 0 ∧ j.job_id = (add_job q job now).2 := by
  have hf : umap_find (add_job q job now).1.jobs_map_ (add_job q job now).2 =
      some q.heap_size := umap_find_assign_same _ _ _
  have hc : cancel_job (add_job q job now).1 (add_job q job now).2 =
      ((((add_job q job now).1.modify q.heap_size
        (fun job => { job with status := JobStatus.Cancelled })).notify_status q.heap_size),
        true) := by
    simp only [cancel_job, hf]
  have hm := (same_ids_cancel_job (add_job q job now).1 (add_job q job now).2).2.1
  have hf2 : umap_find (cancel_job (add_job q job now).1 (add_job q job now).2).1.jobs_map_
      (add_job q job now).2 = some q.heap_size := by rw [hm, hf]
  have hst : ((cancel_job (add_job q job now).1 (add_job q job now).2).1.heap
      q.heap_size).status = JobStatus.Cancelled := by
    rw [hc]
    simp only [JobQueue.notify_status, JobQueue.modify]
    split_ifs <;> simp
  have hr : retry_job (cancel_job (add_job q job now).1 (add_job q job now).2).1
      (add_job q job now).2 =
      ((({ (cancel_job (add_job q job now).1 (add_job q job now).2).1.modify q.heap_size
          (fun job =>
            { job with
              status := JobStatus.Pending
              error_message := ""
              progress := 0
              started_at := 0
              completed_at := 0 }) with
          job_queue_ :=
            (cancel_job (add_job q job now).1 (add_job q job now).2).1.job_queue_ ++
              [q.heap_size] } : JobQueue).notify_status q.heap_size), true) := by
    simp only [retry_job, hf2, hst, or_true, if_true]
    rfl
  have hm2 := (same_ids_retry_job (cancel_job (add_job q job now).1 (add_job q job now).2).1
    (add_job q job now).2).2.1
  refine ⟨by rw [hc], by rw [hr], ?_⟩
  unfold get_job
  rw [hm2, hf2]
  refine ⟨_, rfl, ?_⟩
  rw [hr]
  have hid : ((cancel_job (add_job q job now).1 (add_job q job now).2).1.heap
      q.heap_size).job_id = (add_job q job now).2 := by
    rw [(same_ids_cancel_job (add_job q job now).1 (add_job q job now).2).2.2.2]
    simp [add_job]
  simp only [JobQueue.notify_status, JobQueue.modify]
  split_ifs <;> simp [hid]

/-! ## Job queue: processing -/

theorem notify_status_heap (q : JobQueue) (addr : Nat) :
    (q.notify_status addr).heap = q.heap := by
  unfold JobQueue.notify_status
  split_ifs <;> rfl

theorem modify_heap_same (q : JobQueue) (addr : Nat) (f : PrintJob → PrintJob) :
    (q.modify addr f).heap addr = f (q.heap addr) := by
  simp [JobQueue.modify]

/-- `process_job` is its first part, `execute_print_job`, and its last part. -/
theorem process_job_eq (env : Environment) (started completed : Nat)
    (cancelled_before : Nat → List Int) (q : JobQueue) (addr : Nat) :
    process_job env started completed cancelled_before q addr =
      if (q.heap addr).status = JobStatus.Cancelled ∨ (q.heap addr).status = JobStatus.Paused
      then q
      else
        processing_finished
          (execute_print_job env cancelled_before (processing_started q addr started) addr).1
          addr
          (execute_print_job env cancelled_before (processing_started q addr started) addr).2
          completed := by
  rfl

theorem processing_finished_heap (q : JobQueue) (addr : Nat) (success : Bool)
    (completed : Nat) :
    (processing_finished q addr success completed).heap addr =
      if success then
        { q.heap addr with status := JobStatus.Completed, completed_at := completed }
      else { q.heap addr with status := JobStatus.Failed, error_message := "Print job failed" } := by
  unfold processing_finished
  cases success
  · simp only [Bool.false_eq_true, if_false]
    show (JobQueue.notify_status _ addr).heap addr = _
    rw [notify_status_heap, modify_heap_same]
  · simp only [if_true]
    show (JobQueue.notify_status _ addr).heap addr = _
    rw [notify_status_heap, modify_heap_same]

/-- A job that `process_job` does not skip ends `Completed`, exactly when
`execute_print_job` returned true, or `Failed` with the message
"Print job failed". -/
theorem process_job_final (env : Environment) (started completed : Nat)
    (cancelled_before : Nat → List Int) (q : JobQueue) (addr : Nat)
    (h : ¬ ((q.heap addr).status = JobStatus.Cancelled ∨
      (q.heap addr).status = JobStatus.Paused)) :
    ((process_job env started completed cancelled_before q addr).heap addr).status =
        JobStatus.Completed ∨
      (((process_job env started completed cancelled_before q addr).heap addr).status =
          JobStatus.Failed ∧
        ((process_job env started completed cancelled_before q addr).heap addr).error_message =
          "Print job failed") := by
  rw [process_job_eq, if_neg h, processing_finished_heap]
  cases (execute_print_job env cancelled_before (processing_started q addr started) addr).2
  · right
    exact ⟨rfl, rfl⟩
  · left
    rfl

theorem observed_statuses_append (e1 e2 : List Event) :
    observed_statuses (e1 ++ e2) = observed_statuses e1 ++ observed_statuses e2 := by
  simp [observed_statuses, List.filterMap_append]

theorem observed_progress_append (e1 e2 : List Event) :
    observed_progress (e1 ++ e2) = observed_progress e1 ++ observed_progress e2 := by
  simp [observed_progress, List.filterMap_append]

theorem submissions_append (e1 e2 : List Event) :
    submissions (e1 ++ e2) = submissions e1 ++ submissions e2 := by
  simp [submissions]

theorem notify_status_events (q : JobQueue) (addr : Nat) :
    (q.notify_status addr).events =
      q.events ++ (if q.status_callback_ then [Event.status (q.heap addr)] else []) := by
  unfold JobQueue.notify_status
  split_ifs <;> simp

theorem notify_status_flags (q : JobQueue) (addr : Nat) :
    (q.notify_status addr).status_callback_ = q.status_callback_ ∧
    (q.notify_status addr).progress_callback_ = q.progress_callback_ ∧
    (q.notify_status addr).printer_manager_ = q.printer_manager_ ∧
    (q.notify_status addr).jobs_map_ = q.jobs_map_ := by
  unfold JobQueue.notify_status
  split_ifs <;> exact ⟨rfl, rfl, rfl, rfl⟩

theorem processing_started_heap (q : JobQueue) (addr started : Nat) :
    (processing_started q addr started).heap addr =
      { q.heap addr with status := JobStatus.Processing, started_at := started } := by
  unfold processing_started
  rw [notify_status_heap, modify_heap_same]

theorem processing_started_events (q : JobQueue) (addr started : Nat) :
    (processing_started q addr started).events =
      q.events ++ (if q.status_callback_ then
        [Event.status
          { q.heap addr with status := JobStatus.Processing, started_at := started }]
        else []) := by
  unfold processing_started
  rw [notify_status_events, modify_heap_same]
  rfl

theorem processing_started_flags (q : JobQueue) (addr started : Nat) :
    (processing_started q addr started).status_callback_ = q.status_callback_ ∧
    (processing_started q addr started).progress_callback_ = q.progress_callback_ ∧
    (processing_started q addr started).printer_manager_ = q.printer_manager_ ∧
    (processing_started q addr started).jobs_map_ = q.jobs_map_ := by
  unfold processing_started
  exact notify_status_flags _ addr

theorem processing_finished_events (q : JobQueue) (addr : Nat) (success : Bool)
    (completed : Nat) :
    (processing_finished q addr success completed).events =
      q.events ++ (if q.status_callback_ then
        [Event.status ((processing_finished q addr success completed).heap addr)] else []) := by
  rw [processing_finished_heap]
  unfold processing_finished
  cases success
  · simp only [Bool.false_eq_true, if_false]
    show (JobQueue.notify_status _ addr).events = _
    rw [notify_status_events, modify_heap_same]
    rfl
  · simp only [if_true]
    show (JobQueue.notify_status _ addr).events = _
    rw [notify_status_events, modify_heap_same]
    rfl

theorem progress_ticks_cons (cancelled_before : Nat → List Int) (addr i : Nat)
    (ticks : List Nat) (k : Nat) (q : JobQueue) :
    progress_ticks cancelled_before addr (i :: ticks) k q =
      if (((cancelled_before k).foldl (fun q id => (cancel_job q id).1) q).heap addr).status =
          JobStatus.Cancelled
      then ((cancelled_before k).foldl (fun q id => (cancel_job q id).1) q, false)
      else progress_ticks cancelled_before addr ticks (k + 1)
        (ticked ((cancelled_before k).foldl (fun q id => (cancel_job q id).1) q) addr i) := rfl

theorem ticked_heap (q : JobQueue) (addr i : Nat) :
    (ticked q addr i).heap addr = { q.heap addr with progress := i } := by
  unfold ticked
  dsimp only
  split_ifs
  · show (q.modify addr (fun job => { job with progress := i })).heap addr = _
    exact modify_heap_same q addr _
  · exact modify_heap_same q addr _

theorem ticked_events (q : JobQueue) (addr i : Nat) :
    (ticked q addr i).events =
      q.events ++ (if q.progress_callback_ then [Event.progress (q.heap addr).job_id i]
        else []) := by
  unfold ticked
  dsimp only
  by_cases h : q.progress_callback_ = true
  · have h2 : (q.modify addr (fun job => { job with progress := i })).progress_callback_ = true :=
      h
    rw [if_pos h2, if_pos h]
    show q.events ++ [Event.progress ((q.modify addr _).heap addr).job_id
      ((q.modify addr _).heap addr).progress] = _
    rw [modify_heap_same]
  · have h2 : ¬ (q.modify addr (fun job => { job with progress := i })).progress_callback_ = true :=
      h
    rw [if_neg h2, if_neg h]
    simp [JobQueue.modify]

theorem ticked_flags (q : JobQueue) (addr i : Nat) :
    (ticked q addr i).status_callback_ = q.status_callback_ ∧
    (ticked q addr i).progress_callback_ = q.progress_callback_ ∧
    (ticked q addr i).printer_manager_ = q.printer_manager_ ∧
    (ticked q addr i).jobs_map_ = q.jobs_map_ := by
  unfold ticked
  dsimp only
  split_ifs <;> exact ⟨rfl, rfl, rfl, rfl⟩

/-- The progress loop without cancellation runs to its end: the callback sees
every tick, and the job keeps everything but its progress. -/
theorem progress_ticks_no_cancel (addr : Nat) (ticks : List Nat) (k : Nat) (q : JobQueue)
    (h : (q.heap addr).status ≠ JobStatus.Cancelled) :
    (progress_ticks no_cancel addr ticks k q).2 = true ∧
    (progress_ticks no_cancel addr ticks k q).1.events =
      q.events ++ (if q.progress_callback_ then
        ticks.map (fun i => Event.progress (q.heap addr).job_id i) else []) ∧
    ((progress_ticks no_cancel addr ticks k q).1.heap addr) =
      { q.heap addr with progress := (ticks.getLast?).getD (q.heap addr).progress } ∧
    ((progress_ticks no_cancel addr ticks k q).1.status_callback_ = q.status_callback_ ∧
      (progress_ticks no_cancel addr ticks k q).1.progress_callback_ = q.progress_callback_ ∧
      (progress_ticks no_cancel addr ticks k q).1.printer_manager_ = q.printer_manager_ ∧
      (progress_ticks no_cancel addr ticks k q).1.jobs_map_ = q.jobs_map_) := by
  induction ticks generalizing k q with
  | nil =>
    refine ⟨rfl, ?_, rfl, rfl, rfl, rfl, rfl⟩
    show q.events = _
    split_ifs <;> simp
  | cons i ticks ih =>
    rw [progress_ticks_cons]
    have hc : (no_cancel k).foldl (fun q id => (cancel_job q id).1) q = q := rfl
    rw [hc, if_neg h]
    have hst : ((ticked q addr i).heap addr).status ≠ JobStatus.Cancelled := by
      rw [ticked_heap]
      exact h
    have := ih (k + 1) (ticked q addr i) hst
    have hf := ticked_flags q addr i
    refine ⟨this.1, ?_, ?_, ?_⟩
    · rw [this.2.1, ticked_events, ticked_heap, hf.2.1]
      split_ifs <;> simp
    · rw [this.2.2.1, ticked_heap]
      cases ticks with
      | nil => rfl
      | cons i2 ticks2 =>
        have hl : (i2 :: ticks2).getLast? =
            some ((i2 :: ticks2).getLast (List.cons_ne_nil _ _)) :=
          List.getLast?_eq_getLast _ _
        simp [List.getLast?_cons_cons, hl]
    · exact ⟨this.2.2.2.1.trans hf.1, this.2.2.2.2.1.trans hf.2.1,
        this.2.2.2.2.2.1.trans hf.2.2.1, this.2.2.2.2.2.2.trans hf.2.2.2⟩

/-- `execute_print_job` with a printer manager and an existing file is the
progress loop followed, when the loop ran to its end, by the submission. -/
theorem execute_print_job_eq (env : Environment) (cancelled_before : Nat → List Int)
    (q : JobQueue) (addr : Nat) (pm : PrinterManager) (hpm : q.printer_manager_ = some pm)
    (hfile : env.file_exists (q.heap addr).file_path = true) :
    execute_print_job env cancelled_before q addr =
      if (progress_ticks cancelled_before addr [0, 20, 40, 60, 80, 100] 0 q).2 then
        submit_to_spooler env
          (progress_ticks cancelled_before addr [0, 20, 40, 60, 80, 100] 0 q).1 addr
      else ((progress_ticks cancelled_before addr [0, 20, 40, 60, 80, 100] 0 q).1, false) := by
  unfold execute_print_job
  rw [hpm]
  simp only [hfile, Bool.not_true, Bool.false_eq_true, if_false]
  cases (progress_ticks cancelled_before addr [0, 20, 40, 60, 80, 100] 0 q).2
  · rfl
  · rfl

/-- Without a file, `execute_print_job` records the file-missing message and
returns false; nothing else changes. -/
theorem execute_print_job_file_missing (env : Environment)
    (cancelled_before : Nat → List Int) (q : JobQueue) (addr : Nat) (pm : PrinterManager)
    (hpm : q.printer_manager_ = some pm)
    (hfile : env.file_exists (q.heap addr).file_path = false) :
    execute_print_job env cancelled_before q addr =
      (q.modify addr (fun job =>
        { job with error_message := "File not found: " ++ job.file_path }), false) := by
  unfold execute_print_job
  rw [hpm]
  simp only [hfile, Bool.not_false, if_true]

theorem submit_to_spooler_accepted (env : Environment) (q : JobQueue) (addr : Nat)
    (hsub : ∀ printer file options, 0 < env.submit_print_job printer file options) :
    (submit_to_spooler env q addr).2 = true ∧
    (submit_to_spooler env q addr).1.events =
      q.events ++ [Event.submit (q.heap addr).printer_name (q.heap addr).file_path
        (q.heap addr).options] ∧
    (submit_to_spooler env q addr).1.status_callback_ = q.status_callback_ ∧
    ((submit_to_spooler env q addr).1.heap addr).status = JobStatus.Printing := by
  unfold submit_to_spooler
  simp only [gt_iff_lt, hsub, if_true]
  refine ⟨trivial, ?_, rfl, ?_⟩
  · show q.events ++ [Event.submit ((q.modify addr _).heap addr).printer_name
      ((q.modify addr _).heap addr).file_path ((q.modify addr _).heap addr).options] = _
    rw [modify_heap_same]
  · simp only [JobQueue.modify, Function.update_same]

theorem observed_statuses_progress (id : Int) (ticks : List Nat) :
    observed_statuses (ticks.map (fun i => Event.progress id i)) = [] := by
  induction ticks with
  | nil => rfl
  | cons i ticks ih => simp [observed_statuses]

/-- With a status callback registered and no cancellation, a job that is
processed and accepted by the spooler makes the callback see `Processing` and
then `Completed`, and nothing else. -/
theorem process_job_accepted_statuses (env : Environment) (started completed : Nat)
    (q : JobQueue) (addr : Nat) (pm : PrinterManager) (hcb : q.status_callback_ = true)
    (hpm : q.printer_manager_ = some pm)
    (hfile : env.file_exists (q.heap addr).file_path = true)
    (hst : ¬ ((q.heap addr).status = JobStatus.Cancelled ∨
      (q.heap addr).status = JobStatus.Paused))
    (hsub : ∀ printer file options, 0 < env.submit_print_job printer file options) :
    observed_statuses (process_job env started completed no_cancel q addr).events =
        observed_statuses q.events ++ [JobStatus.Processing, JobStatus.Completed] ∧
    ((process_job env started completed no_cancel q addr).heap addr).status =
      JobStatus.Completed := by
  have hf := processing_started_flags q addr started
  have hh := processing_started_heap q addr started
  have hst1 : ((processing_started q addr started).heap addr).status ≠ JobStatus.Cancelled := by
    rw [hh]
    intro hc
    cases hc
  have hp := progress_ticks_no_cancel addr [0, 20, 40, 60, 80, 100] 0
    (processing_started q addr started) hst1
  have he := execute_print_job_eq env no_cancel (processing_started q addr started) addr pm
    (hf.2.2.1.trans hpm) (by rw [hh]; exact hfile)
  rw [hp.1, if_pos rfl] at he
  have hs := submit_to_spooler_accepted env
    (progress_ticks no_cancel addr [0, 20, 40, 60, 80, 100] 0
      (processing_started q addr started)).1 addr hsub
  rw [process_job_eq, if_neg hst, he, hs.1]
  constructor
  · rw [processing_finished_events, hs.2.2.1, hp.2.2.2.1, hf.1, hcb, if_pos rfl,
      processing_finished_heap, if_pos rfl, hs.2.1, hp.2.1, processing_started_events, hcb,
      if_pos rfl]
    simp only [observed_statuses_append]
    have h1 : observed_statuses
        (if (processing_started q addr started).progress_callback_ = true then
          List.map (fun i => Event.progress ((processing_started q addr started).heap addr).job_id i)
            [0, 20, 40, 60, 80, 100]
        else []) = [] := by
      split_ifs
      · exact observed_statuses_progress _ _
      · rfl
    rw [h1]
    simp [observed_statuses]
  · rw [processing_finished_heap, if_pos rfl]

/-- C18, at the failing input: `sample_job` is submitted to a fresh queue with
both callbacks and a printer manager, a worker starts processing it, and
`cancel_job(1)` arrives before the status check of the third tick. The worker
then leaves the loop (the progress callback has seen 0 and 20 only and nothing
is submitted), the status callback sees `Processing`, `Cancelled`, `Failed`,
and the job ends `Failed` with the message "Print job failed", not
`Cancelled`. In general a job that `process_job` does not skip never ends
`Cancelled`: it ends `Completed` or `Failed`. -/
theorem cancel_during_ticks_ends_failed :
    ((get_job (sample_run spooler_accepts (cancel_at 2 1)) 1).map
        (fun job => (job.status, job.error_message, job.progress)),
      observed_progress (sample_run spooler_accepts (cancel_at 2 1)).events,
      observed_statuses (sample_run spooler_accepts (cancel_at 2 1)).events,
      submissions (sample_run spooler_accepts (cancel_at 2 1)).events) =
      (some (JobStatus.Failed, "Print job failed", 20), [0, 20],
        [JobStatus.Processing, JobStatus.Cancelled, JobStatus.Failed], []) ∧
    ∀ (env : Environment) (started completed : Nat) (cancelled_before : Nat → List Int)
      (q : JobQueue) (addr : Nat),
      ¬ ((q.heap addr).status = JobStatus.Cancelled ∨
        (q.heap addr).status = JobStatus.Paused) →
      ((process_job env started completed cancelled_before q addr).heap addr).status ≠
        JobStatus.Cancelled := by
  refine ⟨rfl, ?_⟩
  intro env started completed cancelled_before q addr h hc
  rcases process_job_final env started completed cancelled_before q addr h with h1 | h1
  · rw [h1] at hc
    cases hc
  · rw [h1.1] at hc
    cases hc

/-- C19, at the failing inputs: `sample_job` is processed once with its file
missing and once with a spooler that answers 0. `execute_print_job` records
"File not found: /tmp/a.pdf" in the first case and the submit-failure
message in the second, and no submission is made for the missing file; but
after `process_job` the job is `Failed` with the message "Print job failed"
in both cases. In general every job that `process_job` does not skip and that
does not end `Completed` ends `Failed` with the message "Print job failed". -/
theorem failed_job_message_overwritten :
    (((execute_print_job file_missing no_cancel (run JobQueue.fresh submit_sample) 0).1.heap
          0).error_message,
      ((execute_print_job spooler_rejects no_cancel (run JobQueue.fresh submit_sample) 0).1.heap
          0).error_message) =
      ("File not found: /tmp/a.pdf",
        "Failed to submit print job. Check printer connection and file format.") ∧
    ((get_job (sample_run file_missing no_cancel) 1).map
        (fun job => (job.status, job.error_message)),
      submissions (sample_run file_missing no_cancel).events) =
      (some (JobStatus.Failed, "Print job failed"), []) ∧
    ((get_job (sample_run spooler_rejects no_cancel) 1).map
        (fun job => (job.status, job.error_message)),
      submissions (sample_run spooler_rejects no_cancel).events) =
      (some (JobStatus.Failed, "Print job failed"),
        [Event.submit "office1" "/tmp/a.pdf" sample_job.options]) ∧
    ∀ (env : Environment) (started completed : Nat) (cancelled_before : Nat → List Int)
      (q : JobQueue) (addr : Nat),
      ¬ ((q.heap addr).status = JobStatus.Cancelled ∨
        (q.heap addr).status = JobStatus.Paused) →
      ((process_job env started completed cancelled_before q addr).heap addr).status ≠
        JobStatus.Completed →
      ((process_job env started completed cancelled_before q addr).heap addr).status =
          JobStatus.Failed ∧
        ((process_job env started completed cancelled_before q addr).heap addr).error_message =
          "Print job failed" := by
  refine ⟨rfl, rfl, rfl, ?_⟩
  intro env started completed cancelled_before q addr h hc
  rcases process_job_final env started completed cancelled_before q addr h with h1 | h1
  · exact absurd h1 hc
  · exact h1

/-- C20, at the failing input: `sample_job` is submitted to a fresh queue
with a status callback and completes on the plain path. The status callback
sees `Processing` and `Completed` only: `add_job` does not call it for
`Pending`, and `execute_print_job` sets `Printing` without calling it. The
same holds for every job that is processed without a cancellation and that
the spooler accepts. -/
theorem status_callback_sees_two_statuses :
    ((get_job (sample_run spooler_accepts no_cancel) 1).map (fun job => job.status),
      observed_statuses (run JobQueue.fresh submit_sample).events,
      observed_statuses (sample_run spooler_accepts no_cancel).events) =
      (some JobStatus.Completed, [], [JobStatus.Processing, JobStatus.Completed]) ∧
    (∀ (q : JobQueue) (job : PrintJob) (now : Nat), (add_job q job now).1.events = q.events) ∧
    ∀ (env : Environment) (started completed : Nat) (q : JobQueue) (addr : Nat)
      (pm : PrinterManager),
      q.status_callback_ = true → q.printer_manager_ = some pm →
      env.file_exists (q.heap addr).file_path = true →
      ¬ ((q.heap addr).status = JobStatus.Cancelled ∨
        (q.heap addr).status = JobStatus.Paused) →
      (∀ printer file options, 0 < env.submit_print_job printer file options) →
      observed_statuses (process_job env started completed no_cancel q addr).events =
        observed_statuses q.events ++ [JobStatus.Processing, JobStatus.Completed] := by
  refine ⟨rfl, fun _ _ _ => rfl, ?_⟩
  intro env started completed q addr pm hcb hpm hfile hst hsub
  exact (process_job_accepted_statuses env started completed q addr pm hcb hpm hfile hst hsub).1

/-! ## File type detection -/

/-- Every extension that `detect_file_type` knows is in lower case: a path
that is not classified `Unknown` has an extension without capital letters. -/
theorem detect_file_type_known_lower (p : String)
    (h : detect_file_type p ≠ FileType.Unknown) :
    (get_file_extension p).data.map Char.toLower = (get_file_extension p).data := by
  unfold detect_file_type at h
  simp only [] at h
  split_ifs at h with h1 h2 h3 h4 h5 h6 h7 h8
  · rw [h1]; decide
  · rcases h2 with h | h | h | h | h | h | h <;> rw [h] <;> decide
  · rcases h3 with h | h | h | h | h | h | h <;> rw [h] <;> decide
  · rcases h4 with h | h | h | h | h | h <;> rw [h] <;> decide
  · rw [h5]; decide
  · rcases h6 with h | h | h | h | h | h <;> rw [h] <;> decide
  · rcases h7 with h | h | h | h <;> rw [h] <;> decide
  · rcases h8 with h | h | h <;> rw [h] <;> decide
  · exact absurd rfl h

/-- C22, at the failing input: "IMAGE.PNG" is classified `Unknown`, while the
same path with its extension in lower case, "IMAGE.png", is classified
`Image`; "image.jpg" is `Image` and "document.pdf" is `PDF`. The extension is
compared as it stands: a path whose extension has a capital letter is always
`Unknown`. -/
theorem detect_file_type_case_sensitive :
    detect_file_type "IMAGE.PNG" = FileType.Unknown ∧
    with_extension_lowercased "IMAGE.PNG" = "IMAGE.png" ∧
    detect_file_type (with_extension_lowercased "IMAGE.PNG") = FileType.Image ∧
    detect_file_type "image.jpg" = FileType.Image ∧
    detect_file_type "document.pdf" = FileType.PDF ∧
    ∀ p : String,
      (get_file_extension p).data.map Char.toLower ≠ (get_file_extension p).data →
      detect_file_type p = FileType.Unknown := by
  refine ⟨by decide, by decide, by decide, by decide, by decide, ?_⟩
  intro p hp
  by_contra hc
  exact hp (detect_file_type_known_lower p hc)

/-! ## Requested resolution -/

/-- C30, at the failing input: a request for 300 dpi becomes quality 3 in
`handle_validate_document`, and quality 3 becomes 600 dpi in
`validate_document_for_plotter`; 600 and 1200 come back unchanged. For every
requested dpi the validated one is 1200 from 1200 on and 600 below. -/
theorem requested_300_validated_as_600 :
    handle_validate_document_quality 300 = 3 ∧
    validate_document_for_plotter_dpi (handle_validate_document_quality 300) = 600 ∧
    validate_document_for_plotter_dpi (handle_validate_document_quality 600) = 600 ∧
    validate_document_for_plotter_dpi (handle_validate_document_quality 1200) = 1200 ∧
    ∀ dpi : Int,
      validate_document_for_plotter_dpi (handle_validate_document_quality dpi) =
        if dpi ≥ 1200 then 1200 else 600 := by
  refine ⟨by decide, by decide, by decide, by decide, ?_⟩
  intro dpi
  unfold handle_validate_document_quality validate_document_for_plotter_dpi
  split_ifs <;> first | rfl | omega

/-! ## Job queue: the FIFO -/

/-- C29, at the failing input: `add_job`, `cancel_job(1)`, `retry_job(1)` with
no worker running. `cancel_job` leaves the entry of the job in the FIFO and
`retry_job` pushes the job again, so the FIFO holds the job twice and
`get_queue_size()` is 2; a worker that then takes two entries from the FIFO
submits the job to the spooler twice. Whenever `retry_job` returns true the
FIFO has grown by one entry for the job, whatever it held before. -/
theorem retry_job_pushes_again :
    (get_queue_size (run JobQueue.fresh add_cancel_retry_ops),
      (run JobQueue.fresh add_cancel_retry_ops).job_queue_,
      (get_job (run JobQueue.fresh add_cancel_retry_ops) 1).map (fun job => job.status)) =
      (2, [0, 0], some JobStatus.Pending) ∧
    (submissions add_cancel_retry_run.events, observed_statuses add_cancel_retry_run.events,
      get_queue_size add_cancel_retry_run) =
      ([Event.submit "office1" "/tmp/a.pdf" sample_job.options,
          Event.submit "office1" "/tmp/a.pdf" sample_job.options],
        [JobStatus.Cancelled, JobStatus.Pending, JobStatus.Processing, JobStatus.Completed,
          JobStatus.Processing, JobStatus.Completed], 0) ∧
    ∀ (q : JobQueue) (job_id : Int), (retry_job q job_id).2 = true →
      ∃ ptr, umap_find q.jobs_map_ job_id = some ptr ∧
        (retry_job q job_id).1.job_queue_ = q.job_queue_ ++ [ptr] := by
  refine ⟨rfl, rfl, ?_⟩
  intro q job_id h
  unfold retry_job at h ⊢
  cases hf : umap_find q.jobs_map_ job_id with
  | none => simp [hf] at h
  | some ptr =>
    refine ⟨ptr, rfl, ?_⟩
    simp only [hf] at h ⊢
    split_ifs at h ⊢ with hs
    · unfold JobQueue.notify_status
      split_ifs <;> rfl

/-! ## Job queue: status changes -/

/-- `cancel_job` and `pause_job` on a known id set the status without looking
at the one the job has. -/
theorem cancel_pause_unconditional (q : JobQueue) (job_id : Int) (ptr : Nat)
    (h : umap_find q.jobs_map_ job_id = some ptr) :
    ((cancel_job q job_id).1.heap ptr).status = JobStatus.Cancelled ∧
    ((pause_job q job_id).1.heap ptr).status = JobStatus.Paused := by
  constructor
  · simp only [cancel_job, h]
    rw [notify_status_heap, modify_heap_same]
  · simp only [pause_job, h]
    rw [modify_heap_same]

/-- C25, at the failing input: `sample_job` is submitted and printed, so its
status is `Completed`; `cancel_job(1)` then makes it `Cancelled` and
`pause_job(1)` makes it `Paused`, and neither Completed->Cancelled nor
Completed->Paused is an edge of the listed state machine. For every job the
queue knows, `cancel_job` sets `Cancelled` and `pause_job` sets `Paused`
whatever status the job has. -/
theorem cancel_pause_leave_state_machine :
    ((get_job completed_run 1).map (fun job => job.status),
      (get_job (cancel_job completed_run 1).1 1).map (fun job => job.status),
      (get_job (pause_job completed_run 1).1 1).map (fun job => job.status)) =
      (some JobStatus.Completed, some JobStatus.Cancelled, some JobStatus.Paused) ∧
    specified_edge JobStatus.Completed JobStatus.Cancelled = false ∧
    specified_edge JobStatus.Completed JobStatus.Paused = false ∧
    ∀ (q : JobQueue) (job_id : Int) (ptr : Nat), umap_find q.jobs_map_ job_id = some ptr →
      ((cancel_job q job_id).1.heap ptr).status = JobStatus.Cancelled ∧
      ((pause_job q job_id).1.heap ptr).status = JobStatus.Paused := by
  exact ⟨rfl, rfl, rfl, cancel_pause_unconditional⟩

/-! ## Subnet sweep -/

theorem range_append_consecutive (s m n : Nat) :
    List.range' s m ++ List.range' (s + m) n = List.range' s (m + n) := by
  have h := List.range'_append s m n 1
  rw [Nat.one_mul] at h
  rw [h, Nat.add_comm]

theorem full_chunks_flatten (c m : Nat) :
    ((List.range m).map (fun t => List.range' (t * c + 1) c)).flatten =
      List.range' 1 (m * c) := by
  induction m with
  | zero => simp
  | succ m ih =>
    rw [List.range_succ, List.map_append, List.flatten_append, ih]
    simp only [List.map_cons, List.map_nil, List.flatten_cons, List.flatten_nil, List.append_nil]
    rw [Nat.add_comm (m * c) 1, range_append_consecutive, Nat.succ_mul]

theorem scan_chunks_eq (m : Nat) :
    scan_chunks (m + 1) = some ((List.range (m + 1)).map (fun t =>
      (t * (254 / (m + 1)) + 1, if t = m then 254 else (t + 1) * (254 / (m + 1))))) := by
  simp [scan_chunks]

theorem scan_chunks_cover (n : Nat) (hn : 1 ≤ n) :
    ∃ chunks, scan_chunks n = some chunks ∧ chunks.length = n ∧
      (chunks.map probed_hosts).flatten = List.range' 1 254 := by
  obtain ⟨m, rfl⟩ : ∃ m, n = m + 1 := ⟨n - 1, by omega⟩
  refine ⟨_, scan_chunks_eq m, by simp, ?_⟩
  have hc : m * (254 / (m + 1)) ≤ 254 := by
    calc m * (254 / (m + 1)) ≤ (m + 1) * (254 / (m + 1)) :=
          Nat.mul_le_mul_right _ (Nat.le_succ m)
      _ ≤ 254 := Nat.mul_div_le 254 (m + 1)
  rw [List.map_map, List.range_succ, List.map_append, List.flatten_append]
  have h1 : (List.range m).map (probed_hosts ∘ fun t =>
      (t * (254 / (m + 1)) + 1,
        if t = m then 254 else (t + 1) * (254 / (m + 1)))) =
      (List.range m).map (fun t => List.range' (t * (254 / (m + 1)) + 1) (254 / (m + 1))) := by
    apply List.map_congr_left
    intro t ht
    have htm : t ≠ m := by
      have := List.mem_range.mp ht
      omega
    simp only [Function.comp, probed_hosts, if_neg htm]
    congr 1
    generalize 254 / (m + 1) = c
    rw [Nat.succ_mul]
    omega
  rw [h1, full_chunks_flatten]
  simp only [List.map_cons, List.map_nil, List.flatten_cons, List.flatten_nil, List.append_nil,
    Function.comp, probed_hosts, if_true]
  rw [Nat.add_comm (m * (254 / (m + 1))) 1, range_append_consecutive]
  congr 1
  generalize m * (254 / (m + 1)) = k at hc
  omega

/-- C27, at the failing input: with a thread count of 0, which
`std::thread::hardware_concurrency()` may return, computing the chunk size
`254 / num_threads` divides by zero. For every thread count `n >= 1` the
chunks are computed, there are `n` of them, and the hosts they hold, taken
chunk after chunk, are exactly 1, ..., 254 in order, each once; for 4 threads
the chunks are [1, 63], [64, 126], [127, 189], [190, 254]. -/
theorem scan_chunks_zero_threads :
    scan_chunks 0 = none ∧
    scan_chunks 4 = some [(1, 63), (64, 126), (127, 189), (190, 254)] ∧
    ∀ n : Nat, 1 ≤ n →
      ∃ chunks, scan_chunks n = some chunks ∧ chunks.length = n ∧
        (chunks.map probed_hosts).flatten = List.range' 1 254 := by
  exact ⟨rfl, by decide, scan_chunks_cover⟩

/-! ## Generators and the clock -/

/-- C28, as stated: two calls of `PostScriptGenerator::generate_header` with
equal arguments (A4, colour, 600 dpi, Canon), made while the clock reads 0 and
1, return different byte sequences. -/
theorem postscript_header_depends_on_clock :
    PostScriptGenerator.call PlotterVendor.CANON 0 canon_a4_header ≠
      PostScriptGenerator.call PlotterVendor.CANON 1 canon_a4_header := by
  decide

/-- C28, amended: the three generation methods of `HPGLGenerator` and
`generate_page` and `generate_footer` of `PostScriptGenerator` return bytes
that depend on the construction parameter and the arguments only, not on the
clock. `PostScriptGenerator::generate_header` writes the clock reading into
its `%%CreationDate` line and depends on nothing else besides its arguments:
the header is the two leading comment lines, the `%%CreationDate` line with the
reading, and a rest that is the same for every reading. -/
theorem generators_deterministic_except_creation_date :
    (∀ (use_hpgl2 : Bool) (now1 now2 : Int) (c : GeneratorCall),
      HPGLGenerator.call use_hpgl2 now1 c = HPGLGenerator.call use_hpgl2 now2 c) ∧
    (∀ (vendor : PlotterVendor) (now1 now2 : Int) (c : GeneratorCall),
      c.is_generate_header = false →
      PostScriptGenerator.call vendor now1 c = PostScriptGenerator.call vendor now2 c) ∧
    (∀ (vendor : PlotterVendor) (caps : PlotterCapabilities) (s : MediaSize) (m : ColorMode)
        (d : Int),
      ∃ rest : String, ∀ now : Int,
        PostScriptGenerator.generate_header vendor now caps s m d =
          "%!PS-Adobe-3.0\n" ++ "%%Creator: All Press C++\n" ++
            ("%%CreationDate: " ++ toString now ++ "\n") ++ rest) := by
  refine ⟨?_, ?_, ?_⟩
  · intro use_hpgl2 now1 now2 c
    cases c <;> rfl
  · intro vendor now1 now2 c hc
    cases c with
    | generate_header caps s m d => simp [GeneratorCall.is_generate_header] at hc
    | generate_page raster_data width height dpi => rfl
    | generate_footer => rfl
  · intro vendor caps s m d
    refine ⟨(if PostScriptGenerator.validate_media_size s then
          "<<\n" ++
            ("  /PageSize [" ++ toString (map_at PostScriptGenerator.media_dimensions_ s).1 ++
              " " ++ toString (map_at PostScriptGenerator.media_dimensions_ s).2 ++ "]\n") ++
            "  /MediaClass (plain)\n" ++
            (if m = ColorMode.COLOR then "  /ColorModel /DeviceRGB\n"
              else "  /ColorModel /DeviceGray\n") ++
            ">> setpagedevice\n\n"
          else "") ++
        "currentdevice /HWResolution\n" ++
        ("[" ++ toString d ++ " " ++ toString d ++ "] def\n\n") ++
        (if vendor = PlotterVendor.CANON then
          "% Canon imagePROGRAF settings\n" ++ "<< /ColorRenderingType 1 >> setuserparams\n"
          else if vendor = PlotterVendor.EPSON then
            "% Epson SureColor settings\n" ++ "<< /Optimize true >> setuserparams\n"
          else "") ++
        "%%EndProlog\n\n", fun now => ?_⟩
    rw [postscript_generate_header_eq]
    simp only [String.append_assoc]

/-! ## Configuration from JSON -/

/-- A member that is itself an object leaves the map as it is. -/
theorem from_json_members_objects (members : List (String × Json))
    (h : ∀ kv ∈ members, ∃ ms, kv.2 = Json.object ms) (m : List (String × String)) :
    members.foldl (fun m kv => from_json_member m kv.1 kv.2) m = m := by
  induction members generalizing m with
  | nil => rfl
  | cons kv members ih =>
    obtain ⟨ms, hms⟩ := h kv (List.mem_cons_self _ _)
    rw [List.foldl_cons, hms]
    exact ih (fun kv2 hkv2 => h kv2 (List.mem_cons_of_mem _ hkv2)) m

/-- C23, at the failing input: `from_json` of
`{"server": {"port": 9000, "ws_port": 9001}, "queue": {"max_workers": 8}}` on
an empty configuration returns true and stores nothing, so
`get_int("server.port")`, `get_int("server.ws_port")` and
`get_int("queue.max_workers")` give the default 0 and no key "server.port"
exists; likewise the nested strings of the second test document are not
stored. Scalar members at the top of a document are stored under their own
key. For every document whose members are all objects, `from_json` returns
true and leaves the configuration as it was. -/
theorem from_json_skips_sections :
    from_json [] (some sections_json) = ([], true) ∧
    (get_int (from_json [] (some sections_json)).1 "server.port" 0,
      get_int (from_json [] (some sections_json)).1 "server.ws_port" 0,
      get_int (from_json [] (some sections_json)).1 "queue.max_workers" 0,
      has_key (from_json [] (some sections_json)).1 "server.port") = (0, 0, 0, false) ∧
    (get_string (from_json [] (some nested_strings_json)).1 "server.host" "",
      get_string (from_json [] (some nested_strings_json)).1 "logging.level" "") = ("", "") ∧
    (get_int (from_json [] (some flat_json)).1 "port" 0,
      get_bool (from_json [] (some flat_json)).1 "debug" false) = (9000, true) ∧
    ∀ (config_map : List (String × String)) (members : List (String × Json)),
      (∀ kv ∈ members, ∃ ms, kv.2 = Json.object ms) →
      from_json config_map (some (Json.object members)) = (config_map, true) := by
  refine ⟨by decide, by decide, by decide, by decide, ?_⟩
  intro config_map members h
  show (members.foldl (fun m kv => from_json_member m kv.1 kv.2) config_map, true) = _
  rw [from_json_members_objects members h]

/-! ## Configuration file round trip -/

/-- C24, at the failing input: a configuration with the keys "server.port"
(value "8080") and "debug" (value "true") is saved as the section `[server]`
with `port=8080`, an empty line, and then `debug=true`, because
`save_to_file` writes the top-level keys after the sections. `load_from_file`
reads `debug=true` as a key of the section `server`: the reloaded
configuration has "server.debug" and no key "debug". The configuration of the
test, with the single key "server.port", comes back as it was, and
`get_int("server.port")` is 8080. -/
theorem save_load_moves_top_level_keys :
    save_to_file mixed_config true = some "[server]\nport=8080\n\ndebug=true\n" ∧
    load_from_file [] (save_to_file mixed_config true) =
      ([("server.port", "8080"), ("server.debug", "true")], true) ∧
    (get_string mixed_config "debug" "",
      get_string (load_from_file [] (save_to_file mixed_config true)).1 "debug" "",
      has_key mixed_config "server.debug",
      has_key (load_from_file [] (save_to_file mixed_config true)).1 "server.debug") =
      ("true", "", false, true) ∧
    load_from_file [] (save_to_file port_config true) = (port_config, true) ∧
    get_int (load_from_file [] (save_to_file port_config true)).1 "server.port" 0 = 8080 := by
  refine ⟨by decide, by decide, by decide, by decide, by decide⟩

/-! ## Online decision of the discovery -/

/-- The loop over the state reasons keeps `ready` exactly when no reason holds
one of the three keywords. -/
theorem reasons_fold (reasons : List String) (ready : Bool) :
    reasons.foldl
        (fun ready reason_str =>
          if found reason_str.data "offline" ∨ found reason_str.data "shutdown" ∨
              found reason_str.data "paused" then false
          else ready)
        ready = true ↔
      ready = true ∧ ∀ r ∈ reasons,
        ¬ (found r.data "offline" = true ∨ found r.data "shutdown" = true ∨
          found r.data "paused" = true) := by
  induction reasons generalizing ready with
  | nil => simp
  | cons r reasons ih =>
    rw [List.foldl_cons, ih]
    by_cases hr : found r.data "offline" = true ∨ found r.data "shutdown" = true ∨
        found r.data "paused" = true
    · rw [if_pos hr]
      constructor
      · intro h
        exact absurd h.1 (by decide)
      · intro h
        exact absurd hr (h.2 r (List.mem_cons_self _ _))
    · rw [if_neg hr]
      constructor
      · intro h
        refine ⟨h.1, fun r2 hr2 => ?_⟩
        rcases List.mem_cons.mp hr2 with h2 | h2
        · rw [h2]
          exact hr
        · exact h.2 r2 h2
      · intro h
        exact ⟨h.1, fun r2 hr2 => h.2 r2 (List.mem_cons_of_mem _ hr2)⟩

/-- Spooler readiness: the state is 3 or 4 and no state reason contains
"offline", "shutdown" or "paused". -/
theorem cups_says_ready_iff (state : Int) (reasons : List String) :
    cups_says_ready (ipp_response state reasons) = true ↔
      (state = 3 ∨ state = 4) ∧ ∀ r ∈ reasons,
        ¬ (contains_substring r.data "offline" ∨ contains_substring r.data "shutdown" ∨
          contains_substring r.data "paused") := by
  unfold cups_says_ready ipp_response
  simp only []
  rw [reasons_fold]
  simp only [found_iff, decide_eq_true_eq]

/-- A destination without `device-uri` option gets the URI "cups://" plus its
name, which has no network scheme. -/
theorem cups_uri_not_network (name : String) :
    is_network_uri ("cups://".data ++ name.data) = false := by
  simp [is_network_uri, string_find, starts_with]

/-- C26, at the failing input: for a spooler-ready device (state 3) with the
device URI "ipp://[fe80::1]:631/ipp/print" the discovery takes the text
between the first colon after the scheme and the next slash, ":1]:631", for
the port, `std::stoi` throws on it, and no `is_online` is decided, whatever
dialling would give. Apart from URIs whose port text is not a number the
decision is the two-tier check. A device is spooler-ready iff its
`printer-state` is 3 or 4 and no state reason contains "offline", "shutdown"
or "paused". A device that is not spooler-ready is offline. For a
spooler-ready device whose URI starts with "ipp://", "http://", "socket://" or
"lpd://" and whose host, as extracted from the URI with the port (631 unless
the URI names one), is not empty, "localhost" or "127.0.0.1", `is_online` is
the outcome of dialling that host and port. For every other non-empty URI, and
for a destination without `device-uri`, a spooler-ready device is online. For
state 3 and "ipp://10.0.0.250:631/ipp/print" the host is "10.0.0.250", the
port 631, and a failed dial gives offline. -/
theorem discover_online_port_text :
    parse_host_port "ipp://[fe80::1]:631/ipp/print".data = none ∧
    (∀ dial : List Char → Int → Bool,
      discover_cups_printers_online "lan-printer-8" (some "ipp://[fe80::1]:631/ipp/print")
        (ipp_response 3 []) dial = none) ∧
    (∀ (state : Int) (reasons : List String),
      cups_says_ready (ipp_response state reasons) = true ↔
        (state = 3 ∨ state = 4) ∧ ∀ r ∈ reasons,
          ¬ (contains_substring r.data "offline" ∨ contains_substring r.data "shutdown" ∨
            contains_substring r.data "paused")) ∧
    (∀ (name : String) (device_uri : Option String) (response : Option IppResponse)
        (dial : List Char → Int → Bool),
      cups_says_ready response = false →
      discover_cups_printers_online name device_uri response dial =
        some (false, cups_status response)) ∧
    (∀ (name uri : String) (response : Option IppResponse) (dial : List Char → Int → Bool)
        (host : List Char) (port : Int),
      cups_says_ready response = true → is_network_uri uri.data = true →
      parse_host_port uri.data = some (host, port) → is_local_host host = false →
      (discover_cups_printers_online name (some uri) response dial).map Prod.fst =
        some (dial host port)) ∧
    (∀ (name uri : String) (response : Option IppResponse) (dial : List Char → Int → Bool),
      cups_says_ready response = true → uri.data ≠ [] →
      (is_network_uri uri.data = false ∨
        ∃ host port, parse_host_port uri.data = some (host, port) ∧ is_local_host host = true) →
      discover_cups_printers_online name (some uri) response dial =
        some (true, cups_status response)) ∧
    (∀ (name : String) (response : Option IppResponse) (dial : List Char → Int → Bool),
      cups_says_ready response = true →
      discover_cups_printers_online name none response dial =
        some (true, cups_status response)) ∧
    (∀ (name : String) (device_uri : Option String) (response : Option IppResponse)
        (dial : List Char → Int → Bool),
      discover_cups_printers_online name device_uri response dial = none →
      ∃ uri, device_uri = some uri ∧ is_network_uri uri.data = true ∧
        parse_host_port uri.data = none) ∧
    parse_host_port "ipp://10.0.0.250:631/ipp/print".data = some ("10.0.0.250".data, 631) ∧
    discover_cups_printers_online "lan-printer-7" (some "ipp://10.0.0.250:631/ipp/print")
      (ipp_response 3 []) unroutable = some (false, 5) := by
  refine ⟨by decide, fun _ => rfl, cups_says_ready_iff, ?_, ?_, ?_, ?_, ?_, by decide, by decide⟩
  · intro name device_uri response dial hr
    simp [discover_cups_printers_online, hr]
  · intro name uri response dial host port hr hn hp hl
    have hne : uri.data ≠ [] := by
      intro h0
      rw [h0] at hn
      exact absurd hn (by decide)
    simp only [discover_cups_printers_online, hr, hn, hp, hl, List.isEmpty_iff, hne]
    cases dial host port <;> simp [hne]
  · intro name uri response dial hr hne h
    rcases h with hn | ⟨host, port, hp, hl⟩
    · simp [discover_cups_printers_online, hr, hn, List.isEmpty_iff, hne]
    · by_cases hn : is_network_uri uri.data = true
      · simp [discover_cups_printers_online, hr, hn, hp, hl, List.isEmpty_iff, hne]
      · simp [discover_cups_printers_online, hr, hn, List.isEmpty_iff, hne]
  · intro name response dial hr
    have hn := cups_uri_not_network name
    simp only [discover_cups_printers_online, hr, hn]
    simp
  · intro name device_uri response dial h
    unfold discover_cups_printers_online at h
    simp only [] at h
    split_ifs at h with h1 h2
    · cases device_uri with
      | none =>
        rw [cups_uri_not_network] at h2
        exact absurd h2 (by decide)
      | some uri =>
        refine ⟨uri, rfl, h2, ?_⟩
        cases hp : parse_host_port uri.data with
        | none => rfl
        | some hostport =>
          obtain ⟨host, port⟩ := hostport
          simp only [hp] at h
          split_ifs at h

/-- When the submission returns true, the job has got a positive spooler
id. -/
theorem submit_to_spooler_positive (env : Environment) (q : JobQueue) (addr : Nat)
    (h : (submit_to_spooler env q addr).2 = true) :
    0 < ((submit_to_spooler env q addr).1.heap addr).cups_job_id := by
  unfold submit_to_spooler at h ⊢
  simp only [] at h ⊢
  split_ifs at h ⊢ with hc
  rw [modify_heap_same]
  exact hc

/-! ## Job queue: calls of other threads between the ticks -/

theorem progress_ticks_calls_cons (calls_before : Nat → List QueueCall) (addr i : Nat)
    (ticks : List Nat) (k : Nat) (q : JobQueue) :
    progress_ticks_calls calls_before addr (i :: ticks) k q =
      if (((calls_before k).foldl apply_call q).heap addr).status = JobStatus.Cancelled
      then ((calls_before k).foldl apply_call q, false)
      else progress_ticks_calls calls_before addr ticks (k + 1)
        (ticked ((calls_before k).foldl apply_call q) addr i) := rfl

theorem foldl_cancel_calls (ids : List Int) (q : JobQueue) :
    (ids.map QueueCall.cancel_job).foldl apply_call q =
      ids.foldl (fun q id => (cancel_job q id).1) q := by
  induction ids generalizing q with
  | nil => rfl
  | cons id ids ih => exact ih _

/-- The loop with only `cancel_job` calls between the ticks is the loop with
these calls as the calls of other threads. -/
theorem progress_ticks_eq_calls (cancelled_before : Nat → List Int) (addr : Nat)
    (ticks : List Nat) (k : Nat) (q : JobQueue) :
    progress_ticks cancelled_before addr ticks k q =
      progress_ticks_calls (fun k => (cancelled_before k).map QueueCall.cancel_job) addr
        ticks k q := by
  induction ticks generalizing k q with
  | nil => rfl
  | cons i ticks ih =>
    rw [progress_ticks_cons, progress_ticks_calls_cons, foldl_cancel_calls, ih]

/-- `process_job` with only `cancel_job` calls between the ticks is
`process_job_calls` with these calls as the calls of other threads. -/
theorem process_job_eq_calls (env : Environment) (started completed : Nat)
    (cancelled_before : Nat → List Int) (q : JobQueue) (addr : Nat) :
    process_job env started completed cancelled_before q addr =
      process_job_calls env started completed
        (fun k => (cancelled_before k).map QueueCall.cancel_job) q addr := by
  rw [process_job_eq]
  unfold process_job_calls
  have he : ∀ q2 : JobQueue, execute_print_job env cancelled_before q2 addr =
      execute_print_job_calls env (fun k => (cancelled_before k).map QueueCall.cancel_job)
        q2 addr := by
    intro q2
    unfold execute_print_job_calls
    cases hpm : q2.printer_manager_ with
    | none =>
      unfold execute_print_job
      rw [hpm]
    | some pm =>
      cases hfile : env.file_exists (q2.heap addr).file_path with
      | false =>
        rw [execute_print_job_file_missing env cancelled_before q2 addr pm hpm hfile]
        simp
      | true =>
        rw [execute_print_job_eq env cancelled_before q2 addr pm hpm hfile,
          progress_ticks_eq_calls]
        simp only [Bool.not_true, Bool.false_eq_true, if_false]
        generalize progress_ticks_calls (fun k => (cancelled_before k).map QueueCall.cancel_job)
          addr [0, 20, 40, 60, 80, 100] 0 q2 = r
        cases hr : r.2 <;> simp
  rw [he]

/-- When `execute_print_job` returns true, the job has got a positive spooler
id, whatever calls of other threads fell between the ticks. -/
theorem execute_print_job_calls_true (env : Environment) (calls_before : Nat → List QueueCall)
    (q : JobQueue) (addr : Nat)
    (h : (execute_print_job_calls env calls_before q addr).2 = true) :
    0 < ((execute_print_job_calls env calls_before q addr).1.heap addr).cups_job_id := by
  generalize hr : execute_print_job_calls env calls_before q addr = r at h ⊢
  unfold execute_print_job_calls at hr
  split at hr
  · rw [← hr] at h
    exact absurd h (by simp)
  · simp only [] at hr
    split_ifs at hr with h1 h2
    · rw [← hr] at h
      exact absurd h (by simp)
    · rw [← hr] at h
      exact absurd h (by simp)
    · rw [← hr] at h ⊢
      exact submit_to_spooler_positive env _ addr h

/-- A job that `process_job` leaves `Completed` has a positive spooler id and
its `completed_at` at the second clock reading of the call, whatever calls of
other threads fall between the ticks. -/
theorem process_job_calls_completed (env : Environment) (started completed : Nat)
    (calls_before : Nat → List QueueCall) (q : JobQueue) (addr : Nat)
    (hs : ¬ ((q.heap addr).status = JobStatus.Cancelled ∨
      (q.heap addr).status = JobStatus.Paused))
    (hc : ((process_job_calls env started completed calls_before q addr).heap addr).status =
      JobStatus.Completed) :
    0 < ((process_job_calls env started completed calls_before q addr).heap addr).cups_job_id ∧
    ((process_job_calls env started completed calls_before q addr).heap addr).completed_at =
      completed := by
  unfold process_job_calls at hc ⊢
  rw [if_neg hs] at hc ⊢
  simp only [] at hc ⊢
  rw [processing_finished_heap] at hc ⊢
  cases he : (execute_print_job_calls env calls_before (processing_started q addr started)
      addr).2
  · rw [he] at hc
    exact absurd hc (by simp)
  · simp only [if_true]
    exact ⟨execute_print_job_calls_true env calls_before _ addr he, trivial⟩

/-- C21, at the failing input: `sample_job` is submitted at clock reading 5
and a worker starts processing it at 6; between the second and the third
progress tick another thread calls `cancel_job(1)` and then `retry_job(1)`,
which makes the job `Pending` again and resets `started_at`. The loop goes on
(the progress callback sees 0, 20, ..., 100), the spooler accepts the job with
id 17 and the worker finishes at 7: the job is `Completed` with `created_at`
5, `completed_at` 7 and `started_at` at the default time point 0, before
`created_at`, and it is in the FIFO once more. Without calls of other threads
the time points are 5, 6, 7. Whatever calls fall between the ticks, a job
that `process_job` leaves `Completed` has a positive spooler id and
`completed_at` at the second clock reading. -/
theorem retry_between_ticks_resets_started_at :
    ((get_job retried_while_processing 1).map (fun job =>
        (job.status, job.cups_job_id, job.created_at, job.started_at, job.completed_at)),
      observed_statuses retried_while_processing.events,
      observed_progress retried_while_processing.events,
      get_queue_size retried_while_processing) =
      (some (JobStatus.Completed, 17, 5, 0, 7),
        [JobStatus.Processing, JobStatus.Cancelled, JobStatus.Pending, JobStatus.Completed],
        [0, 20, 40, 60, 80, 100], 1) ∧
    (get_job (worker_round_calls spooler_accepts 6 7 no_calls (run JobQueue.fresh submit_sample))
        1).map (fun job =>
        (job.status, job.cups_job_id, job.created_at, job.started_at, job.completed_at)) =
      some (JobStatus.Completed, 17, 5, 6, 7) ∧
    ∀ (env : Environment) (started completed : Nat) (calls_before : Nat → List QueueCall)
      (q : JobQueue) (addr : Nat),
      ¬ ((q.heap addr).status = JobStatus.Cancelled ∨
        (q.heap addr).status = JobStatus.Paused) →
      ((process_job_calls env started completed calls_before q addr).heap addr).status =
        JobStatus.Completed →
      0 < ((process_job_calls env started completed calls_before q addr).heap addr).cups_job_id ∧
      ((process_job_calls env started completed calls_before q addr).heap addr).completed_at =
        completed := by
  exact ⟨rfl, rfl, process_job_calls_completed⟩

end AllPress
